import Mathlib

/-!
# The live-model facade of the reinforcement-learning client library

A shallow embedding of `rlclientlib/live_model_impl.cc` and of the creation functions of
`rlclientlib/azure_factories.cc`.

* C++ functions that return an `int` status and write through a reference are functions that
  return the status together with the new value of the referenced object.
* Undefined behaviour (dereferencing `begin()` of an empty range, reading a vector past its end,
  building a `string_view` from a null pointer) is the result `none`.
* Collaborators that live outside this translation unit (the policy adapter, the sampler, the
  loggers, the context parser) are fields of `Env`; every call made to one of them is recorded in
  a list of `call`s, in program order.
* `std::sort` is any function with the postcondition the C++ standard gives it (a sorted
  permutation; the order of equal keys is not fixed); the implementation in use is a field of
  `Env`.
* A `float` is only ever copied or overwritten with the constant `1.f`; it is kept as its
  IEEE-754 bit pattern.
* The caller's `api_status` object is followed in `request_decision`; the other operations are
  given by the status they return.
-/

namespace reinforcement_learning

/-! ## Status codes -/

/-- The `error_code` constants used by the facade; `other` stands for every further code a
collaborator may return. -/
inductive error_code where
  | success
  | invalid_argument
  | json_parse_error
  | not_supported
  | baseline_actions_not_defined
  | model_update_error
  | content_encoding_error
  | http_uri_not_provided
  | unhandled_background_error_occurred
  | other (code : Nat)
  deriving DecidableEq, Repr

/-- Bit pattern of a C++ `float`. -/
abbrev float := Nat

/-- The literal `1.f`. -/
def float.one : float := 0x3F800000

/-! ## `std::sort` -/

/-- The call `std::sort(first, last, comp)`. The C++ standard gives its result by a postcondition
only: the range holds the elements it held before, sorted with respect to `comp`, that is, no
element compares less than an element placed before it. The order in which elements that `comp`
does not tell apart come out is not fixed (the sort is not stable, and the standard libraries
differ in it). A sort is therefore any function `sort` with this postcondition, and the facade is
given for every one of them. -/
structure std_sort (α : Type) (comp : α → α → Bool) where
  sort : List α → List α
  perm : ∀ l, (sort l).Perm l
  sorted : ∀ l, (sort l).Pairwise (fun a b => comp b a = false)

/-! ## `ranking_response` -/

/-- One entry `action_prob` of a ranking. -/
structure action_prob where
  action_id : Nat
  probability : float
  deriving DecidableEq, Repr

/-- The class `ranking_response`: event id, chosen action id, model id and the ranking. -/
structure ranking_response where
  event_id : String
  chosen_action_id : Nat
  model_id : String
  ranking : List action_prob
  deriving DecidableEq, Repr

/-- Modelled from the spec: `ranking_response::clear` (the class is not among the sources); the
cleared response is the empty one. -/
def ranking_response.clear (_r : ranking_response) : ranking_response :=
  { event_id := "", chosen_action_id := 0, model_id := "", ranking := [] }

/-- The method `ranking_response::set_event_id`. -/
def ranking_response.set_event_id (r : ranking_response) (event_id : String) : ranking_response :=
  { r with event_id := event_id }

/-- Modelled from the spec: `ranking_response::set_chosen_action_id` (the class is not among the
sources). It stores the chosen action id. The callers treat it as fallible (`RETURN_IF_FAIL`), so
its acceptance test, a function `check` of the id and of the ranking, is a parameter; when the
test does not return `success` the response is left as it is. -/
def ranking_response.set_chosen_action_id (check : Nat → List action_prob → error_code)
    (r : ranking_response) (action_id : Nat) : error_code × ranking_response :=
  if check action_id r.ranking = error_code.success then
    (error_code.success, { r with chosen_action_id := action_id })
  else (check action_id r.ranking, r)

/-- The comparison lambda of `reset_action_order`:
`[](const action_prob& a, const action_prob& b) { return a.action_id < b.action_id; }`. -/
def action_id_less (a b : action_prob) : Bool := decide (a.action_id < b.action_id)

/-- The function `reset_action_order(ranking_response& response)`: sort the ranking by action id,
then make the first entry the chosen action. `*(response.begin())` on an empty ranking is
undefined. The sort has already been applied to the response when the status is returned. -/
def reset_action_order (sort : std_sort action_prob action_id_less)
    (check : Nat → List action_prob → error_code) (response : ranking_response) :
    Option (error_code × ranking_response) :=
  let sorted : ranking_response := { response with ranking := sort.sort response.ranking }
  match sorted.ranking with
  | [] => none
  | first :: _ => some (sorted.set_chosen_action_id check first.action_id)

/-! ## Strings -/

/-- A `string_view` into a NUL-terminated buffer: `data` is the text stored from `data()` up to
the terminating NUL (`none` for a null `data()`), and the view denotes its first `size`
characters. -/
structure string_view where
  data : Option String
  size : Nat
  deriving DecidableEq, Repr

/-- The converting constructor `string_view(const char*)`: the length is `strlen` of the pointer,
which is undefined for a null pointer. -/
def string_view.of_c_str : Option String → Option string_view
  | none => none
  | some s => some { data := some s, size := s.length }

/-- The view of a whole `std::string` or string literal. -/
def string_view.of_string (s : String) : string_view := { data := some s, size := s.length }

/-- The method `string_view::empty`. -/
def string_view.empty (v : string_view) : Bool := v.size == 0

/-- The characters a view denotes. -/
def string_view.text (v : string_view) : String := String.mk ((v.data.getD "").data.take v.size)

/-- A view stays inside its buffer. -/
def string_view.wf (v : string_view) : Bool :=
  match v.data with
  | none => v.size == 0
  | some s => decide (v.size ≤ s.length)

/-! ## Responses of the other decision kinds -/

/-- The class `continuous_action_response`. -/
structure continuous_action_response where
  event_id : String
  chosen_action : float
  chosen_action_pdf_value : float
  model_id : String
  deriving DecidableEq, Repr

/-- Modelled from the spec: `continuous_action_response::clear` (the class is not among the
sources); the cleared response is the empty one. -/
def continuous_action_response.clear (_r : continuous_action_response) : continuous_action_response :=
  { event_id := "", chosen_action := 0, chosen_action_pdf_value := 0, model_id := "" }

/-- One slot of a `multi_slot_response`: slot id, chosen action and its probability. -/
structure slot_entry where
  id : String
  action_id : Int
  probability : float
  deriving DecidableEq, Repr

/-- The method `slot_entry::set_action_id`. -/
def slot_entry.set_action_id (s : slot_entry) (action_id : Int) : slot_entry :=
  { s with action_id := action_id }

/-- The method `slot_entry::set_probability`. -/
def slot_entry.set_probability (s : slot_entry) (p : float) : slot_entry :=
  { s with probability := p }

/-- The class `multi_slot_response`. -/
structure multi_slot_response where
  event_id : String
  model_id : String
  slots : List slot_entry
  deriving DecidableEq, Repr

/-- Modelled from the spec: `multi_slot_response::clear` (the class is not among the sources);
the cleared response is the empty one. -/
def multi_slot_response.clear (_r : multi_slot_response) : multi_slot_response :=
  { event_id := "", model_id := "", slots := [] }

/-! ## Learning mode, watchdog, episode -/

/-- The enumeration `learning_mode`. -/
inductive learning_mode where
  | ONLINE
  | APPRENTICE
  | LOGGINGONLY
  deriving DecidableEq, Repr

/-- The class `utility::watchdog`, reduced to its unhandled-background-error flag. -/
structure watchdog where
  unhandled_background_error : Bool
  deriving DecidableEq, Repr

/-- The method `watchdog::set_unhandled_background_error`. -/
def watchdog.set_unhandled_background_error (_w : watchdog) (value : Bool) : watchdog :=
  { unhandled_background_error := value }

/-- Modelled from the spec: `watchdog::has_background_error_been_reported` (the class is not among
the sources), which "clears the flag and returns the previous value". -/
def watchdog.has_background_error_been_reported (w : watchdog) : Bool × watchdog :=
  (w.unhandled_background_error, { unhandled_background_error := false })

/-- One event of an episode: event id, previous id, context and the response given. -/
structure episode_event where
  event_id : String
  previous_id : Option String
  context : String
  response : ranking_response
  deriving DecidableEq, Repr

/-- Modelled from the spec: the class `episode_state` (not among the sources), an ordered sequence
of events identified by an episode id. -/
structure episode_state where
  episode_id : String
  events : List episode_event
  deriving DecidableEq, Repr

/-- The method `episode_state::size`. -/
def episode_state.size (e : episode_state) : Nat := e.events.length

/-- The method `episode_state::get_episode_id`. -/
def episode_state.get_episode_id (e : episode_state) : String := e.episode_id

/-- The structure `utility::ContextInfo`: the (offset, length) pairs of the `_multi` entries and
of the `_slots` entries found in a context. -/
structure ContextInfo where
  actions : List (Nat × Nat)
  slots : List (Nat × Nat)
  deriving DecidableEq, Repr

/-! ## Configuration -/

/-- The configuration names the facade reads or writes (`name::...` and
`config_constants::CONFIG_SECTION`), as symbols; `other` is any further key. -/
inductive name where
  | APP_ID
  | INITIAL_EPSILON
  | USE_COMPRESSION
  | USE_DEDUP
  | EPISODE_EH_HOST
  | EPISODE_FILE_NAME
  | EPISODE_HTTP_API_HOST
  | CONFIG_SECTION
  | PROTOCOL_VERSION
  | MODEL_BACKGROUND_REFRESH
  | LEARNING_MODE
  | MODEL_BLOB_URI
  | OBSERVATION_HTTP_API_HOST
  | OBSERVATION_APIM_TASKS_LIMIT
  | OBSERVATION_APIM_MAX_HTTP_RETRIES
  | INTERACTION_HTTP_API_HOST
  | INTERACTION_APIM_TASKS_LIMIT
  | INTERACTION_APIM_MAX_HTTP_RETRIES
  | OBSERVATION_EH_HOST
  | OBSERVATION_EH_NAME
  | OBSERVATION_EH_TASKS_LIMIT
  | OBSERVATION_EH_MAX_HTTP_RETRIES
  | INTERACTION_EH_HOST
  | INTERACTION_EH_NAME
  | INTERACTION_EH_TASKS_LIMIT
  | INTERACTION_EH_MAX_HTTP_RETRIES
  | other (key : String)
  deriving DecidableEq, Repr

/-- Modelled from the spec: the class `utility::configuration` (not among the sources), a flat
name→string map; the newest entry of a name is the one in force. -/
structure configuration where
  entries : List (name × String)
  deriving DecidableEq, Repr

/-- The method `configuration::get(name, defval)`; `none` is a null `const char*`. -/
def configuration.get (c : configuration) (n : name) (defval : Option String) : Option String :=
  match c.entries.lookup n with
  | some v => some v
  | none => defval

/-- The method `configuration::set(name, value)`. -/
def configuration.set (c : configuration) (n : name) (value : String) : configuration :=
  { entries := (n, value) :: c.entries }

/-- The sections `config_constants::INTERACTION`, `OBSERVATION` and `EPISODE`, which are also the
three log channels. -/
inductive channel where
  | INTERACTION
  | OBSERVATION
  | EPISODE
  deriving DecidableEq, Repr

/-- The value of a section constant. -/
def channel.value : channel → String
  | .INTERACTION => "interaction"
  | .OBSERVATION => "observation"
  | .EPISODE => "episode"

/-- The class `model_management::model_data`: the model bytes and the refresh count. -/
structure model_data where
  data : List Nat
  refresh_count : Nat
  deriving DecidableEq, Repr

/-- The four places where `init_loggers` asks the time-provider factory for a provider. -/
inductive time_provider_use where
  | logger_extensions
  | for_channel (c : channel)
  deriving DecidableEq, Repr

/-! ## Status object, decision response, detailed multi-slot response -/

/-- Modelled from the spec: the class `api_status` (not among the sources), which "carries an
error code plus a formatted message". -/
structure api_status where
  code : error_code
  msg : String
  deriving DecidableEq, Repr

/-- The function `api_status::try_clear(status)`: a non-null status is reset. -/
def api_status.try_clear : Option api_status → Option api_status
  | none => none
  | some _ => some { code := error_code.success, msg := "" }

/-- Modelled from the spec: what the macros `RETURN_ERROR_LS` and `RETURN_ERROR_ARG` (not among
the sources) leave in a non-null status: the code returned and the message given. -/
def api_status.report (status : Option api_status) (code : error_code) (msg : String) :
    Option api_status :=
  match status with
  | none => none
  | some _ => some { code := code, msg := msg }

/-- Modelled from the spec: the class `decision_response` (not among the sources), the model id
and one entry per slot. -/
structure decision_response where
  model_id : String
  slots : List slot_entry
  deriving DecidableEq, Repr

/-- Modelled from the spec: `decision_response::clear`; the cleared response is the empty one. -/
def decision_response.clear (_r : decision_response) : decision_response :=
  { model_id := "", slots := [] }

/-- Modelled from the spec: one slot of a `multi_slot_response_detailed` (the class is not among
the sources): the slot id and the chosen action, and "additionally ... the per-slot reordered
pdf". -/
structure slot_ranking where
  id : String
  chosen_action_id : Int
  ranking : List action_prob
  deriving DecidableEq, Repr

/-- Modelled from the spec: `slot_ranking::set_chosen_action_id`. It stores the chosen action id.
The caller treats it as fallible (`RETURN_IF_FAIL`), so its acceptance test, a function `check`
of the id and of the ranking, is a parameter; when the test does not return `success` the slot is
left as it is. -/
def slot_ranking.set_chosen_action_id (check : Int → List action_prob → error_code)
    (s : slot_ranking) (action_id : Int) : error_code × slot_ranking :=
  if check action_id s.ranking = error_code.success then
    (error_code.success, { s with chosen_action_id := action_id })
  else (check action_id s.ranking, s)

/-- The probability a detailed slot reports for its chosen action: that of the entry of its
ranking with the chosen action id. -/
def slot_ranking.chosen_probability (s : slot_ranking) : Option float :=
  (s.ranking.find? (fun a => decide (Int.ofNat a.action_id = s.chosen_action_id))).map
    (fun a => a.probability)

/-- Modelled from the spec: the class `multi_slot_response_detailed` (not among the sources). -/
structure multi_slot_response_detailed where
  event_id : String
  model_id : String
  slots : List slot_ranking
  deriving DecidableEq, Repr

/-- Modelled from the spec: `multi_slot_response_detailed::clear`; the cleared response is the
empty one. -/
def multi_slot_response_detailed.clear (_r : multi_slot_response_detailed) :
    multi_slot_response_detailed :=
  { event_id := "", model_id := "", slots := [] }

/-- Modelled from the spec: `multi_slot_response_detailed::resize(n)`, which sets "the size of
buffer in response to match the number of slots". -/
def multi_slot_response_detailed.resize (r : multi_slot_response_detailed) (n : Nat) :
    multi_slot_response_detailed :=
  { r with slots := r.slots.take n ++
      List.replicate (n - r.slots.length) { id := "", chosen_action_id := 0, ranking := [] } }

/-- The outcome a `report_outcome` overload is given: a text (`const char*`, already known to be
non-null) or a number (`float`). -/
inductive outcome_value where
  | text (s : String)
  | number (f : float)
  deriving DecidableEq, Repr

/-- The secondary id a `report_outcome` overload is given: none, an index (`int`) or a text
(`const char*`, already known to be non-null). -/
inductive secondary_id where
  | absent
  | index (i : Int)
  | text (s : String)
  deriving DecidableEq, Repr

/-- What `_error_cb` holds: nothing (a null function pointer or an empty `std::function`), the
function `default_error_callback` with the facade's own `_watchdog` as its context, or a function
of the user. -/
inductive error_callback where
  | empty
  | default_error_callback
  | user (fn : Nat)
  deriving DecidableEq, Repr

/-! ## Collaborators -/

/-- What the policy writes for a ranking request: action ids, pdf and model version. -/
structure rank_decision where
  action_ids : List Int
  action_pdf : List float
  model_version : String
  deriving DecidableEq, Repr

/-- What the policy writes for a continuous-action request. -/
structure continuous_decision where
  action : float
  pdf_value : float
  model_version : String
  deriving DecidableEq, Repr

/-- What the policy writes for a multi-slot request: per-slot action ids and pdfs. -/
structure multi_slot_decision where
  action_ids : List (List Nat)
  action_pdfs : List (List float)
  model_version : String
  deriving DecidableEq, Repr

/-- A call made by the facade to a collaborator, with the arguments passed. -/
inductive call where
  | model_choose_rank (event_id : String) (seed : Nat) (context : String)
  | sample_and_populate_response (seed : Nat) (action_ids : List Int) (action_pdf : List float)
      (model_version : String)
  | interaction_logger_log (context : String) (flags : Nat) (response : ranking_response)
      (mode : learning_mode)
  | model_choose_continuous_action (context : String)
  | populate_response (action : float) (pdf_value : float) (event_id : String)
      (model_version : String)
  | interaction_logger_log_continuous_action (context : String) (flags : Nat)
      (response : continuous_action_response)
  | get_context_info (context : String)
  | get_slot_ids (context : String) (slots : List (Nat × Nat))
  | model_request_multi_slot_decision (event_id : String) (slot_ids : List String)
      (context : String)
  | populate_multi_slot_response (action_ids : List (List Nat)) (action_pdfs : List (List float))
      (event_id : String) (model_version : String) (slot_ids : List String)
  | interaction_logger_log_decision (event_id : String) (context : String) (flags : Nat)
      (action_ids : List (List Nat)) (action_pdfs : List (List float)) (model_version : String)
      (slot_ids : List String) (baseline_actions : List Int) (mode : learning_mode)
  | model_choose_rank_multistep (event_id : String) (seed : Nat) (context : String)
      (history : List episode_event)
  | episode_update (event_id : String) (previous_id : Option String) (context : String)
      (response : ranking_response)
  | episode_logger_log (episode_id : String)
  | interaction_logger_log_multistep (episode_id : String) (previous_id : Option String)
      (context : String) (flags : Nat) (response : ranking_response)
  | trace_factory_create (config : configuration)
  | model_factory_create (config : configuration)
  | data_transport_factory_create (config : configuration)
  | bg_model_proc_init
  | transport_get_data
  | model_update (data : model_data)
  | sender_factory_create (c : channel) (config : configuration)
  | sender_init (c : channel) (config : configuration)
  | message_sender_init (c : channel)
  | time_provider_factory_create (use : time_provider_use) (config : configuration)
  | logger_init (c : channel)
  | get_event_ids (context : String)
  | model_request_decision (event_ids : List String) (context : String)
  | populate_decision_response (action_ids : List (List Nat)) (action_pdfs : List (List float))
      (event_ids : List String) (model_version : String)
  | interaction_logger_log_decisions (event_ids : List String) (context : String) (flags : Nat)
      (action_ids : List (List Nat)) (action_pdfs : List (List float)) (model_version : String)
  | populate_multi_slot_response_detailed (action_ids : List (List Nat))
      (action_pdfs : List (List float)) (event_id : String) (model_version : String)
      (slot_ids : List String)
  | outcome_logger_log (primary_id : String) (secondary : secondary_id) (outcome : outcome_value)
  | outcome_logger_report_action_taken (event_id : Option String)
  | outcome_logger_report_action_taken_secondary (primary_id : Option String)
      (secondary_id : Option String)
  | error_cb_report_error (status : api_status)
  | create_http_client (url : String) (config : configuration)
  deriving DecidableEq, Repr

/-- Calls to the policy adapter `_model`. -/
def call.is_policy : call → Bool
  | .model_choose_rank _ _ _ => true
  | .model_choose_continuous_action _ => true
  | .model_request_multi_slot_decision _ _ _ => true
  | .model_choose_rank_multistep _ _ _ _ => true
  | .model_request_decision _ _ => true
  | _ => false

/-- Calls to the context parser (`utility::get_context_info`, `get_slot_ids`,
`get_event_ids`). -/
def call.is_context_parser : call → Bool
  | .get_context_info _ => true
  | .get_slot_ids _ _ => true
  | .get_event_ids _ => true
  | _ => false

/-- The seed argument of a call to the policy or to the sampler. -/
def call.seed_arg : call → Option Nat
  | .model_choose_rank _ seed _ => some seed
  | .sample_and_populate_response seed _ _ _ => some seed
  | .model_choose_rank_multistep _ seed _ _ => some seed
  | _ => none

/-- Calls to the exploration sampler. -/
def call.is_sampler : call → Bool
  | .sample_and_populate_response _ _ _ _ => true
  | _ => false

/-- Calls to the interaction logger `_interaction_logger`. -/
def call.is_interaction_logger : call → Bool
  | .interaction_logger_log _ _ _ _ => true
  | .interaction_logger_log_continuous_action _ _ _ => true
  | .interaction_logger_log_decision _ _ _ _ _ _ _ _ _ => true
  | .interaction_logger_log_multistep _ _ _ _ _ => true
  | .interaction_logger_log_decisions _ _ _ _ _ _ => true
  | _ => false

/-- Calls to the observation logger `_outcome_logger`. -/
def call.is_outcome_logger : call → Bool
  | .outcome_logger_log _ _ _ => true
  | .outcome_logger_report_action_taken _ => true
  | .outcome_logger_report_action_taken_secondary _ _ => true
  | _ => false

/-- Calls that hand an action-taken event to the observation logger. -/
def call.is_action_taken : call → Bool
  | .outcome_logger_report_action_taken _ => true
  | .outcome_logger_report_action_taken_secondary _ _ => true
  | _ => false

/-- Calls to an event logger: the interaction logger or the episode logger. -/
def call.is_logger : call → Bool
  | .episode_logger_log _ => true
  | c => c.is_interaction_logger

/-- The collaborators of the facade. Each field gives, for the arguments the facade passes, the
status the collaborator returns and what it writes through its output arguments. -/
structure Env where
  /-- The function `VW::uniform_hash(key, len, seed)`. -/
  uniform_hash : String → Nat → Nat
  /-- The acceptance test of `ranking_response::set_chosen_action_id`. -/
  set_chosen_action_id_check : Nat → List action_prob → error_code
  /-- The `std::sort` of the standard library in use, for the comparison of
  `reset_action_order`. -/
  std_sort : std_sort action_prob action_id_less
  /-- The default generator `boost::uuids::random_generator`, rendered by `to_string`; the
  argument numbers the draws of one call. -/
  random_uuid : Nat → String
  model_choose_rank : String → Nat → String → error_code × rank_decision
  sample_and_populate_response :
    Nat → List Int → List float → String → ranking_response → error_code × ranking_response
  interaction_logger_log : String → Nat → ranking_response → learning_mode → error_code
  model_choose_continuous_action : String → error_code × continuous_decision
  populate_response : float → float → String → String → continuous_action_response →
    error_code × continuous_action_response
  interaction_logger_log_continuous_action :
    String → Nat → continuous_action_response → error_code
  get_context_info : String → error_code × ContextInfo
  get_slot_ids : String → List (Nat × Nat) → error_code × List (Nat × String)
  model_request_multi_slot_decision :
    String → List String → String → error_code × multi_slot_decision
  populate_multi_slot_response : List (List Nat) → List (List float) → String → String →
    List String → multi_slot_response → error_code × multi_slot_response
  interaction_logger_log_decision : String → String → Nat → List (List Nat) →
    List (List float) → String → List String → List Int → learning_mode → error_code
  history_get_context : List episode_event → Option String → String → String
  model_choose_rank_multistep :
    String → Nat → String → List episode_event → error_code × rank_decision
  episode_update : episode_state → String → Option String → String → ranking_response →
    error_code × episode_state
  episode_logger_log : String → error_code
  interaction_logger_log_multistep :
    String → Option String → String → Nat → ranking_response → error_code
  /-- The accessor `configuration::get_bool(section, name, defval)`. -/
  config_get_bool : configuration → String → name → Bool → Bool
  /-- The accessor `configuration::get_float(name, defval)`. -/
  config_get_float : configuration → name → float → float
  trace_factory_create : configuration → error_code
  model_factory_create : configuration → error_code
  data_transport_factory_create : configuration → error_code
  bg_model_proc_init : error_code
  transport_get_data : error_code × model_data
  /-- The method `i_model::update(data, model_ready, status)`: the status and the readiness
  written to `model_ready`. -/
  model_update : model_data → error_code × Bool
  sender_factory_create : channel → configuration → error_code
  sender_init : channel → configuration → error_code
  message_sender_init : channel → error_code
  time_provider_factory_create : time_provider_use → configuration → error_code
  logger_init : channel → error_code
  get_event_ids : String → error_code × List (Nat × String)
  model_request_decision : List String → String → error_code × multi_slot_decision
  populate_decision_response : List (List Nat) → List (List float) → List String → String →
    decision_response → error_code × decision_response
  interaction_logger_log_decisions : List String → String → Nat → List (List Nat) →
    List (List float) → String → error_code
  populate_multi_slot_response_detailed : List (List Nat) → List (List float) → String →
    String → List String → multi_slot_response_detailed →
    error_code × multi_slot_response_detailed
  /-- The acceptance test of `slot_ranking::set_chosen_action_id`. -/
  set_slot_chosen_action_id_check : Int → List action_prob → error_code
  /-- What a collaborator leaves in the caller's status object, given the call and the status
  before it. -/
  status_after : call → Option api_status → Option api_status
  /-- The boolean reading of a configuration value by `configuration::get_bool`, with the
  default for a text that is not a boolean. -/
  parse_bool : String → Bool → Bool
  /-- The accessor `configuration::get_int(name, defval)`. -/
  config_get_int : configuration → name → Int → Int
  /-- The function `learning::to_learning_mode`. -/
  to_learning_mode : Option String → learning_mode
  /-- The method `observation_logger_facade::log(event_id [, secondary_id], outcome, status)`. -/
  outcome_logger_log : String → secondary_id → outcome_value → error_code
  /-- The method `observation_logger_facade::report_action_taken(event_id, status)`; `none` is a
  null pointer. -/
  outcome_logger_report_action_taken : Option String → error_code
  /-- The method `observation_logger_facade::report_action_taken(primary_id, secondary_id,
  status)`. -/
  outcome_logger_report_action_taken_secondary : Option String → Option String → error_code
  /-- The function `create_http_client(url, config, &client, status)`. -/
  create_http_client : String → configuration → error_code

/-! ## The facade object -/

/-- The members of `live_model_impl` that the operations read or write. -/
structure live_model_impl where
  _configuration : configuration
  _protocol_version : Int
  _learning_mode : learning_mode
  _seed_shift : Nat
  _initial_epsilon : float
  _watchdog : watchdog
  /-- Whether `_bg_model_proc` holds a background process; the constructor creates it when
  background refresh is enabled. -/
  _bg_model_proc : Bool
  _model_ready : Bool
  /-- Whether `_episode_logger` holds a logger; it is created only when an episode sender is
  configured. -/
  _episode_logger : Bool
  _error_cb : error_callback
  deriving DecidableEq, Repr

/-- What a facade operation leaves behind: the status returned, the caller's response, the
facade object and the collaborator calls made, in order. -/
structure outcome (ρ : Type) where
  code : error_code
  response : ρ
  self : live_model_impl
  calls : List call

/-! ## Argument checks -/

/-- The overload `check_null_or_empty(const char* arg1, string_view arg2, ...)`. -/
def check_null_or_empty (arg1 : Option String) (arg2 : string_view) : error_code :=
  match arg1 with
  | none => error_code.invalid_argument
  | some s =>
    if s.length == 0 || arg2.empty then error_code.invalid_argument else error_code.success

/-- The overload `check_null_or_empty(string_view arg1, ...)`. -/
def check_null_or_empty_view (arg1 : string_view) : error_code :=
  if arg1.empty then error_code.invalid_argument else error_code.success

/-- The overload `check_null_or_empty(const char* arg1, ...)`. -/
def check_null_or_empty_c_str (arg1 : Option String) : error_code :=
  match arg1 with
  | none => error_code.invalid_argument
  | some s => if s.length == 0 then error_code.invalid_argument else error_code.success

/-- The seed of a decision: `VW::uniform_hash(event_id, strlen(event_id), 0) + _seed_shift` in
`uint64_t` arithmetic. -/
def live_model_impl.seed (env : Env) (self : live_model_impl) (event_id : String) : Nat :=
  (env.uniform_hash event_id 0 % 2 ^ 64 + self._seed_shift) % 2 ^ 64

/-- The final watchdog check shared by the decision operations: reading the flag, and the status
returned for it. -/
def live_model_impl.check_watchdog {ρ : Type} (self : live_model_impl) (response : ρ)
    (calls : List call) : outcome ρ :=
  let r := self._watchdog.has_background_error_been_reported
  if r.1 then
    { code := error_code.unhandled_background_error_occurred, response := response,
      self := { self with _watchdog := r.2 }, calls := calls }
  else
    { code := error_code.success, response := response,
      self := { self with _watchdog := r.2 }, calls := calls }

/-! ## `choose_rank` -/

/-- The method `live_model_impl::choose_rank(event_id, context, flags, response, status)`. -/
def live_model_impl.choose_rank (env : Env) (self : live_model_impl) (event_id : Option String)
    (context : string_view) (flags : Nat) (response : ranking_response) :
    Option (outcome ranking_response) :=
  let response := response.clear
  match event_id, check_null_or_empty event_id context with
  | some event_id, error_code.success =>
    let seed := self.seed env event_id
    let decision := (env.model_choose_rank event_id seed context.text).2
    let calls := [call.model_choose_rank event_id seed context.text]
    let sampled := env.sample_and_populate_response seed decision.action_ids decision.action_pdf
      decision.model_version response
    let calls := calls ++ [call.sample_and_populate_response seed decision.action_ids
      decision.action_pdf decision.model_version]
    if sampled.1 ≠ error_code.success then
      some { code := sampled.1, response := sampled.2, self := self, calls := calls }
    else
      let response := sampled.2.set_event_id event_id
      let before :=
        if self._learning_mode = learning_mode.LOGGINGONLY then
          reset_action_order env.std_sort env.set_chosen_action_id_check response
        else some (error_code.success, response)
      match before with
      | none => none
      | some (code, response) =>
        if code ≠ error_code.success then
          some { code := code, response := response, self := self, calls := calls }
        else
          let logged := env.interaction_logger_log context.text flags response self._learning_mode
          let calls := calls ++
            [call.interaction_logger_log context.text flags response self._learning_mode]
          if logged ≠ error_code.success then
            some { code := logged, response := response, self := self, calls := calls }
          else
            let after :=
              if self._learning_mode = learning_mode.APPRENTICE then
                reset_action_order env.std_sort env.set_chosen_action_id_check response
              else some (error_code.success, response)
            match after with
            | none => none
            | some (code, response) =>
              if code ≠ error_code.success then
                some { code := code, response := response, self := self, calls := calls }
              else some (self.check_watchdog response calls)
  | _, code => some { code := code, response := response, self := self, calls := [] }

/-! ## `request_continuous_action` -/

/-- The method `live_model_impl::request_continuous_action(event_id, context, flags, response,
status)`. The argument check and the logger receive `context.data()`, a `const char*`, which the
check converts back to a `string_view`. -/
def live_model_impl.request_continuous_action (env : Env) (self : live_model_impl)
    (event_id : Option String) (context : string_view) (flags : Nat)
    (response : continuous_action_response) : Option (outcome continuous_action_response) :=
  let response := response.clear
  match string_view.of_c_str context.data, context.data with
  | some checked, some data =>
    match event_id, check_null_or_empty event_id checked with
    | some event_id, error_code.success =>
      let chosen := env.model_choose_continuous_action context.text
      let calls := [call.model_choose_continuous_action context.text]
      if chosen.1 ≠ error_code.success then
        some { code := chosen.1, response := response, self := self, calls := calls }
      else
        let populated := env.populate_response chosen.2.action chosen.2.pdf_value event_id
          chosen.2.model_version response
        let calls := calls ++ [call.populate_response chosen.2.action chosen.2.pdf_value event_id
          chosen.2.model_version]
        if populated.1 ≠ error_code.success then
          some { code := populated.1, response := populated.2, self := self, calls := calls }
        else
          let response := populated.2
          let logged := env.interaction_logger_log_continuous_action data flags response
          let calls := calls ++ [call.interaction_logger_log_continuous_action data flags response]
          if logged ≠ error_code.success then
            some { code := logged, response := response, self := self, calls := calls }
          else some (self.check_watchdog response calls)
    | _, code => some { code := code, response := response, self := self, calls := [] }
  | _, _ => none

/-! ## Multi-slot decisions -/

/-- The first loop of `autogenerate_missing_uuids`: `complete_ids[ids.first] = ids.second` for
every entry of the map, in key order; an index past the end is undefined. -/
def assign_found_ids : List (Nat × String) → List String → Option (List String)
  | [], complete_ids => some complete_ids
  | (k, v) :: rest, complete_ids =>
    if k < complete_ids.length then assign_found_ids rest (complete_ids.set k v) else none

/-- The second loop of `autogenerate_missing_uuids`: every empty entry becomes a random uuid
followed by `std::to_string(seed_shift)`; `index` is the position of the first entry. -/
def fill_missing_uuids (env : Env) (seed_shift : Nat) : Nat → List String → List String
  | _, [] => []
  | index, complete_id :: rest =>
    (if complete_id = "" then env.random_uuid index ++ toString seed_shift else complete_id) ::
      fill_missing_uuids env seed_shift (index + 1) rest

/-- The function `autogenerate_missing_uuids(found_ids, complete_ids, seed_shift)`. -/
def autogenerate_missing_uuids (env : Env) (found_ids : List (Nat × String))
    (complete_ids : List String) (seed_shift : Nat) : Option (List String) :=
  match assign_found_ids found_ids complete_ids with
  | none => none
  | some assigned => some (fill_missing_uuids env seed_shift 0 assigned)

/-- The loop of `reset_chosen_action_multi_slot(multi_slot_response&, baseline_actions)`, at slot
number `index`. Reading `baseline_actions[index]` past the end is undefined. The counter is a
`uint32_t`; responses have fewer than `2^32` slots. -/
def reset_chosen_action_multi_slot_loop (baseline_actions : List Int) :
    Nat → List slot_entry → Option (List slot_entry)
  | _, [] => some []
  | index, slot :: rest =>
    let chosen : Option Int :=
      if !baseline_actions.isEmpty && decide (baseline_actions.length ≥ index) then
        baseline_actions[index]?
      else some (Int.ofNat index)
    match chosen, reset_chosen_action_multi_slot_loop baseline_actions (index + 1) rest with
    | some action_id, some rest =>
      some ((slot.set_action_id action_id).set_probability float.one :: rest)
    | _, _ => none

/-- The function `reset_chosen_action_multi_slot(multi_slot_response& response,
const std::vector<int>& baseline_actions)`. -/
def reset_chosen_action_multi_slot (response : multi_slot_response) (baseline_actions : List Int) :
    Option (error_code × multi_slot_response) :=
  match reset_chosen_action_multi_slot_loop baseline_actions 0 response.slots with
  | none => none
  | some slots => some (error_code.success, { response with slots := slots })

/-- The call `slot_ids.resize(n)` on a vector of strings. -/
def resize_ids (slot_ids : List String) (n : Nat) : List String :=
  slot_ids.take n ++ List.replicate (n - slot_ids.length) ""

/-- What `request_multi_slot_decision_impl` leaves behind: the status, the slot ids, the policy
output and the calls made. -/
structure multi_slot_impl_outcome where
  code : error_code
  slot_ids : List String
  decision : multi_slot_decision
  calls : List call

/-- The method `live_model_impl::request_multi_slot_decision_impl`. -/
def live_model_impl.request_multi_slot_decision_impl (env : Env) (self : live_model_impl)
    (event_id : Option String) (context_json : string_view) (slot_ids : List String)
    (decision : multi_slot_decision) : Option multi_slot_impl_outcome :=
  match event_id, check_null_or_empty_c_str event_id with
  | some event_id, error_code.success =>
    if check_null_or_empty_view context_json ≠ error_code.success then
      some { code := check_null_or_empty_view context_json, slot_ids := slot_ids,
             decision := decision, calls := [] }
    else
      let info := env.get_context_info context_json.text
      let calls := [call.get_context_info context_json.text]
      if info.1 ≠ error_code.success then
        some { code := info.1, slot_ids := slot_ids, decision := decision, calls := calls }
      else
        match info.2.slots, info.2.actions with
        | slot :: _, action :: _ =>
          if slot.1 < action.1 then
            some { code := error_code.json_parse_error, slot_ids := slot_ids,
                   decision := decision, calls := calls }
          else
            let slot_ids := resize_ids slot_ids info.2.slots.length
            let found := env.get_slot_ids context_json.text info.2.slots
            let calls := calls ++ [call.get_slot_ids context_json.text info.2.slots]
            if found.1 ≠ error_code.success then
              some { code := found.1, slot_ids := slot_ids, decision := decision, calls := calls }
            else
              match autogenerate_missing_uuids env found.2 slot_ids self._seed_shift with
              | none => none
              | some slot_ids =>
                let decided :=
                  env.model_request_multi_slot_decision event_id slot_ids context_json.text
                let calls := calls ++
                  [call.model_request_multi_slot_decision event_id slot_ids context_json.text]
                if decided.1 ≠ error_code.success then
                  some { code := decided.1, slot_ids := slot_ids, decision := decided.2,
                         calls := calls }
                else
                  some { code := error_code.success, slot_ids := slot_ids,
                         decision := decided.2, calls := calls }
        | _, _ =>
          some { code := error_code.json_parse_error, slot_ids := slot_ids, decision := decision,
                 calls := calls }
  | _, code => some { code := code, slot_ids := slot_ids, decision := decision, calls := [] }

/-- The method `live_model_impl::request_multi_slot_decision(event_id, context_json, flags,
multi_slot_response& resp, baseline_actions, status)`. -/
def live_model_impl.request_multi_slot_decision (env : Env) (self : live_model_impl)
    (event_id : Option String) (context_json : string_view) (flags : Nat)
    (resp : multi_slot_response) (baseline_actions : List Int) :
    Option (outcome multi_slot_response) :=
  let resp := resp.clear
  if self._learning_mode = learning_mode.APPRENTICE ∧ baseline_actions.isEmpty = true then
    some { code := error_code.baseline_actions_not_defined, response := resp, self := self,
           calls := [] }
  else
    match self.request_multi_slot_decision_impl env event_id context_json []
        { action_ids := [], action_pdfs := [], model_version := "" } with
    | none => none
    | some impl =>
      if impl.code ≠ error_code.success then
        some { code := impl.code, response := resp, self := self, calls := impl.calls }
      else
        let event_id := event_id.getD ""
        let populated := env.populate_multi_slot_response impl.decision.action_ids
          impl.decision.action_pdfs event_id impl.decision.model_version impl.slot_ids resp
        let calls := impl.calls ++ [call.populate_multi_slot_response impl.decision.action_ids
          impl.decision.action_pdfs event_id impl.decision.model_version impl.slot_ids]
        if populated.1 ≠ error_code.success then
          some { code := populated.1, response := populated.2, self := self, calls := calls }
        else
          let resp := populated.2
          let logged := env.interaction_logger_log_decision event_id context_json.text flags
            impl.decision.action_ids impl.decision.action_pdfs impl.decision.model_version
            impl.slot_ids baseline_actions self._learning_mode
          let calls := calls ++ [call.interaction_logger_log_decision event_id context_json.text
            flags impl.decision.action_ids impl.decision.action_pdfs impl.decision.model_version
            impl.slot_ids baseline_actions self._learning_mode]
          if logged ≠ error_code.success then
            some { code := logged, response := resp, self := self, calls := calls }
          else
            let after :=
              if self._learning_mode = learning_mode.APPRENTICE ∨
                  self._learning_mode = learning_mode.LOGGINGONLY then
                reset_chosen_action_multi_slot resp baseline_actions
              else some (error_code.success, resp)
            match after with
            | none => none
            | some (code, resp) =>
              if code ≠ error_code.success then
                some { code := code, response := resp, self := self, calls := calls }
              else some (self.check_watchdog resp calls)

/-! ## `request_episodic_decision` -/

/-- What `request_episodic_decision` leaves behind: as `outcome`, with the caller's episode. -/
structure episodic_outcome where
  code : error_code
  response : ranking_response
  episode : episode_state
  self : live_model_impl
  calls : List call

/-- The method `live_model_impl::request_episodic_decision(event_id, previous_id, context_json,
flags, resp, episode, status)`. -/
def live_model_impl.request_episodic_decision (env : Env) (self : live_model_impl)
    (event_id : Option String) (previous_id : Option String) (context_json : string_view)
    (flags : Nat) (resp : ranking_response) (episode : episode_state) :
    Option episodic_outcome :=
  let resp := resp.clear
  match event_id, check_null_or_empty event_id context_json with
  | some event_id, error_code.success =>
    let seed := self.seed env event_id
    let history := episode.events
    let context_patched := env.history_get_context history previous_id context_json.text
    let decided := env.model_choose_rank_multistep event_id seed context_patched history
    let calls := [call.model_choose_rank_multistep event_id seed context_patched history]
    if decided.1 ≠ error_code.success then
      some { code := decided.1, response := resp, episode := episode, self := self,
             calls := calls }
    else
      let sampled := env.sample_and_populate_response seed decided.2.action_ids
        decided.2.action_pdf decided.2.model_version resp
      let calls := calls ++ [call.sample_and_populate_response seed decided.2.action_ids
        decided.2.action_pdf decided.2.model_version]
      if sampled.1 ≠ error_code.success then
        some { code := sampled.1, response := sampled.2, episode := episode, self := self,
               calls := calls }
      else
        let resp := sampled.2.set_event_id event_id
        let updated := env.episode_update episode event_id previous_id context_json.text resp
        let calls := calls ++ [call.episode_update event_id previous_id context_json.text resp]
        if updated.1 ≠ error_code.success then
          some { code := updated.1, response := resp, episode := updated.2, self := self,
                 calls := calls }
        else
          let episode := updated.2
          let first : Option (error_code × List call) :=
            if episode.size = 1 then
              if self._episode_logger then
                some (env.episode_logger_log episode.get_episode_id,
                  calls ++ [call.episode_logger_log episode.get_episode_id])
              else none
            else some (error_code.success, calls)
          match first with
          | none => none
          | some (code, calls) =>
            if code ≠ error_code.success then
              some { code := code, response := resp, episode := episode, self := self,
                     calls := calls }
            else
              let logged := env.interaction_logger_log_multistep episode.get_episode_id
                previous_id context_patched flags resp
              let calls := calls ++ [call.interaction_logger_log_multistep
                episode.get_episode_id previous_id context_patched flags resp]
              if logged ≠ error_code.success then
                some { code := logged, response := resp, episode := episode, self := self,
                       calls := calls }
              else
                some { code := error_code.success, response := resp, episode := episode,
                       self := self, calls := calls }
  | _, code =>
    some { code := code, response := resp, episode := episode, self := self, calls := [] }

/-! ## Initialisation -/

/-- What an initialisation step leaves behind: the status, the facade object and the calls. -/
structure init_outcome where
  code : error_code
  self : live_model_impl
  calls : List call

/-- The method `live_model_impl::init_trace`. -/
def live_model_impl.init_trace (env : Env) (self : live_model_impl) : init_outcome :=
  { code := env.trace_factory_create self._configuration, self := self,
    calls := [call.trace_factory_create self._configuration] }

/-- The method `live_model_impl::init_model`. -/
def live_model_impl.init_model (env : Env) (self : live_model_impl) : init_outcome :=
  { code := env.model_factory_create self._configuration, self := self,
    calls := [call.model_factory_create self._configuration] }

/-- The method `live_model_impl::refresh_model`. -/
def live_model_impl.refresh_model (env : Env) (self : live_model_impl) : init_outcome :=
  if self._bg_model_proc then
    { code := error_code.model_update_error, self := self, calls := [] }
  else
    let md := env.transport_get_data
    let calls := [call.transport_get_data]
    if md.1 ≠ error_code.success then { code := md.1, self := self, calls := calls }
    else
      let updated := env.model_update md.2
      let calls := calls ++ [call.model_update md.2]
      if updated.1 ≠ error_code.success then { code := updated.1, self := self, calls := calls }
      else
        { code := error_code.success, self := { self with _model_ready := updated.2 },
          calls := calls }

/-- The method `live_model_impl::init_model_mgmt`. -/
def live_model_impl.init_model_mgmt (env : Env) (self : live_model_impl) : init_outcome :=
  let created := env.data_transport_factory_create self._configuration
  let calls := [call.data_transport_factory_create self._configuration]
  if created ≠ error_code.success then { code := created, self := self, calls := calls }
  else if self._bg_model_proc then
    { code := env.bg_model_proc_init, self := self, calls := calls ++ [call.bg_model_proc_init] }
  else
    let refreshed := self.refresh_model env
    { refreshed with calls := calls ++ refreshed.calls }

/-- The statuses checked by `RETURN_IF_FAIL` one after the other: the calls are made in order up
to and including the first that does not return `success`, whose status is the result. -/
def run_checked (env_code : call → error_code) : List call → error_code × List call
  | [] => (error_code.success, [])
  | c :: rest =>
    if env_code c ≠ error_code.success then (env_code c, [c])
    else ((run_checked env_code rest).1, c :: (run_checked env_code rest).2)

/-- The status a collaborator of the initialisation returns for a call. -/
def Env.init_code (env : Env) : call → error_code
  | .trace_factory_create config => env.trace_factory_create config
  | .model_factory_create config => env.model_factory_create config
  | .data_transport_factory_create config => env.data_transport_factory_create config
  | .bg_model_proc_init => env.bg_model_proc_init
  | .sender_factory_create c config => env.sender_factory_create c config
  | .sender_init c config => env.sender_init c config
  | .message_sender_init c => env.message_sender_init c
  | .time_provider_factory_create use config => env.time_provider_factory_create use config
  | .logger_init c => env.logger_init c
  | _ => error_code.success

/-- The checked calls `init_loggers` makes for the interaction channel, with the section already
selected in `config`. -/
def interaction_logger_steps (config : configuration) : List call :=
  [ call.sender_factory_create channel.INTERACTION config,
    call.sender_init channel.INTERACTION config,
    call.message_sender_init channel.INTERACTION,
    call.time_provider_factory_create time_provider_use.logger_extensions config,
    call.time_provider_factory_create (time_provider_use.for_channel channel.INTERACTION) config,
    call.logger_init channel.INTERACTION ]

/-- The checked calls `init_loggers` makes for the observation channel or the episode channel
before it creates the logger of the channel, with the section already selected in `config`. -/
def channel_sender_steps (c : channel) (config : configuration) : List call :=
  [ call.sender_factory_create c config,
    call.sender_init c config,
    call.message_sender_init c,
    call.time_provider_factory_create (time_provider_use.for_channel c) config ]

/-- The checked calls `init_loggers` makes for the observation channel or the episode channel:
those up to the creation of the logger, then the `init` of the logger. -/
def channel_logger_steps (c : channel) (config : configuration) : List call :=
  channel_sender_steps c config ++ [call.logger_init c]

/-- The test of `init_loggers` for an episode sender: one of the three episode names is set. -/
def episode_configured (config : configuration) : Bool :=
  (config.get name.EPISODE_EH_HOST none).isSome ||
  (config.get name.EPISODE_FILE_NAME none).isSome ||
  (config.get name.EPISODE_HTTP_API_HOST none).isSome

/-- The method `live_model_impl::init_loggers`. -/
def live_model_impl.init_loggers (env : Env) (self : live_model_impl) : init_outcome :=
  let config := self._configuration.set name.CONFIG_SECTION channel.INTERACTION.value
  let self := { self with _configuration := config }
  let interaction := run_checked env.init_code (interaction_logger_steps config)
  if interaction.1 ≠ error_code.success then
    { code := interaction.1, self := self, calls := interaction.2 }
  else
    let config := config.set name.CONFIG_SECTION channel.OBSERVATION.value
    let self := { self with _configuration := config }
    let observation := run_checked env.init_code (channel_logger_steps channel.OBSERVATION config)
    let calls := interaction.2 ++ observation.2
    if observation.1 ≠ error_code.success then
      { code := observation.1, self := self, calls := calls }
    else if episode_configured config then
      let config := config.set name.CONFIG_SECTION channel.EPISODE.value
      let self := { self with _configuration := config }
      let sender := run_checked env.init_code (channel_sender_steps channel.EPISODE config)
      let calls := calls ++ sender.2
      if sender.1 ≠ error_code.success then { code := sender.1, self := self, calls := calls }
      else
        let self := { self with _episode_logger := true }
        { code := env.logger_init channel.EPISODE, self := self,
          calls := calls ++ [call.logger_init channel.EPISODE] }
    else { code := error_code.success, self := self, calls := calls }

/-- The method `live_model_impl::init`. -/
def live_model_impl.init (env : Env) (self : live_model_impl) : init_outcome :=
  let trace := self.init_trace env
  if trace.code ≠ error_code.success then trace
  else
    let model := trace.self.init_model env
    let calls := trace.calls ++ model.calls
    if model.code ≠ error_code.success then { model with calls := calls }
    else
      let mgmt := model.self.init_model_mgmt env
      let calls := calls ++ mgmt.calls
      if mgmt.code ≠ error_code.success then { mgmt with calls := calls }
      else
        let loggers := mgmt.self.init_loggers env
        let calls := calls ++ loggers.calls
        if loggers.code ≠ error_code.success then { loggers with calls := calls }
        else
          let self := loggers.self
          if self._protocol_version = 1 ∧
              (env.config_get_bool self._configuration "interaction" name.USE_COMPRESSION false ||
               env.config_get_bool self._configuration "interaction" name.USE_DEDUP false ||
               env.config_get_bool self._configuration "observation" name.USE_COMPRESSION false)
              = true then
            { code := error_code.content_encoding_error, self := self, calls := calls }
          else
            let epsilon := env.config_get_float self._configuration name.INITIAL_EPSILON 0x3E4CCCCD
            let app_id := (self._configuration.get name.APP_ID (some "")).getD ""
            { code := error_code.success,
              self := { self with _initial_epsilon := epsilon,
                                  _seed_shift := env.uniform_hash app_id 0 % 2 ^ 64 },
              calls := calls }

/-! ## `request_decision` -/

/-- What `request_decision` leaves behind: as `outcome`, with the caller's status object. -/
structure decision_outcome where
  code : error_code
  response : decision_response
  status : Option api_status
  self : live_model_impl
  calls : List call

/-- The method `live_model_impl::request_decision(context_json, flags, resp, status)`. The status
object is followed here: `none` is a null `status`. -/
def live_model_impl.request_decision (env : Env) (self : live_model_impl)
    (context_json : string_view) (flags : Nat) (resp : decision_response)
    (status : Option api_status) : Option decision_outcome :=
  if self._learning_mode = learning_mode.APPRENTICE ∨
      self._learning_mode = learning_mode.LOGGINGONLY then
    some { code := error_code.not_supported, response := resp, status := status, self := self,
           calls := [] }
  else
    let resp := resp.clear
    let status := api_status.try_clear status
    if check_null_or_empty_view context_json ≠ error_code.success then
      some { code := check_null_or_empty_view context_json, response := resp,
             status := api_status.report status error_code.invalid_argument
               "one of the arguments passed to the ds is null or empty",
             self := self, calls := [] }
    else
      let info := env.get_context_info context_json.text
      let calls := [call.get_context_info context_json.text]
      let status := env.status_after (call.get_context_info context_json.text) status
      if info.1 ≠ error_code.success then
        some { code := info.1, response := resp, status := status, self := self, calls := calls }
      else
        match info.2.slots, info.2.actions with
        | slot :: _, action :: _ =>
          if slot.1 < action.1 then
            some { code := error_code.json_parse_error, response := resp,
                   status := api_status.report status error_code.json_parse_error
                     "There must be both a _multi field and _slots, and _multi must come first.",
                   self := self, calls := calls }
          else
            let num_decisions := info.2.slots.length
            let found := env.get_event_ids context_json.text
            let calls := calls ++ [call.get_event_ids context_json.text]
            let status := env.status_after (call.get_event_ids context_json.text) status
            if found.1 ≠ error_code.success then
              some { code := found.1, response := resp, status := status, self := self,
                     calls := calls }
            else
              match autogenerate_missing_uuids env found.2 (List.replicate num_decisions "")
                  self._seed_shift with
              | none => none
              | some event_ids =>
                let decided := env.model_request_decision event_ids context_json.text
                let calls := calls ++ [call.model_request_decision event_ids context_json.text]
                let status := env.status_after
                  (call.model_request_decision event_ids context_json.text) status
                if decided.1 ≠ error_code.success then
                  some { code := decided.1, response := resp, status := status, self := self,
                         calls := calls }
                else
                  let populated := env.populate_decision_response decided.2.action_ids
                    decided.2.action_pdfs event_ids decided.2.model_version resp
                  let calls := calls ++ [call.populate_decision_response decided.2.action_ids
                    decided.2.action_pdfs event_ids decided.2.model_version]
                  let status := env.status_after (call.populate_decision_response
                    decided.2.action_ids decided.2.action_pdfs event_ids
                    decided.2.model_version) status
                  if populated.1 ≠ error_code.success then
                    some { code := populated.1, response := populated.2, status := status,
                           self := self, calls := calls }
                  else
                    let resp := populated.2
                    let logged := env.interaction_logger_log_decisions event_ids
                      context_json.text flags decided.2.action_ids decided.2.action_pdfs
                      decided.2.model_version
                    let calls := calls ++ [call.interaction_logger_log_decisions event_ids
                      context_json.text flags decided.2.action_ids decided.2.action_pdfs
                      decided.2.model_version]
                    let status := env.status_after (call.interaction_logger_log_decisions
                      event_ids context_json.text flags decided.2.action_ids
                      decided.2.action_pdfs decided.2.model_version) status
                    if logged ≠ error_code.success then
                      some { code := logged, response := resp, status := status, self := self,
                             calls := calls }
                    else
                      let r := self._watchdog.has_background_error_been_reported
                      if r.1 then
                        some { code := error_code.unhandled_background_error_occurred,
                               response := resp,
                               status := api_status.report status
                                 error_code.unhandled_background_error_occurred "",
                               self := { self with _watchdog := r.2 }, calls := calls }
                      else
                        some { code := error_code.success, response := resp, status := status,
                               self := { self with _watchdog := r.2 }, calls := calls }
        | _, _ =>
          some { code := error_code.json_parse_error, response := resp,
                 status := api_status.report status error_code.json_parse_error
                   "There must be both a _multi field and _slots, and _multi must come first.",
                 self := self, calls := calls }

/-! ## Multi-slot decisions, detailed response -/

/-- The loop of `reset_chosen_action_multi_slot(multi_slot_response_detailed&,
baseline_actions)`, at slot number `index`. Reading `baseline_actions[index]` past the end is
undefined; a failing `set_chosen_action_id` ends the loop with its status, the later slots
untouched. -/
def reset_chosen_action_multi_slot_detailed_loop
    (check : Int → List action_prob → error_code) (baseline_actions : List Int) :
    Nat → List slot_ranking → Option (error_code × List slot_ranking)
  | _, [] => some (error_code.success, [])
  | index, slot :: rest =>
    let chosen : Option Int :=
      if !baseline_actions.isEmpty && decide (baseline_actions.length ≥ index) then
        baseline_actions[index]?
      else some (Int.ofNat index)
    match chosen with
    | none => none
    | some action_id =>
      let set := slot.set_chosen_action_id check action_id
      if set.1 ≠ error_code.success then some (set.1, set.2 :: rest)
      else
        match reset_chosen_action_multi_slot_detailed_loop check baseline_actions (index + 1)
            rest with
        | none => none
        | some (code, rest) => some (code, set.2 :: rest)

/-- The function `reset_chosen_action_multi_slot(multi_slot_response_detailed& response,
const std::vector<int>& baseline_actions)`. -/
def reset_chosen_action_multi_slot_detailed (check : Int → List action_prob → error_code)
    (response : multi_slot_response_detailed) (baseline_actions : List Int) :
    Option (error_code × multi_slot_response_detailed) :=
  match reset_chosen_action_multi_slot_detailed_loop check baseline_actions 0 response.slots with
  | none => none
  | some (code, slots) => some (code, { response with slots := slots })

/-- The method `live_model_impl::request_multi_slot_decision(event_id, context_json, flags,
multi_slot_response_detailed& resp, baseline_actions, status)`. -/
def live_model_impl.request_multi_slot_decision_detailed (env : Env) (self : live_model_impl)
    (event_id : Option String) (context_json : string_view) (flags : Nat)
    (resp : multi_slot_response_detailed) (baseline_actions : List Int) :
    Option (outcome multi_slot_response_detailed) :=
  let resp := resp.clear
  if self._learning_mode = learning_mode.APPRENTICE ∧ baseline_actions.isEmpty = true then
    some { code := error_code.baseline_actions_not_defined, response := resp, self := self,
           calls := [] }
  else
    match self.request_multi_slot_decision_impl env event_id context_json []
        { action_ids := [], action_pdfs := [], model_version := "" } with
    | none => none
    | some impl =>
      if impl.code ≠ error_code.success then
        some { code := impl.code, response := resp, self := self, calls := impl.calls }
      else
        let event_id := event_id.getD ""
        let resp := resp.resize impl.slot_ids.length
        let populated := env.populate_multi_slot_response_detailed impl.decision.action_ids
          impl.decision.action_pdfs event_id impl.decision.model_version impl.slot_ids resp
        let calls := impl.calls ++ [call.populate_multi_slot_response_detailed
          impl.decision.action_ids impl.decision.action_pdfs event_id
          impl.decision.model_version impl.slot_ids]
        if populated.1 ≠ error_code.success then
          some { code := populated.1, response := populated.2, self := self, calls := calls }
        else
          let resp := populated.2
          let logged := env.interaction_logger_log_decision event_id context_json.text flags
            impl.decision.action_ids impl.decision.action_pdfs impl.decision.model_version
            impl.slot_ids baseline_actions self._learning_mode
          let calls := calls ++ [call.interaction_logger_log_decision event_id context_json.text
            flags impl.decision.action_ids impl.decision.action_pdfs impl.decision.model_version
            impl.slot_ids baseline_actions self._learning_mode]
          if logged ≠ error_code.success then
            some { code := logged, response := resp, self := self, calls := calls }
          else
            let after :=
              if self._learning_mode = learning_mode.APPRENTICE ∨
                  self._learning_mode = learning_mode.LOGGINGONLY then
                reset_chosen_action_multi_slot_detailed env.set_slot_chosen_action_id_check resp
                  baseline_actions
              else some (error_code.success, resp)
            match after with
            | none => none
            | some (code, resp) =>
              if code ≠ error_code.success then
                some { code := code, response := resp, self := self, calls := calls }
              else some (self.check_watchdog resp calls)

/-- The chosen action the reset is to give slot number `i`: `b[i]` for a non-empty baseline `b`
(`none` past its end), the slot number itself for an empty one. -/
def baseline_action (baseline_actions : List Int) (i : Nat) : Option Int :=
  if baseline_actions.isEmpty then some (Int.ofNat i) else baseline_actions[i]?

/-- No collaborator of the multi-slot decisions ever returns the status `code`. -/
def Env.multi_slot_collaborators_avoid (env : Env) (code : error_code) : Prop :=
  (∀ context, (env.get_context_info context).1 ≠ code) ∧
  (∀ context slots, (env.get_slot_ids context slots).1 ≠ code) ∧
  (∀ event_id slot_ids context,
    (env.model_request_multi_slot_decision event_id slot_ids context).1 ≠ code) ∧
  (∀ ids pdfs event_id version slot_ids resp,
    (env.populate_multi_slot_response ids pdfs event_id version slot_ids resp).1 ≠ code) ∧
  (∀ ids pdfs event_id version slot_ids resp,
    (env.populate_multi_slot_response_detailed ids pdfs event_id version slot_ids resp).1
      ≠ code) ∧
  (∀ event_id context flags ids pdfs version slot_ids baseline mode,
    env.interaction_logger_log_decision event_id context flags ids pdfs version slot_ids
      baseline mode ≠ code) ∧
  (∀ id ranking, env.set_slot_chosen_action_id_check id ranking ≠ code)

/-! ## Generated event ids -/

/-- The overload `live_model_impl::choose_rank(context, flags, response, status)`: the event id
is `boost::uuids::to_string(boost::uuids::random_generator()())`. -/
def live_model_impl.choose_rank_generated_id (env : Env) (self : live_model_impl)
    (context : string_view) (flags : Nat) (response : ranking_response) :
    Option (outcome ranking_response) :=
  let uuid := env.random_uuid 0
  self.choose_rank env (some uuid) context flags response

/-- The overload `live_model_impl::request_continuous_action(context, flags, response,
status)`. -/
def live_model_impl.request_continuous_action_generated_id (env : Env) (self : live_model_impl)
    (context : string_view) (flags : Nat) (response : continuous_action_response) :
    Option (outcome continuous_action_response) :=
  let uuid := env.random_uuid 0
  self.request_continuous_action env (some uuid) context flags response

/-- The overload `live_model_impl::request_multi_slot_decision(context_json, flags,
multi_slot_response& resp, baseline_actions, status)`. -/
def live_model_impl.request_multi_slot_decision_generated_id (env : Env)
    (self : live_model_impl) (context_json : string_view) (flags : Nat)
    (resp : multi_slot_response) (baseline_actions : List Int) :
    Option (outcome multi_slot_response) :=
  let uuid := env.random_uuid 0
  self.request_multi_slot_decision env (some uuid) context_json flags resp baseline_actions

/-- The overload `live_model_impl::request_multi_slot_decision(context_json, flags,
multi_slot_response_detailed& resp, baseline_actions, status)`. -/
def live_model_impl.request_multi_slot_decision_detailed_generated_id (env : Env)
    (self : live_model_impl) (context_json : string_view) (flags : Nat)
    (resp : multi_slot_response_detailed) (baseline_actions : List Int) :
    Option (outcome multi_slot_response_detailed) :=
  let uuid := env.random_uuid 0
  self.request_multi_slot_decision_detailed env (some uuid) context_json flags resp
    baseline_actions

/-! ## Construction -/

/-- Modelled from the spec: the accessor `configuration::get_bool(name, defval)` (the class is
not among the sources): the default when the name is absent, else the boolean reading `parse` of
the stored text. -/
def configuration.get_bool (parse : String → Bool → Bool) (c : configuration) (n : name)
    (defval : Bool) : Bool :=
  match c.entries.lookup n with
  | none => defval
  | some text => parse text defval

/-- Modelled from the spec: `value::DEFAULT_MODEL_BACKGROUND_REFRESH` (the constants are not
among the sources); the spec gives `model.backgroundrefresh` the default `true`. -/
def value.DEFAULT_MODEL_BACKGROUND_REFRESH : Bool := true

/-- Modelled from the spec: `value::DEFAULT_PROTOCOL_VERSION`; the spec gives `protocol.version`
the default 2. -/
def value.DEFAULT_PROTOCOL_VERSION : Int := 2

/-- Modelled from the spec: `value::LEARNING_MODE_ONLINE`; the spec gives `rank.learning.mode`
the default `online`. -/
def value.LEARNING_MODE_ONLINE : String := "ONLINE"

/-- What both constructors of `live_model_impl` do once `_error_cb` is initialised. The members
no constructor mentions start at their zero values, and the watchdog starts with its flag clear
(the header and the watchdog are not among the sources). -/
def live_model_impl.construct (env : Env) (config : configuration) (error_cb : error_callback) :
    live_model_impl :=
  { _configuration := config
    _protocol_version :=
      env.config_get_int config name.PROTOCOL_VERSION value.DEFAULT_PROTOCOL_VERSION
    _learning_mode :=
      env.to_learning_mode (config.get name.LEARNING_MODE (some value.LEARNING_MODE_ONLINE))
    _seed_shift := 0
    _initial_epsilon := 0
    _watchdog := { unhandled_background_error := false }
    _bg_model_proc :=
      config.get_bool env.parse_bool name.MODEL_BACKGROUND_REFRESH
        value.DEFAULT_MODEL_BACKGROUND_REFRESH
    _model_ready := false
    _episode_logger := false
    _error_cb := error_cb }

/-- The constructor `live_model_impl(config, error_fn fn, void* err_context, ...)`; `none` is a
null `fn`, for which the default callback is installed. -/
def live_model_impl.live_model_impl_error_fn (env : Env) (config : configuration)
    (fn : Option Nat) : live_model_impl :=
  match fn with
  | none => live_model_impl.construct env config error_callback.default_error_callback
  | some fn => live_model_impl.construct env config (error_callback.user fn)

/-- The constructor `live_model_impl(config, std::function<void(const api_status&)> error_cb,
...)`; `none` is an empty function. -/
def live_model_impl.live_model_impl_function (env : Env) (config : configuration)
    (error_cb : Option Nat) : live_model_impl :=
  match error_cb with
  | none => live_model_impl.construct env config error_callback.empty
  | some fn => live_model_impl.construct env config (error_callback.user fn)

/-! ## Outcomes and action-taken events -/

/-- What an operation without a response leaves behind: the status returned, the facade object
and the collaborator calls made, in order. -/
structure report_result where
  code : error_code
  self : live_model_impl
  calls : List call
  deriving DecidableEq, Repr

/-- Modelled from the spec: the member template `live_model_impl::report_outcome_internal`, which
the six `report_outcome` overloads end in; it is defined in the header, which is not among the
sources. The spec gives the control flow of an outcome as "façade validates → writes observation
event to the outcome logger → returns", and says the variants "dispatch to the observation logger;
no policy call, no sampler call". -/
def live_model_impl.report_outcome_internal (env : Env) (self : live_model_impl)
    (primary_id : String) (secondary : secondary_id) (outcome : outcome_value) : report_result :=
  { code := env.outcome_logger_log primary_id secondary outcome, self := self,
    calls := [call.outcome_logger_log primary_id secondary outcome] }

/-- The status of a failed argument check, returned before anything is called. -/
def live_model_impl.rejected (self : live_model_impl) (code : error_code) : report_result :=
  { code := code, self := self, calls := [] }

/-- The overload `report_outcome(const char* event_id, const char* outcome, status)`. The check
takes the outcome as a `string_view`, which is built from the pointer before the check runs. -/
def live_model_impl.report_outcome_c_str (env : Env) (self : live_model_impl)
    (event_id : Option String) (outcome : Option String) : Option report_result :=
  match string_view.of_c_str outcome, outcome with
  | some view, some text =>
    match event_id, check_null_or_empty event_id view with
    | some event_id, error_code.success =>
      some (self.report_outcome_internal env event_id secondary_id.absent (outcome_value.text text))
    | _, code => some (self.rejected code)
  | _, _ => none

/-- The overload `report_outcome(const char* event_id, float outcome, status)`. -/
def live_model_impl.report_outcome_float (env : Env) (self : live_model_impl)
    (event_id : Option String) (outcome : float) : Option report_result :=
  match event_id, check_null_or_empty_c_str event_id with
  | some event_id, error_code.success =>
    some (self.report_outcome_internal env event_id secondary_id.absent
      (outcome_value.number outcome))
  | _, code => some (self.rejected code)

/-- The overload `report_outcome(const char* primary_id, int secondary_id, const char* outcome,
status)`. -/
def live_model_impl.report_outcome_int_c_str (env : Env) (self : live_model_impl)
    (primary_id : Option String) (secondary : Int) (outcome : Option String) :
    Option report_result :=
  match string_view.of_c_str outcome, outcome with
  | some view, some text =>
    match primary_id, check_null_or_empty primary_id view with
    | some primary_id, error_code.success =>
      some (self.report_outcome_internal env primary_id (secondary_id.index secondary)
        (outcome_value.text text))
    | _, code => some (self.rejected code)
  | _, _ => none

/-- The overload `report_outcome(const char* primary_id, int secondary_id, float outcome,
status)`. -/
def live_model_impl.report_outcome_int_float (env : Env) (self : live_model_impl)
    (primary_id : Option String) (secondary : Int) (outcome : float) : Option report_result :=
  match primary_id, check_null_or_empty_c_str primary_id with
  | some primary_id, error_code.success =>
    some (self.report_outcome_internal env primary_id (secondary_id.index secondary)
      (outcome_value.number outcome))
  | _, code => some (self.rejected code)

/-- The overload `report_outcome(const char* primary_id, const char* secondary_id,
const char* outcome, status)`: the primary id and the outcome are checked first, then the
secondary id. -/
def live_model_impl.report_outcome_c_str_c_str (env : Env) (self : live_model_impl)
    (primary_id : Option String) (secondary : Option String) (outcome : Option String) :
    Option report_result :=
  match string_view.of_c_str outcome, outcome with
  | some view, some text =>
    match primary_id, check_null_or_empty primary_id view with
    | some primary_id, error_code.success =>
      match secondary, check_null_or_empty_c_str secondary with
      | some secondary, error_code.success =>
        some (self.report_outcome_internal env primary_id (secondary_id.text secondary)
          (outcome_value.text text))
      | _, code => some (self.rejected code)
    | _, code => some (self.rejected code)
  | _, _ => none

/-- The overload `report_outcome(const char* primary_id, const char* secondary_id, float outcome,
status)`. -/
def live_model_impl.report_outcome_c_str_float (env : Env) (self : live_model_impl)
    (primary_id : Option String) (secondary : Option String) (outcome : float) :
    Option report_result :=
  match primary_id, check_null_or_empty_c_str primary_id with
  | some primary_id, error_code.success =>
    match secondary, check_null_or_empty_c_str secondary with
    | some secondary, error_code.success =>
      some (self.report_outcome_internal env primary_id (secondary_id.text secondary)
        (outcome_value.number outcome))
    | _, code => some (self.rejected code)
  | _, code => some (self.rejected code)

/-- The overload `report_action_taken(const char* event_id, status)`: the status is cleared and the
pointer is passed on to the observation logger as it is. -/
def live_model_impl.report_action_taken (env : Env) (self : live_model_impl)
    (event_id : Option String) : report_result :=
  { code := env.outcome_logger_report_action_taken event_id, self := self,
    calls := [call.outcome_logger_report_action_taken event_id] }

/-- The overload `report_action_taken(const char* primary_id, const char* secondary_id, status)`. -/
def live_model_impl.report_action_taken_secondary (env : Env) (self : live_model_impl)
    (primary_id : Option String) (secondary_id : Option String) : report_result :=
  { code := env.outcome_logger_report_action_taken_secondary primary_id secondary_id,
    self := self,
    calls := [call.outcome_logger_report_action_taken_secondary primary_id secondary_id] }

/-- What a `report_outcome` overload leaves behind: either `invalid_argument` with no call, or the
status of the observation logger with the one call made to it. -/
def report_result.dispatched (env : Env) (r : report_result) : Prop :=
  (r.code = error_code.invalid_argument ∧ r.calls = []) ∨
  ∃ id secondary outcome, r.code = env.outcome_logger_log id secondary outcome ∧
    r.calls = [call.outcome_logger_log id secondary outcome]

/-! ## Background errors and model updates -/

/-- The function `default_error_callback(status, watchdog_context)`: the context is a watchdog,
whose unhandled-background-error flag it sets. -/
def default_error_callback (_status : api_status) (watchdog_context : watchdog) : watchdog :=
  watchdog_context.set_unhandled_background_error true

/-- Modelled from the spec: `error_callback_fn::report_error(status)` on `_error_cb` (the class is
not among the sources), which delivers the status to the function held, with the context it was
installed with; an object that holds no function delivers nothing. The default callback is
installed with the facade's own watchdog; what a function of the user does is outside the
facade. -/
def live_model_impl.report_error (self : live_model_impl) (status : api_status) :
    live_model_impl :=
  match self._error_cb with
  | error_callback.empty => self
  | error_callback.default_error_callback =>
    { self with _watchdog := default_error_callback status self._watchdog }
  | error_callback.user _ => self

/-- What `handle_model_update`, a `void` method, leaves behind: the facade object and the calls. -/
structure model_update_result where
  self : live_model_impl
  calls : List call
  deriving DecidableEq, Repr

/-- The method `live_model_impl::handle_model_update(data)`, which the model downloader calls with
each download. The local `api_status status` starts empty and is what `_model->update` leaves in
it; the local `model_ready` starts `false`. -/
def live_model_impl.handle_model_update (env : Env) (self : live_model_impl) (data : model_data) :
    model_update_result :=
  if data.refresh_count = 0 then { self := self, calls := [] }
  else
    let status : api_status := { code := error_code.success, msg := "" }
    let updated := env.model_update data
    let status := (env.status_after (call.model_update data) (some status)).getD status
    if updated.1 ≠ error_code.success then
      { self := self.report_error status,
        calls := [call.model_update data, call.error_cb_report_error status] }
    else { self := { self with _model_ready := updated.2 }, calls := [call.model_update data] }

/-- The status `_model->update` leaves in the local, initially empty `api_status` of
`handle_model_update`. -/
def model_update_status (env : Env) (data : model_data) : api_status :=
  (env.status_after (call.model_update data)
    (some { code := error_code.success, msg := "" })).getD
    { code := error_code.success, msg := "" }

/-! ## The Azure factories (`azure_factories.cc`) -/

/-- The authorization a `http_transport_client` is instantiated with. -/
inductive http_authorization where
  | apim_http_authorization
  | eventhub_http_authorization
  deriving DecidableEq, Repr

/-- The sender `http_transport_client<Authorization>(client, tasks_limit, max_http_retries,
trace_logger, error_cb)` a factory creates; the client is given by the URL it was created for. -/
structure http_transport_client where
  authorization : http_authorization
  client : String
  tasks_limit : Int
  max_http_retries : Int
  deriving DecidableEq, Repr

/-- The transport `restapi_data_transport(client, trace_logger)`. -/
structure restapi_data_transport where
  client : String
  deriving DecidableEq, Repr

/-- What a creation function leaves behind: the status, the object written to `*retval` (`none`
when nothing is written) and the calls made. -/
structure factory_result (ρ : Type) where
  code : error_code
  retval : Option ρ
  calls : List call
  deriving DecidableEq, Repr

/-- The function `restapi_data_transport_create(retval, config, trace_logger, status)`. -/
def restapi_data_transport_create (env : Env) (config : configuration) :
    factory_result restapi_data_transport :=
  match config.get name.MODEL_BLOB_URI none with
  | none => { code := error_code.http_uri_not_provided, retval := none, calls := [] }
  | some uri =>
    let created := env.create_http_client uri config
    let calls := [call.create_http_client uri config]
    if created ≠ error_code.success then { code := created, retval := none, calls := calls }
    else { code := error_code.success, retval := some { client := uri }, calls := calls }

/-- The function `build_eh_url(eh_host, eh_name)`. -/
def build_eh_url (eh_host : String) (eh_name : String) : String :=
  (((("".append "https://").append eh_host).append "/").append eh_name).append
    "/messages?timeout=60&api-version=2014-01"

/-- The function `create_apim_http_api_sender(retval, cfg, api_host, tasks_limit,
max_http_retries, error_cb, trace_logger, status)`. -/
def create_apim_http_api_sender (env : Env) (cfg : configuration) (api_host : String)
    (tasks_limit : Int) (max_http_retries : Int) : factory_result http_transport_client :=
  let created := env.create_http_client api_host cfg
  let calls := [call.create_http_client api_host cfg]
  if created ≠ error_code.success then { code := created, retval := none, calls := calls }
  else
    { code := error_code.success,
      retval := some { authorization := http_authorization.apim_http_authorization,
                       client := api_host, tasks_limit := tasks_limit,
                       max_http_retries := max_http_retries },
      calls := calls }

/-- The function `observation_api_sender_create`: a sender of observations to the APIM
endpoint. -/
def observation_api_sender_create (env : Env) (cfg : configuration) :
    factory_result http_transport_client :=
  let api_host := (cfg.get name.OBSERVATION_HTTP_API_HOST (some "localhost:8080")).getD ""
  create_apim_http_api_sender env cfg api_host
    (env.config_get_int cfg name.OBSERVATION_APIM_TASKS_LIMIT 16)
    (env.config_get_int cfg name.OBSERVATION_APIM_MAX_HTTP_RETRIES 4)

/-- The function `interaction_api_sender_create`: a sender of interactions to the APIM
endpoint. -/
def interaction_api_sender_create (env : Env) (cfg : configuration) :
    factory_result http_transport_client :=
  let api_host := (cfg.get name.INTERACTION_HTTP_API_HOST (some "localhost:8080")).getD ""
  create_apim_http_api_sender env cfg api_host
    (env.config_get_int cfg name.INTERACTION_APIM_TASKS_LIMIT 16)
    (env.config_get_int cfg name.INTERACTION_APIM_MAX_HTTP_RETRIES 4)

/-- The function `observation_sender_create`: a sender of observations to the event hub. -/
def observation_sender_create (env : Env) (cfg : configuration) :
    factory_result http_transport_client :=
  let eh_host := (cfg.get name.OBSERVATION_EH_HOST (some "localhost:8080")).getD ""
  let eh_name := (cfg.get name.OBSERVATION_EH_NAME (some "observation")).getD ""
  let eh_url := build_eh_url eh_host eh_name
  let created := env.create_http_client eh_url cfg
  let calls := [call.create_http_client eh_url cfg]
  if created ≠ error_code.success then { code := created, retval := none, calls := calls }
  else
    { code := error_code.success,
      retval := some { authorization := http_authorization.eventhub_http_authorization,
                       client := eh_url,
                       tasks_limit := env.config_get_int cfg name.OBSERVATION_EH_TASKS_LIMIT 16,
                       max_http_retries :=
                         env.config_get_int cfg name.OBSERVATION_EH_MAX_HTTP_RETRIES 4 },
      calls := calls }

/-- The function `interaction_sender_create`: a sender of interactions to the event hub. -/
def interaction_sender_create (env : Env) (cfg : configuration) :
    factory_result http_transport_client :=
  let eh_host := (cfg.get name.INTERACTION_EH_HOST (some "localhost:8080")).getD ""
  let eh_name := (cfg.get name.INTERACTION_EH_NAME (some "interaction")).getD ""
  let eh_url := build_eh_url eh_host eh_name
  let created := env.create_http_client eh_url cfg
  let calls := [call.create_http_client eh_url cfg]
  if created ≠ error_code.success then { code := created, retval := none, calls := calls }
  else
    { code := error_code.success,
      retval := some { authorization := http_authorization.eventhub_http_authorization,
                       client := eh_url,
                       tasks_limit := env.config_get_int cfg name.INTERACTION_EH_TASKS_LIMIT 16,
                       max_http_retries :=
                         env.config_get_int cfg name.INTERACTION_EH_MAX_HTTP_RETRIES 4 },
      calls := calls }

/-- The sender types `register_azure_factories` registers with `sender_factory`
(`value::OBSERVATION_EH_SENDER` and so on). -/
inductive azure_sender where
  | OBSERVATION_EH_SENDER
  | INTERACTION_EH_SENDER
  | OBSERVATION_HTTP_API_SENDER
  | INTERACTION_HTTP_API_SENDER
  deriving DecidableEq, Repr

/-- The function `register_azure_factories`, as the creation function it registers with
`sender_factory` for each sender type; with `data_transport_factory` it registers
`restapi_data_transport_create` for `value::AZURE_STORAGE_BLOB`. -/
def register_azure_factories :
    azure_sender → Env → configuration → factory_result http_transport_client
  | azure_sender.OBSERVATION_EH_SENDER => observation_sender_create
  | azure_sender.INTERACTION_EH_SENDER => interaction_sender_create
  | azure_sender.OBSERVATION_HTTP_API_SENDER => observation_api_sender_create
  | azure_sender.INTERACTION_HTTP_API_SENDER => interaction_api_sender_create

/-- The configuration name from which the creation function of a sender type takes its host. -/
def azure_sender.host : azure_sender → name
  | azure_sender.OBSERVATION_EH_SENDER => name.OBSERVATION_EH_HOST
  | azure_sender.INTERACTION_EH_SENDER => name.INTERACTION_EH_HOST
  | azure_sender.OBSERVATION_HTTP_API_SENDER => name.OBSERVATION_HTTP_API_HOST
  | azure_sender.INTERACTION_HTTP_API_SENDER => name.INTERACTION_HTTP_API_HOST

/-! ## A sample deployment -/

/-- Insertion of `x` into a range ordered by `comp`: `x` is placed behind the leading elements `y`
with `comp y x` and in front of the first element that does not compare less than `x`. -/
def insertion_sort_insert {α : Type} (comp : α → α → Bool) (x : α) : List α → List α
  | [] => [x]
  | y :: ys => if comp y x then y :: insertion_sort_insert comp x ys else x :: y :: ys

/-- Insertion sort driven by the strict comparison `comp`, the algorithm the standard libraries
run on short ranges; elements that `comp` does not tell apart keep their order. -/
def insertion_sort {α : Type} (comp : α → α → Bool) : List α → List α
  | [] => []
  | x :: xs => insertion_sort_insert comp x (insertion_sort comp xs)

/-- One `std::sort`: insertion sort, which keeps entries with equal action ids in their order. -/
def stable_sort : std_sort action_prob action_id_less :=
  have hins : ∀ (x : action_prob) (l : List action_prob),
      (insertion_sort_insert action_id_less x l).Perm (x :: l) ∧
      (l.Pairwise (fun a b => action_id_less b a = false) →
        (insertion_sort_insert action_id_less x l).Pairwise
          (fun a b => action_id_less b a = false)) := by
    intro x l
    induction l with
    | nil => exact ⟨List.Perm.refl _, fun _ => by simp [insertion_sort_insert]⟩
    | cons y ys ih =>
      unfold insertion_sort_insert
      by_cases hc : action_id_less y x = true
      · rw [if_pos hc]
        refine ⟨(List.Perm.cons y ih.1).trans (List.Perm.swap x y ys), ?_⟩
        intro h
        rw [List.pairwise_cons] at h ⊢
        refine ⟨?_, ih.2 h.2⟩
        intro b hb
        rcases List.mem_cons.mp (ih.1.subset hb) with hbx | hby
        · subst hbx
          simp [action_id_less] at hc ⊢
          omega
        · exact h.1 b hby
      · rw [if_neg hc]
        refine ⟨List.Perm.refl _, ?_⟩
        intro h
        rw [List.pairwise_cons]
        refine ⟨?_, h⟩
        intro b hb
        rw [List.pairwise_cons] at h
        rcases List.mem_cons.mp hb with hby | hbys
        · subst hby
          simpa using hc
        · have h1 := h.1 b hbys
          simp [action_id_less] at hc h1 ⊢
          omega
  { sort := insertion_sort action_id_less
    perm := fun l => by
      induction l with
      | nil => exact List.Perm.refl _
      | cons x xs ih =>
        unfold insertion_sort
        exact (hins x _).1.trans (List.Perm.cons x ih)
    sorted := fun l => by
      induction l with
      | nil => simp [insertion_sort]
      | cons x xs ih =>
        unfold insertion_sort
        exact (hins x _).2 ih }

/-- Another `std::sort`: insertion sort run on the range taken from its end, which brings entries
with equal action ids out in the opposite order. -/
def reversing_sort : std_sort action_prob action_id_less where
  sort := fun l => stable_sort.sort l.reverse
  perm := fun l => (stable_sort.perm l.reverse).trans (List.reverse_perm l)
  sorted := fun l => stable_sort.sorted l.reverse

/-- A sample set of collaborators: every call succeeds; the policy offers actions 0 and 1 and the
sampler ranks action 1 first. -/
def sample_env : Env where
  uniform_hash := fun key seed => key.length + seed
  set_chosen_action_id_check := fun _ _ => error_code.success
  std_sort := stable_sort
  random_uuid := fun _ => "uuid"
  model_choose_rank := fun _ _ _ =>
    (error_code.success, { action_ids := [0, 1], action_pdf := [3, 4], model_version := "m" })
  sample_and_populate_response := fun _ _ _ model_version r =>
    (error_code.success,
      { r with chosen_action_id := 1, model_id := model_version, ranking := [⟨1, 4⟩, ⟨0, 3⟩] })
  interaction_logger_log := fun _ _ _ _ => error_code.success
  model_choose_continuous_action := fun _ =>
    (error_code.success, { action := 5, pdf_value := 6, model_version := "m" })
  populate_response := fun action pdf_value event_id model_version _ =>
    (error_code.success, { event_id := event_id, chosen_action := action,
                           chosen_action_pdf_value := pdf_value, model_id := model_version })
  interaction_logger_log_continuous_action := fun _ _ _ => error_code.success
  get_context_info := fun _ => (error_code.success, { actions := [(1, 1)], slots := [(5, 1)] })
  get_slot_ids := fun _ _ => (error_code.success, [(0, "slot_0")])
  model_request_multi_slot_decision := fun _ _ _ =>
    (error_code.success, { action_ids := [[1, 0]], action_pdfs := [[4, 3]], model_version := "m" })
  populate_multi_slot_response := fun _ _ event_id model_version slot_ids _ =>
    (error_code.success, { event_id := event_id, model_id := model_version,
                           slots := slot_ids.map (fun id => ⟨id, 1, 4⟩) })
  interaction_logger_log_decision := fun _ _ _ _ _ _ _ _ _ => error_code.success
  history_get_context := fun _ _ context => context
  model_choose_rank_multistep := fun _ _ _ _ =>
    (error_code.success, { action_ids := [0, 1], action_pdf := [3, 4], model_version := "m" })
  episode_update := fun episode event_id previous_id context response =>
    (error_code.success,
      { episode with events := episode.events ++ [⟨event_id, previous_id, context, response⟩] })
  episode_logger_log := fun _ => error_code.success
  interaction_logger_log_multistep := fun _ _ _ _ _ => error_code.success
  config_get_bool := fun _ _ _ defval => defval
  config_get_float := fun _ _ defval => defval
  trace_factory_create := fun _ => error_code.success
  model_factory_create := fun _ => error_code.success
  data_transport_factory_create := fun _ => error_code.success
  bg_model_proc_init := error_code.success
  transport_get_data := (error_code.success, { data := [], refresh_count := 1 })
  model_update := fun _ => (error_code.success, true)
  sender_factory_create := fun _ _ => error_code.success
  sender_init := fun _ _ => error_code.success
  message_sender_init := fun _ => error_code.success
  time_provider_factory_create := fun _ _ => error_code.success
  logger_init := fun _ => error_code.success
  get_event_ids := fun _ => (error_code.success, [(0, "event_0")])
  model_request_decision := fun _ _ =>
    (error_code.success, { action_ids := [[1, 0]], action_pdfs := [[4, 3]], model_version := "m" })
  populate_decision_response := fun _ _ event_ids model_version _ =>
    (error_code.success, { model_id := model_version,
                           slots := event_ids.map (fun id => ⟨id, 1, 4⟩) })
  interaction_logger_log_decisions := fun _ _ _ _ _ _ => error_code.success
  populate_multi_slot_response_detailed := fun _ _ event_id model_version slot_ids _ =>
    (error_code.success, { event_id := event_id, model_id := model_version,
                           slots := slot_ids.map (fun id => ⟨id, 1, [⟨1, 4⟩, ⟨0, 3⟩]⟩) })
  set_slot_chosen_action_id_check := fun _ _ => error_code.success
  status_after := fun _ status => status
  parse_bool := fun text defval =>
    if text = "true" then true else if text = "false" then false else defval
  config_get_int := fun _ _ defval => defval
  to_learning_mode := fun text =>
    if text = some "APPRENTICE" then learning_mode.APPRENTICE
    else if text = some "LOGGINGONLY" then learning_mode.LOGGINGONLY
    else learning_mode.ONLINE
  outcome_logger_log := fun _ _ _ => error_code.success
  outcome_logger_report_action_taken := fun _ => error_code.success
  outcome_logger_report_action_taken_secondary := fun _ _ => error_code.success
  create_http_client := fun _ _ => error_code.success

/-- A sample facade object for application id `app`, with a background process and an episode
logger in place. -/
def sample_model (mode : learning_mode) (background_error : Bool) : live_model_impl where
  _configuration := { entries := [(name.APP_ID, "app")] }
  _protocol_version := 2
  _learning_mode := mode
  _seed_shift := 0
  _initial_epsilon := 0
  _watchdog := { unhandled_background_error := background_error }
  _bg_model_proc := true
  _model_ready := false
  _episode_logger := true
  _error_cb := error_callback.default_error_callback

/-- The sample collaborators with a context parser that finds `_multi` entries and no `_slots`
entries. -/
def no_slots_env : Env :=
  { sample_env with
    get_context_info := fun _ => (error_code.success, { actions := [(1, 1)], slots := [] }) }

/-- The sample collaborators with a configuration in which only the observation channel's
dedup setting is enabled. -/
def observation_dedup_env : Env :=
  { sample_env with
    config_get_bool := fun _ sect n defval =>
      (sect == "observation" && n == name.USE_DEDUP) || defval }

/-- A facade as the constructor leaves it for a configuration that names the application `app`
and an episode file, so that `init` creates an episode logger. -/
def episodic_model : live_model_impl :=
  live_model_impl.live_model_impl_error_fn sample_env
    { entries := [(name.APP_ID, "app"), (name.EPISODE_FILE_NAME, "episodes")] } none

/-- The empty decision response a caller starts with. -/
def empty_decision_response : decision_response := { model_id := "", slots := [] }

/-- The empty detailed multi-slot response a caller starts with. -/
def empty_multi_slot_response_detailed : multi_slot_response_detailed :=
  { event_id := "", model_id := "", slots := [] }

/-- The empty multi-slot response a caller starts with. -/
def empty_multi_slot_response : multi_slot_response :=
  { event_id := "", model_id := "", slots := [] }

/-- The empty response a caller starts with. -/
def empty_ranking_response : ranking_response :=
  { event_id := "", chosen_action_id := 0, model_id := "", ranking := [] }

/-- The sample collaborators with an interaction logger that rejects every event. -/
def failing_logger_env : Env :=
  { sample_env with interaction_logger_log := fun _ _ _ _ => error_code.other 7 }

/-- The sample collaborators with a policy whose `choose_rank` fails after it has written its
output arguments. -/
def failing_policy_env : Env :=
  { sample_env with
    model_choose_rank := fun _ _ _ =>
      (error_code.other 3, { action_ids := [0, 1], action_pdf := [3, 4], model_version := "m" }) }

/-- The sample collaborators with a policy that rejects every model it is given. -/
def failing_update_env : Env :=
  { sample_env with
    model_update := fun _ => (error_code.model_update_error, true)
    status_after := fun c status =>
      match c with
      | call.model_update _ =>
        api_status.report status error_code.model_update_error "model rejected"
      | _ => status }

/-- The sample collaborators with a model factory that fails. -/
def failing_model_factory_env : Env :=
  { sample_env with model_factory_create := fun _ => error_code.other 5 }

/-! ## Theorems -/

/-- Ascending order of action ids along a ranking. -/
def ascending (l : List action_prob) : Prop :=
  l.Pairwise (fun a b => a.action_id ≤ b.action_id)

instance ascending_decidable (l : List action_prob) : Decidable (ascending l) := by
  unfold ascending
  infer_instance

theorem std_sort_ascending (sort : std_sort action_prob action_id_less)
    (l : List action_prob) : ascending (sort.sort l) := by
  unfold ascending
  refine (sort.sorted l).imp ?_
  intro a b h
  simpa [action_id_less] using h

theorem std_sort_ne_nil (sort : std_sort action_prob action_id_less) (l : List action_prob)
    (h : l ≠ []) : sort.sort l ≠ [] := by
  intro hnil
  have hp := sort.perm l
  rw [hnil] at hp
  exact h (List.Perm.nil_eq hp).symm

theorem reset_action_order_eq (sort : std_sort action_prob action_id_less)
    (check : Nat → List action_prob → error_code)
    (r : ranking_response) (first : action_prob) (rest : List action_prob)
    (h : sort.sort r.ranking = first :: rest) :
    reset_action_order sort check r =
      some (ranking_response.set_chosen_action_id check
        { r with ranking := first :: rest } first.action_id) := by
  simp only [reset_action_order, h]

theorem set_chosen_action_id_ranking (check : Nat → List action_prob → error_code)
    (r : ranking_response) (id : Nat) :
    (r.set_chosen_action_id check id).2.ranking = r.ranking := by
  unfold ranking_response.set_chosen_action_id
  split <;> rfl

theorem set_chosen_action_id_cases (check : Nat → List action_prob → error_code)
    (r : ranking_response) (id : Nat) :
    r.set_chosen_action_id check id = (error_code.success, { r with chosen_action_id := id }) ∨
    ((r.set_chosen_action_id check id).1 ≠ error_code.success ∧
      r.set_chosen_action_id check id = (check id r.ranking, r)) := by
  unfold ranking_response.set_chosen_action_id
  by_cases hc : check id r.ranking = error_code.success
  · left; simp [hc]
  · right; simp [hc]

theorem reset_action_order_defined (sort : std_sort action_prob action_id_less)
    (check : Nat → List action_prob → error_code)
    (r : ranking_response) (h : r.ranking ≠ []) :
    ∃ code r', reset_action_order sort check r = some (code, r') ∧
      r'.ranking.Perm r.ranking ∧ ascending r'.ranking := by
  obtain ⟨first, rest, hs⟩ := List.exists_cons_of_ne_nil (std_sort_ne_nil sort _ h)
  have hperm := sort.perm r.ranking
  have hasc := std_sort_ascending sort r.ranking
  rw [hs] at hperm hasc
  have hrank := set_chosen_action_id_ranking check
    { r with ranking := first :: rest } first.action_id
  refine ⟨(ranking_response.set_chosen_action_id check
      { r with ranking := first :: rest } first.action_id).1,
    (ranking_response.set_chosen_action_id check
      { r with ranking := first :: rest } first.action_id).2, ?_, ?_, ?_⟩
  · rw [reset_action_order_eq sort check r first rest hs]
  · rw [hrank]; exact hperm
  · rw [hrank]; exact hasc

/-- C1: for a non-empty response and every `std::sort`, `reset_action_order` returns (it is
defined), and the ranking it leaves is a permutation of the original `(action_id, probability)`
entries in ascending order of action id. -/
theorem reset_action_order_sorted_permutation (sort : std_sort action_prob action_id_less)
    (check : Nat → List action_prob → error_code)
    (r : ranking_response) (h : r.ranking ≠ []) :
    ∃ code r', reset_action_order sort check r = some (code, r') ∧
      r'.ranking.Perm r.ranking ∧ ascending r'.ranking :=
  reset_action_order_defined sort check r h

theorem reset_action_order_sorted_permutation_witness :
    ∃ code r', reset_action_order reversing_sort (fun _ _ => error_code.success)
        { event_id := "e", chosen_action_id := 2, model_id := "m",
          ranking := [⟨2, 5⟩, ⟨0, 7⟩, ⟨1, 9⟩] } = some (code, r') ∧
      r'.ranking.Perm [⟨2, 5⟩, ⟨0, 7⟩, ⟨1, 9⟩] ∧ ascending r'.ranking :=
  reset_action_order_sorted_permutation reversing_sort (fun _ _ => error_code.success)
    { event_id := "e", chosen_action_id := 2, model_id := "m",
      ranking := [⟨2, 5⟩, ⟨0, 7⟩, ⟨1, 9⟩] } (by simp)

theorem reset_action_order_success (sort : std_sort action_prob action_id_less)
    (check : Nat → List action_prob → error_code)
    (r r' : ranking_response)
    (hs : reset_action_order sort check r = some (error_code.success, r')) :
    r' = { r with ranking := sort.sort r.ranking,
                  chosen_action_id := r'.chosen_action_id } ∧
    ∃ first rest, r'.ranking = first :: rest ∧ r'.chosen_action_id = first.action_id ∧
      first ∈ r.ranking ∧ ∀ a ∈ r.ranking, first.action_id ≤ a.action_id := by
  have h : r.ranking ≠ [] := by
    intro hnil
    have hp := sort.perm r.ranking
    rw [hnil] at hp
    simp [reset_action_order, hnil, List.Perm.eq_nil hp] at hs
  obtain ⟨first, rest, hsort⟩ := List.exists_cons_of_ne_nil (std_sort_ne_nil sort _ h)
  rw [reset_action_order_eq sort check r first rest hsort] at hs
  have hperm := sort.perm r.ranking
  have hasc := std_sort_ascending sort r.ranking
  rw [hsort] at hperm hasc
  unfold ascending at hasc
  rw [List.pairwise_cons] at hasc
  have hmin : ∀ a ∈ r.ranking, first.action_id ≤ a.action_id := by
    intro a ha
    rcases List.mem_cons.mp (hperm.symm.subset ha) with hfirst | hrest
    · rw [hfirst]
    · exact hasc.1 a hrest
  rcases set_chosen_action_id_cases check { r with ranking := first :: rest } first.action_id
    with hok | ⟨hne, _⟩
  · rw [hok] at hs
    simp only [Option.some.injEq, Prod.mk.injEq, true_and] at hs
    subst hs
    exact ⟨by rw [hsort], first, rest, rfl, rfl, hperm.subset (List.mem_cons_self _ _), hmin⟩
  · simp only [Option.some.injEq] at hs
    rw [hs] at hne
    exact absurd rfl hne

/-- C2: when `reset_action_order` succeeds on a non-empty response, under every `std::sort`, the
chosen action id is the action id of the first entry of the ranking, and that entry is an entry of
the original ranking whose action id is the minimum of the action ids present. -/
theorem reset_action_order_chosen_is_minimum (sort : std_sort action_prob action_id_less)
    (check : Nat → List action_prob → error_code)
    (r r' : ranking_response) (_hne : r.ranking ≠ [])
    (hs : reset_action_order sort check r = some (error_code.success, r')) :
    ∃ first rest, r'.ranking = first :: rest ∧ r'.chosen_action_id = first.action_id ∧
      first ∈ r.ranking ∧ ∀ a ∈ r.ranking, first.action_id ≤ a.action_id :=
  (reset_action_order_success sort check r r' hs).2

theorem reset_action_order_chosen_is_minimum_witness :
    ∃ first rest,
      (⟨"e", 0, "m", [⟨0, 7⟩, ⟨1, 9⟩, ⟨2, 5⟩]⟩ : ranking_response).ranking = first :: rest ∧
      (⟨"e", 0, "m", [⟨0, 7⟩, ⟨1, 9⟩, ⟨2, 5⟩]⟩ : ranking_response).chosen_action_id
        = first.action_id ∧
      first ∈ (⟨"e", 2, "m", [⟨2, 5⟩, ⟨0, 7⟩, ⟨1, 9⟩]⟩ : ranking_response).ranking ∧
      ∀ a ∈ (⟨"e", 2, "m", [⟨2, 5⟩, ⟨0, 7⟩, ⟨1, 9⟩]⟩ : ranking_response).ranking,
        first.action_id ≤ a.action_id :=
  reset_action_order_chosen_is_minimum stable_sort (fun _ _ => error_code.success)
    ⟨"e", 2, "m", [⟨2, 5⟩, ⟨0, 7⟩, ⟨1, 9⟩]⟩ ⟨"e", 0, "m", [⟨0, 7⟩, ⟨1, 9⟩, ⟨2, 5⟩]⟩
    (by simp) (by decide)

theorem configuration_get_set_ne (c : configuration) (n k : name) (v : String)
    (d : Option String) (h : k ≠ n) : (c.set k v).get n d = c.get n d := by
  unfold configuration.get configuration.set
  have hb : (n == k) = false := by
    rw [beq_eq_false_iff_ne]; exact fun e => h e.symm
  simp [List.lookup, hb]

theorem init_loggers_app_id (env : Env) (self : live_model_impl) (d : Option String) :
    (self.init_loggers env).self._configuration.get name.APP_ID d =
      self._configuration.get name.APP_ID d := by
  have hne : name.CONFIG_SECTION ≠ name.APP_ID := by decide
  unfold live_model_impl.init_loggers
  simp only
  split
  · exact configuration_get_set_ne _ _ _ _ _ hne
  · split
    · simp only [configuration_get_set_ne _ _ _ _ _ hne]
    · split
      · split
        · simp only [configuration_get_set_ne _ _ _ _ _ hne]
        · simp only [configuration_get_set_ne _ _ _ _ _ hne]
      · simp only [configuration_get_set_ne _ _ _ _ _ hne]

theorem refresh_model_configuration (env : Env) (self : live_model_impl) :
    (self.refresh_model env).self._configuration = self._configuration := by
  unfold live_model_impl.refresh_model
  simp only
  split
  · rfl
  · split
    · rfl
    · split <;> rfl

theorem init_model_mgmt_configuration (env : Env) (self : live_model_impl) :
    (self.init_model_mgmt env).self._configuration = self._configuration := by
  unfold live_model_impl.init_model_mgmt
  simp only
  split
  · rfl
  · split
    · rfl
    · exact refresh_model_configuration env self

theorem init_seed_shift (env : Env) (self : live_model_impl)
    (h : (self.init env).code = error_code.success) :
    (self.init env).self._seed_shift =
      env.uniform_hash ((self._configuration.get name.APP_ID (some "")).getD "") 0 % 2 ^ 64 := by
  have hcfg : (((self.init_trace env).self.init_model env).self.init_model_mgmt env).self._configuration
      = self._configuration := by
    rw [init_model_mgmt_configuration]; rfl
  unfold live_model_impl.init at h ⊢
  simp only at h ⊢
  split at h
  · rename_i hc; exact absurd h hc
  · split at h
    · rename_i _ hc; exact absurd h hc
    · split at h
      · rename_i _ _ hc; exact absurd h hc
      · split at h
        · rename_i _ _ _ hc; exact absurd h hc
        · split at h
          · simp at h
          · rename_i h1 h2 h3 h4 h5
            simp only [h1, h2, h3, h4, h5, if_false]
            rw [init_loggers_app_id, hcfg]

theorem check_watchdog_calls {ρ : Type} (self : live_model_impl) (response : ρ)
    (calls : List call) : (self.check_watchdog response calls).calls = calls := by
  unfold live_model_impl.check_watchdog
  simp only
  split <;> rfl

theorem check_watchdog_response {ρ : Type} (self : live_model_impl) (response : ρ)
    (calls : List call) : (self.check_watchdog response calls).response = response := by
  unfold live_model_impl.check_watchdog
  simp only
  split <;> rfl

theorem choose_rank_calls (env : Env) (self : live_model_impl) (event_id : String)
    (context : string_view) (flags : Nat) (response : ranking_response)
    (o : outcome ranking_response)
    (hargs : check_null_or_empty (some event_id) context = error_code.success)
    (h : self.choose_rank env (some event_id) context flags response = some o) :
    ∃ rest, o.calls =
      call.model_choose_rank event_id (self.seed env event_id) context.text ::
      call.sample_and_populate_response (self.seed env event_id)
        (env.model_choose_rank event_id (self.seed env event_id) context.text).2.action_ids
        (env.model_choose_rank event_id (self.seed env event_id) context.text).2.action_pdf
        (env.model_choose_rank event_id (self.seed env event_id) context.text).2.model_version ::
      rest ∧
      (rest = [] ∨ ∃ r, rest =
        [call.interaction_logger_log context.text flags r self._learning_mode]) := by
  unfold live_model_impl.choose_rank at h
  simp only [hargs] at h
  split at h
  · simp only [Option.some.injEq] at h
    subst h
    exact ⟨[], rfl, Or.inl rfl⟩
  · split at h
    · exact absurd h (by simp)
    · split at h
      · simp only [Option.some.injEq] at h
        subst h
        exact ⟨[], rfl, Or.inl rfl⟩
      · split at h
        · simp only [Option.some.injEq] at h
          subst h
          exact ⟨_, rfl, Or.inr ⟨_, rfl⟩⟩
        · split at h
          · exact absurd h (by simp)
          · split at h
            · simp only [Option.some.injEq] at h
              subst h
              exact ⟨_, rfl, Or.inr ⟨_, rfl⟩⟩
            · simp only [Option.some.injEq] at h
              subst h
              rw [check_watchdog_calls]
              exact ⟨_, rfl, Or.inr ⟨_, rfl⟩⟩

theorem request_episodic_decision_calls (env : Env) (self : live_model_impl) (event_id : String)
    (previous_id : Option String) (context : string_view) (flags : Nat)
    (response : ranking_response) (episode : episode_state) (o : episodic_outcome)
    (hargs : check_null_or_empty (some event_id) context = error_code.success)
    (h : self.request_episodic_decision env (some event_id) previous_id context flags response
      episode = some o) :
    ∃ rest, o.calls =
      call.model_choose_rank_multistep event_id (self.seed env event_id)
        (env.history_get_context episode.events previous_id context.text) episode.events :: rest ∧
      ∀ c ∈ rest, ∀ s, c.seed_arg = some s → s = self.seed env event_id := by
  unfold live_model_impl.request_episodic_decision at h
  simp only [hargs] at h
  split at h
  · cases h
    exact ⟨[], rfl, by simp⟩
  · split at h
    · cases h
      exact ⟨_, rfl, by simp [call.seed_arg]⟩
    · split at h
      · cases h
        exact ⟨_, rfl, by simp [call.seed_arg]⟩
      · split at h
        · exact absurd h (by simp)
        · rename_i code calls hfirst
          have hcalls : ∃ rest, calls = call.model_choose_rank_multistep event_id
              (self.seed env event_id)
              (env.history_get_context episode.events previous_id context.text)
              episode.events :: rest ∧
              ∀ c ∈ rest, ∀ s, c.seed_arg = some s → s = self.seed env event_id := by
            split at hfirst
            · split at hfirst
              · cases hfirst
                exact ⟨_, rfl, by simp [call.seed_arg]⟩
              · exact absurd hfirst (by simp)
            · cases hfirst
              exact ⟨_, rfl, by simp [call.seed_arg]⟩
          obtain ⟨rest, hrest, hseed⟩ := hcalls
          subst hrest
          split at h
          · cases h
            exact ⟨_, rfl, hseed⟩
          · split at h
            · cases h
              refine ⟨_, rfl, ?_⟩
              intro c hc
              rcases List.mem_append.mp hc with hc | hc
              · exact hseed c hc
              · simp only [List.mem_singleton] at hc
                subst hc
                simp [call.seed_arg]
            · cases h
              refine ⟨_, rfl, ?_⟩
              intro c hc
              rcases List.mem_append.mp hc with hc | hc
              · exact hseed c hc
              · simp only [List.mem_singleton] at hc
                subst hc
                simp [call.seed_arg]

/-- When the sampler fails, in Online mode, and whenever the sampled ranking is not empty,
`choose_rank` returns. -/
theorem choose_rank_defined (env : Env) (self : live_model_impl) (event_id : String)
    (context : string_view) (flags : Nat) (response : ranking_response)
    (pc sc : error_code) (d : rank_decision) (sampled : ranking_response)
    (hargs : check_null_or_empty (some event_id) context = error_code.success)
    (hd : env.model_choose_rank event_id (self.seed env event_id) context.text = (pc, d))
    (hs : env.sample_and_populate_response (self.seed env event_id) d.action_ids d.action_pdf
      d.model_version response.clear = (sc, sampled))
    (hdef : sc ≠ error_code.success ∨ self._learning_mode = learning_mode.ONLINE ∨
      sampled.ranking ≠ []) :
    ∃ o, self.choose_rank env (some event_id) context flags response = some o := by
  apply Option.isSome_iff_exists.mp
  unfold live_model_impl.choose_rank
  simp only [hargs, hd, hs]
  by_cases hsc : sc = error_code.success
  · subst hsc
    simp only [ne_eq, not_true_eq_false, if_false]
    have hreset : self._learning_mode ≠ learning_mode.ONLINE →
        ∃ code r, reset_action_order env.std_sort env.set_chosen_action_id_check
          (sampled.set_event_id event_id) = some (code, r) := by
      intro hm
      rcases hdef with h | h | h
      · exact absurd rfl h
      · exact absurd h hm
      · obtain ⟨code, r, hr, _⟩ := reset_action_order_defined env.std_sort
          env.set_chosen_action_id_check (sampled.set_event_id event_id) h
        exact ⟨code, r, hr⟩
    cases hm : self._learning_mode with
    | ONLINE =>
      simp only [reduceCtorEq, if_false]
      repeat' split
      all_goals rfl
    | APPRENTICE =>
      obtain ⟨code, r, hr⟩ := hreset (by rw [hm]; decide)
      simp only [reduceCtorEq, if_false, if_true, hr]
      repeat' split
      all_goals rfl
    | LOGGINGONLY =>
      obtain ⟨code, r, hr⟩ := hreset (by rw [hm]; decide)
      simp only [reduceCtorEq, if_false, if_true, hr]
      repeat' split
      all_goals rfl
  · simp only [ne_eq, hsc, not_false_eq_true, if_true]
    rfl

/-- On a facade that holds an episode logger, and whenever the episode does not hold exactly one
event after the update, `request_episodic_decision` returns. -/
theorem request_episodic_decision_defined (env : Env) (self : live_model_impl)
    (event_id : String) (previous_id : Option String) (context_json : string_view)
    (flags : Nat) (resp : ranking_response) (episode : episode_state)
    (hargs : check_null_or_empty (some event_id) context_json = error_code.success)
    (hdef : self._episode_logger = true ∨
      ∀ r, (env.episode_update episode event_id previous_id context_json.text r).2.size ≠ 1) :
    ∃ o, self.request_episodic_decision env (some event_id) previous_id context_json flags resp
      episode = some o := by
  apply Option.isSome_iff_exists.mp
  unfold live_model_impl.request_episodic_decision
  simp only [hargs]
  rcases hdef with hl | hsize
  · simp only [hl, if_true]
    repeat' split
    all_goals first | rfl | (rename_i heq; split at heq <;> cases heq)
  · simp only [hsize, if_false]
    repeat' split
    all_goals rfl

theorem seed_eq_sum (env : Env) (self : live_model_impl) (event_id app : String)
    (h : self._seed_shift = env.uniform_hash app 0 % 2 ^ 64) :
    self.seed env event_id = (env.uniform_hash app 0 + env.uniform_hash event_id 0) % 2 ^ 64 := by
  unfold live_model_impl.seed
  rw [h]
  omega

/-- C4: after a successful `init` the stored seed shift is the uniform hash (seed 0) of the
application id of the configuration, and for every event id the seed that `choose_rank` and
`request_episodic_decision` pass to the policy and to the sampler is
`(hash(app) + hash(event_id)) mod 2^64`; the sum does not depend on the order of its operands, and
the application id is the only configuration entry it is computed from. The calls return, with
the policy and the sampler called with that seed and no other seed passed, wherever the operation
is defined: for `choose_rank` when the sampler fails, in Online mode, and whenever the sampled
ranking is not empty; for `request_episodic_decision` on a facade that holds an episode logger,
and whenever the episode does not hold exactly one event after the update. -/
theorem seed_is_sum_of_hashes (env : Env) (self : live_model_impl) (event_id : String)
    (context : string_view) (flags : Nat) (response : ranking_response)
    (previous_id : Option String) (episode : episode_state)
    (hinit : (self.init env).code = error_code.success)
    (hargs : check_null_or_empty (some event_id) context = error_code.success) :
    (self.init env).self._seed_shift =
      env.uniform_hash ((self._configuration.get name.APP_ID (some "")).getD "") 0 % 2 ^ 64 ∧
    (env.uniform_hash ((self._configuration.get name.APP_ID (some "")).getD "") 0
        + env.uniform_hash event_id 0) % 2 ^ 64 =
      (env.uniform_hash event_id 0
        + env.uniform_hash ((self._configuration.get name.APP_ID (some "")).getD "") 0) % 2 ^ 64 ∧
    (∀ (pc sc : error_code) (d : rank_decision) (sampled : ranking_response),
      env.model_choose_rank event_id
        ((env.uniform_hash ((self._configuration.get name.APP_ID (some "")).getD "") 0
          + env.uniform_hash event_id 0) % 2 ^ 64) context.text = (pc, d) →
      env.sample_and_populate_response
        ((env.uniform_hash ((self._configuration.get name.APP_ID (some "")).getD "") 0
          + env.uniform_hash event_id 0) % 2 ^ 64)
        d.action_ids d.action_pdf d.model_version response.clear = (sc, sampled) →
      (sc ≠ error_code.success ∨ (self.init env).self._learning_mode = learning_mode.ONLINE ∨
        sampled.ranking ≠ []) →
      ∃ o rest,
        (self.init env).self.choose_rank env (some event_id) context flags response = some o ∧
        o.calls =
          call.model_choose_rank event_id
            ((env.uniform_hash ((self._configuration.get name.APP_ID (some "")).getD "") 0
              + env.uniform_hash event_id 0) % 2 ^ 64) context.text ::
          call.sample_and_populate_response
            ((env.uniform_hash ((self._configuration.get name.APP_ID (some "")).getD "") 0
              + env.uniform_hash event_id 0) % 2 ^ 64)
            d.action_ids d.action_pdf d.model_version :: rest ∧
        ∀ c ∈ rest, c.seed_arg = none) ∧
    (((self.init env).self._episode_logger = true ∨
        ∀ r, (env.episode_update episode event_id previous_id context.text r).2.size ≠ 1) →
      ∃ o rest,
        (self.init env).self.request_episodic_decision env (some event_id) previous_id context
          flags response episode = some o ∧
        o.calls =
          call.model_choose_rank_multistep event_id
            ((env.uniform_hash ((self._configuration.get name.APP_ID (some "")).getD "") 0
              + env.uniform_hash event_id 0) % 2 ^ 64)
            (env.history_get_context episode.events previous_id context.text)
            episode.events :: rest ∧
        ∀ c ∈ rest, ∀ s, c.seed_arg = some s →
          s = (env.uniform_hash ((self._configuration.get name.APP_ID (some "")).getD "") 0
            + env.uniform_hash event_id 0) % 2 ^ 64) := by
  have hshift := init_seed_shift env self hinit
  have hseed := seed_eq_sum env (self.init env).self event_id _ hshift
  refine ⟨hshift, by rw [Nat.add_comm], ?_, ?_⟩
  · intro pc sc d sampled hd hs hdef
    rw [← hseed] at hd hs
    obtain ⟨o, ho⟩ := choose_rank_defined env _ event_id context flags response pc sc d sampled
      hargs hd hs hdef
    obtain ⟨rest, hcalls, hrest⟩ := choose_rank_calls env _ event_id context flags response o hargs ho
    rw [hd] at hcalls
    rw [hseed] at hcalls
    refine ⟨o, rest, ho, hcalls, ?_⟩
    rcases hrest with hnil | ⟨r, hlog⟩
    · subst hnil; simp
    · subst hlog; simp [call.seed_arg]
  · intro hdef
    obtain ⟨o, ho⟩ := request_episodic_decision_defined env _ event_id previous_id context flags
      response episode hargs hdef
    obtain ⟨rest, hcalls, hrest⟩ := request_episodic_decision_calls env _ event_id previous_id
      context flags response episode o hargs ho
    rw [hseed] at hcalls hrest
    exact ⟨o, rest, ho, hcalls, hrest⟩

theorem seed_is_sum_of_hashes_witness :
    (episodic_model.init sample_env).self._seed_shift = 3 ∧
    (∃ o rest,
      (episodic_model.init sample_env).self.choose_rank
        sample_env (some "e") (string_view.of_string "ctx") 0 empty_ranking_response = some o ∧
      o.calls =
        call.model_choose_rank "e" 4 "ctx" ::
        call.sample_and_populate_response 4 [0, 1] [3, 4] "m" :: rest ∧
      ∀ c ∈ rest, c.seed_arg = none) ∧
    (∃ o rest,
      (episodic_model.init sample_env).self.request_episodic_decision
        sample_env (some "e") none (string_view.of_string "ctx") 0 empty_ranking_response
        { episode_id := "ep", events := [] } = some o ∧
      o.calls = call.model_choose_rank_multistep "e" 4 "ctx" [] :: rest ∧
      ∀ c ∈ rest, ∀ s, c.seed_arg = some s → s = 4) :=
  ⟨(seed_is_sum_of_hashes sample_env episodic_model "e"
      (string_view.of_string "ctx") 0 empty_ranking_response none
      { episode_id := "ep", events := [] } (by decide) (by decide)).1,
   (seed_is_sum_of_hashes sample_env episodic_model "e"
      (string_view.of_string "ctx") 0 empty_ranking_response none
      { episode_id := "ep", events := [] } (by decide) (by decide)).2.2.1
      error_code.success error_code.success
      { action_ids := [0, 1], action_pdf := [3, 4], model_version := "m" }
      ⟨"", 1, "m", [⟨1, 4⟩, ⟨0, 3⟩]⟩ rfl rfl (Or.inr (Or.inr (by simp))),
   (seed_is_sum_of_hashes sample_env episodic_model "e"
      (string_view.of_string "ctx") 0 empty_ranking_response none
      { episode_id := "ep", events := [] } (by decide) (by decide)).2.2.2
      (Or.inl (by decide))⟩

/-! ### Argument validation -/

theorem check_null_or_empty_invalid (event_id : Option String) (context : string_view)
    (h : event_id = none ∨ event_id = some "" ∨ context.empty = true) :
    check_null_or_empty event_id context = error_code.invalid_argument := by
  unfold check_null_or_empty
  rcases h with h | h | h
  · subst h; rfl
  · subst h; rfl
  · cases event_id with
    | none => rfl
    | some s => simp [h]

/-- For a null or empty event id or an empty context, `choose_rank` returns `invalid_argument`,
calls no collaborator and leaves the response cleared. -/
theorem choose_rank_invalid_argument (env : Env) (self : live_model_impl)
    (event_id : Option String) (context : string_view) (flags : Nat)
    (response : ranking_response)
    (h : event_id = none ∨ event_id = some "" ∨ context.empty = true) :
    self.choose_rank env event_id context flags response =
      some { code := error_code.invalid_argument, response := response.clear, self := self,
             calls := [] } := by
  have hc := check_null_or_empty_invalid event_id context h
  unfold live_model_impl.choose_rank
  simp only [hc]

/-- For a null or empty event id or an empty context, `request_episodic_decision` returns
`invalid_argument`, calls no collaborator and leaves the response cleared. -/
theorem request_episodic_decision_invalid_argument (env : Env) (self : live_model_impl)
    (event_id previous_id : Option String) (context : string_view) (flags : Nat)
    (response : ranking_response) (episode : episode_state)
    (h : event_id = none ∨ event_id = some "" ∨ context.empty = true) :
    (self.request_episodic_decision env event_id previous_id context flags response episode).map
        (fun o => (o.code, o.response, o.self, o.calls)) =
      some (error_code.invalid_argument, response.clear, self, []) := by
  have hc := check_null_or_empty_invalid event_id context h
  unfold live_model_impl.request_episodic_decision
  simp only [hc]
  cases event_id <;> rfl

/-- When `context.data()` points at the text the view denotes (the view of a whole C string),
`request_continuous_action` rejects a null or empty event id and an empty context with
`invalid_argument`, calls no collaborator and leaves the response cleared. -/
theorem request_continuous_action_invalid_argument (env : Env) (self : live_model_impl)
    (event_id : Option String) (text : String) (flags : Nat)
    (response : continuous_action_response)
    (h : event_id = none ∨ event_id = some "" ∨ (string_view.of_string text).empty = true) :
    self.request_continuous_action env event_id (string_view.of_string text) flags response =
      some { code := error_code.invalid_argument, response := response.clear, self := self,
             calls := [] } := by
  have hc := check_null_or_empty_invalid event_id (string_view.of_string text) h
  unfold live_model_impl.request_continuous_action
  simp only [string_view.of_string, string_view.of_c_str] at hc ⊢
  simp only [hc]

/-- C5 (the code departs from the claim): `request_continuous_action` checks `context.data()`
in place of `context`. With the valid event id `"e"` and an empty view (size 0) whose `data()`
points at the text `"abc"`, the call is not rejected: the policy, `populate_response` and the
interaction logger are called and the call returns `success`. With an empty view whose `data()` is
null (a default-constructed `string_view`) the check builds a `string_view` from a null pointer,
which is undefined. -/
theorem request_continuous_action_checks_data_not_view :
    ({ data := some "abc", size := 0 } : string_view).wf = true ∧
    ({ data := some "abc", size := 0 } : string_view).empty = true ∧
    ((sample_model learning_mode.ONLINE false).request_continuous_action sample_env (some "e")
        { data := some "abc", size := 0 } 0
        { event_id := "", chosen_action := 0, chosen_action_pdf_value := 0, model_id := "" }).map
      (fun o => (o.code, o.calls)) =
      some (error_code.success,
        [call.model_choose_continuous_action "",
         call.populate_response 5 6 "e" "m",
         call.interaction_logger_log_continuous_action "abc" 0
           { event_id := "e", chosen_action := 5, chosen_action_pdf_value := 6,
             model_id := "m" }]) ∧
    ({ data := none, size := 0 } : string_view).empty = true ∧
    (sample_model learning_mode.ONLINE false).request_continuous_action sample_env (some "e")
        { data := none, size := 0 } 0
        { event_id := "", chosen_action := 0, chosen_action_pdf_value := 0, model_id := "" }
      = none := by
  refine ⟨by decide, by decide, by decide, by decide, ?_⟩
  rfl

/-! ### `choose_rank` and the learning modes -/

/-- When the argument check, the sampler, the resets and the interaction logger all succeed,
`choose_rank` ends in the watchdog check, having called the policy, the sampler and the
interaction logger, in this order. -/
theorem choose_rank_reaches_watchdog (env : Env) (self : live_model_impl) (event_id : String)
    (context : string_view) (flags : Nat) (response : ranking_response) (pc : error_code)
    (d : rank_decision) (sampled : ranking_response)
    (hargs : check_null_or_empty (some event_id) context = error_code.success)
    (hd : env.model_choose_rank event_id (self.seed env event_id) context.text = (pc, d))
    (hs : env.sample_and_populate_response (self.seed env event_id) d.action_ids d.action_pdf
      d.model_version response.clear = (error_code.success, sampled))
    (hreset : self._learning_mode ≠ learning_mode.ONLINE →
      ∃ r, reset_action_order env.std_sort env.set_chosen_action_id_check (sampled.set_event_id event_id)
        = some (error_code.success, r))
    (hlog : ∀ r, env.interaction_logger_log context.text flags r self._learning_mode
      = error_code.success) :
    ∃ r logged, self.choose_rank env (some event_id) context flags response =
      some (self.check_watchdog r
        [call.model_choose_rank event_id (self.seed env event_id) context.text,
         call.sample_and_populate_response (self.seed env event_id) d.action_ids d.action_pdf
           d.model_version,
         call.interaction_logger_log context.text flags logged self._learning_mode]) := by
  unfold live_model_impl.choose_rank
  simp only [hargs, hd, hs]
  cases hm : self._learning_mode with
  | ONLINE =>
    rw [hm] at hlog
    refine ⟨sampled.set_event_id event_id, sampled.set_event_id event_id, ?_⟩
    simp [hlog]
  | APPRENTICE =>
    rw [hm] at hlog
    obtain ⟨r, hr⟩ := hreset (by rw [hm]; decide)
    refine ⟨r, sampled.set_event_id event_id, ?_⟩
    simp [hlog, hr]
  | LOGGINGONLY =>
    rw [hm] at hlog
    obtain ⟨r, hr⟩ := hreset (by rw [hm]; decide)
    refine ⟨r, r, ?_⟩
    simp [hlog, hr]

/-- C6: in LoggingOnly mode, for every successful `choose_rank` call, the response handed to the
interaction logger is `reset_action_order` applied to the sampler's response (carrying the event
id), the response returned to the caller is that same response, and its chosen action is its
first entry, the smallest action id of the sampled ranking. -/
theorem choose_rank_loggingonly_logs_and_returns_reset (env : Env) (self : live_model_impl)
    (event_id : String) (context : string_view) (flags : Nat) (response : ranking_response)
    (pc sc : error_code) (d : rank_decision) (sampled : ranking_response)
    (o : outcome ranking_response)
    (hmode : self._learning_mode = learning_mode.LOGGINGONLY)
    (hd : env.model_choose_rank event_id (self.seed env event_id) context.text = (pc, d))
    (hs : env.sample_and_populate_response (self.seed env event_id) d.action_ids d.action_pdf
      d.model_version response.clear = (sc, sampled))
    (h : self.choose_rank env (some event_id) context flags response = some o)
    (hcode : o.code = error_code.success) :
    ∃ reset, reset_action_order env.std_sort env.set_chosen_action_id_check (sampled.set_event_id event_id)
        = some (error_code.success, reset) ∧
      o.calls =
        [call.model_choose_rank event_id (self.seed env event_id) context.text,
         call.sample_and_populate_response (self.seed env event_id) d.action_ids d.action_pdf
           d.model_version,
         call.interaction_logger_log context.text flags reset learning_mode.LOGGINGONLY] ∧
      o.response = reset ∧
      ∃ first rest, reset.ranking = first :: rest ∧ reset.chosen_action_id = first.action_id ∧
        ∀ a ∈ sampled.ranking, first.action_id ≤ a.action_id := by
  unfold live_model_impl.choose_rank at h
  cases hc : check_null_or_empty (some event_id) context <;>
    simp only [hc, hd, hs, hmode] at h <;>
    try (cases h; simp at hcode)
  · split at h
    · cases h; rename_i hne; exact absurd hcode hne
    · simp only [if_true] at h
      split at h
      · exact absurd h (by simp)
      · rename_i code reset hreset
        split at h
        · cases h; rename_i hne; exact absurd hcode hne
        · rename_i hsuccess
          have hcs : code = error_code.success := by simpa using hsuccess
          subst hcs
          split at h
          · cases h; rename_i hne; exact absurd hcode hne
          · simp only [reduceCtorEq, if_false, ne_eq, not_true_eq_false] at h
            cases h
            obtain ⟨_, first, rest, h1, h2, _, h4⟩ :=
              reset_action_order_success _ _ _ _ hreset
            exact ⟨reset, hreset, by rw [check_watchdog_calls]; rfl,
              check_watchdog_response _ _ _, first, rest, h1, h2, h4⟩

theorem choose_rank_loggingonly_logs_and_returns_reset_witness :
    ∃ reset, reset_action_order sample_env.std_sort sample_env.set_chosen_action_id_check
        (ranking_response.set_event_id ⟨"", 1, "m", [⟨1, 4⟩, ⟨0, 3⟩]⟩ "e")
        = some (error_code.success, reset) ∧
      [call.model_choose_rank "e" 1 "ctx", call.sample_and_populate_response 1 [0, 1] [3, 4] "m",
        call.interaction_logger_log "ctx" 0 ⟨"e", 0, "m", [⟨0, 3⟩, ⟨1, 4⟩]⟩
          learning_mode.LOGGINGONLY] =
        [call.model_choose_rank "e"
            ((sample_model learning_mode.LOGGINGONLY false).seed sample_env "e")
            (string_view.of_string "ctx").text,
         call.sample_and_populate_response
            ((sample_model learning_mode.LOGGINGONLY false).seed sample_env "e") [0, 1] [3, 4] "m",
         call.interaction_logger_log (string_view.of_string "ctx").text 0 reset
            learning_mode.LOGGINGONLY] ∧
      (⟨"e", 0, "m", [⟨0, 3⟩, ⟨1, 4⟩]⟩ : ranking_response) = reset ∧
      ∃ first rest, reset.ranking = first :: rest ∧ reset.chosen_action_id = first.action_id ∧
        ∀ a ∈ [(⟨1, 4⟩ : action_prob), ⟨0, 3⟩], first.action_id ≤ a.action_id :=
  choose_rank_loggingonly_logs_and_returns_reset sample_env
    (sample_model learning_mode.LOGGINGONLY false) "e" (string_view.of_string "ctx") 0
    empty_ranking_response error_code.success error_code.success
    { action_ids := [0, 1], action_pdf := [3, 4], model_version := "m" }
    ⟨"", 1, "m", [⟨1, 4⟩, ⟨0, 3⟩]⟩
    { code := error_code.success, response := ⟨"e", 0, "m", [⟨0, 3⟩, ⟨1, 4⟩]⟩,
      self := sample_model learning_mode.LOGGINGONLY false,
      calls := [call.model_choose_rank "e" 1 "ctx",
        call.sample_and_populate_response 1 [0, 1] [3, 4] "m",
        call.interaction_logger_log "ctx" 0 ⟨"e", 0, "m", [⟨0, 3⟩, ⟨1, 4⟩]⟩
          learning_mode.LOGGINGONLY] }
    rfl rfl rfl rfl rfl

/-- C8: in Apprentice mode, when the argument check, the sampler and the interaction logger
succeed, the logger is called with the response as sampled (carrying the event id) and is the last
collaborator called, and the response the caller holds on return is the result of one application
of `reset_action_order` to that response; the call returns whenever the sampled ranking is not
empty. -/
theorem choose_rank_apprentice_resets_after_logging (env : Env) (self : live_model_impl)
    (event_id : String) (context : string_view) (flags : Nat) (response : ranking_response)
    (pc : error_code) (d : rank_decision) (sampled : ranking_response)
    (hmode : self._learning_mode = learning_mode.APPRENTICE)
    (hargs : check_null_or_empty (some event_id) context = error_code.success)
    (hd : env.model_choose_rank event_id (self.seed env event_id) context.text = (pc, d))
    (hs : env.sample_and_populate_response (self.seed env event_id) d.action_ids d.action_pdf
      d.model_version response.clear = (error_code.success, sampled))
    (hlog : env.interaction_logger_log context.text flags (sampled.set_event_id event_id)
      learning_mode.APPRENTICE = error_code.success) :
    (sampled.ranking ≠ [] →
      ∃ o, self.choose_rank env (some event_id) context flags response = some o) ∧
    ∀ o, self.choose_rank env (some event_id) context flags response = some o →
      ∃ code reset,
        reset_action_order env.std_sort env.set_chosen_action_id_check (sampled.set_event_id event_id)
          = some (code, reset) ∧
        o.response = reset ∧
        o.calls =
          [call.model_choose_rank event_id (self.seed env event_id) context.text,
           call.sample_and_populate_response (self.seed env event_id) d.action_ids d.action_pdf
             d.model_version,
           call.interaction_logger_log context.text flags (sampled.set_event_id event_id)
             learning_mode.APPRENTICE] := by
  unfold live_model_impl.choose_rank
  simp only [hargs, hd, hs, hmode]
  simp only [reduceCtorEq, if_false, ne_eq, not_true_eq_false, if_true, hlog]
  constructor
  · intro hne
    obtain ⟨code, r, hr, _⟩ := reset_action_order_defined env.std_sort
      env.set_chosen_action_id_check (sampled.set_event_id event_id) hne
    rw [hr]
    simp only
    split
    · exact ⟨_, rfl⟩
    · exact ⟨_, rfl⟩
  · intro o ho
    split at ho
    · exact absurd ho (by simp)
    · rename_i code reset hreset
      split at ho
      · cases ho
        exact ⟨code, reset, hreset, rfl, rfl⟩
      · cases ho
        exact ⟨code, reset, hreset, check_watchdog_response _ _ _, check_watchdog_calls _ _ _⟩

theorem choose_rank_apprentice_resets_after_logging_witness :
    ∃ code reset,
      reset_action_order sample_env.std_sort sample_env.set_chosen_action_id_check
          (ranking_response.set_event_id ⟨"", 1, "m", [⟨1, 4⟩, ⟨0, 3⟩]⟩ "e")
        = some (code, reset) ∧
      (⟨"e", 0, "m", [⟨0, 3⟩, ⟨1, 4⟩]⟩ : ranking_response) = reset ∧
      [call.model_choose_rank "e" 1 "ctx", call.sample_and_populate_response 1 [0, 1] [3, 4] "m",
        call.interaction_logger_log "ctx" 0 ⟨"e", 1, "m", [⟨1, 4⟩, ⟨0, 3⟩]⟩
          learning_mode.APPRENTICE] =
        [call.model_choose_rank "e"
            ((sample_model learning_mode.APPRENTICE false).seed sample_env "e")
            (string_view.of_string "ctx").text,
         call.sample_and_populate_response
            ((sample_model learning_mode.APPRENTICE false).seed sample_env "e") [0, 1] [3, 4] "m",
         call.interaction_logger_log (string_view.of_string "ctx").text 0
            (ranking_response.set_event_id ⟨"", 1, "m", [⟨1, 4⟩, ⟨0, 3⟩]⟩ "e")
            learning_mode.APPRENTICE] :=
  (choose_rank_apprentice_resets_after_logging sample_env
    (sample_model learning_mode.APPRENTICE false) "e" (string_view.of_string "ctx") 0
    empty_ranking_response error_code.success
    { action_ids := [0, 1], action_pdf := [3, 4], model_version := "m" }
    ⟨"", 1, "m", [⟨1, 4⟩, ⟨0, 3⟩]⟩ rfl rfl rfl rfl rfl).2
    { code := error_code.success, response := ⟨"e", 0, "m", [⟨0, 3⟩, ⟨1, 4⟩]⟩,
      self := sample_model learning_mode.APPRENTICE false,
      calls := [call.model_choose_rank "e" 1 "ctx",
        call.sample_and_populate_response 1 [0, 1] [3, 4] "m",
        call.interaction_logger_log "ctx" 0 ⟨"e", 1, "m", [⟨1, 4⟩, ⟨0, 3⟩]⟩
          learning_mode.APPRENTICE] }
    rfl

/-! ### The multi-slot reset -/

/-- When the loop of `reset_chosen_action_multi_slot` runs to its end with a non-empty baseline,
starting at a slot number within the baseline, the baseline covers every remaining slot and each
slot receives its baseline action and probability `1.f`. -/
theorem reset_chosen_action_multi_slot_loop_baseline (baseline_actions : List Int)
    (hb : baseline_actions ≠ []) :
    ∀ (slots : List slot_entry) (index : Nat) (out : List slot_entry),
      index ≤ baseline_actions.length →
      reset_chosen_action_multi_slot_loop baseline_actions index slots = some out →
      index + slots.length ≤ baseline_actions.length ∧
      out = List.zipWith (fun slot b => (slot.set_action_id b).set_probability float.one)
        slots (baseline_actions.drop index) := by
  intro slots
  induction slots with
  | nil =>
    intro index out hle h
    simp only [reset_chosen_action_multi_slot_loop, Option.some.injEq] at h
    subst h
    simp [hle]
  | cons slot rest ih =>
    intro index out hle h
    have hemp : baseline_actions.isEmpty = false := by
      cases baseline_actions with
      | nil => exact absurd rfl hb
      | cons _ _ => rfl
    simp only [reset_chosen_action_multi_slot_loop, hemp, Bool.not_false, Bool.true_and,
      ge_iff_le, hle, decide_True, if_true] at h
    split at h
    · rename_i action_id rest' hchosen hrest
      simp only [Option.some.injEq] at h
      subst h
      have hlt : index < baseline_actions.length := by
        rcases List.getElem?_eq_some_iff.mp hchosen with ⟨hlt, _⟩
        exact hlt
      obtain ⟨hlen, hout⟩ := ih (index + 1) rest' hlt hrest
      refine ⟨by simp only [List.length_cons]; omega, ?_⟩
      have hdrop : baseline_actions.drop index = action_id :: baseline_actions.drop (index + 1) := by
        rcases List.getElem?_eq_some_iff.mp hchosen with ⟨hlt', hget⟩
        rw [← hget]
        exact List.drop_eq_getElem_cons hlt'
      rw [hdrop, List.zipWith_cons_cons, hout]
    · exact absurd h (by simp)

/-! ### Apprentice mode: what the caller receives -/

theorem choose_rank_apprentice_success (env : Env) (self : live_model_impl)
    (event_id : String) (context : string_view) (flags : Nat) (response : ranking_response)
    (pc sc : error_code) (d : rank_decision) (sampled : ranking_response)
    (o : outcome ranking_response)
    (hmode : self._learning_mode = learning_mode.APPRENTICE)
    (hd : env.model_choose_rank event_id (self.seed env event_id) context.text = (pc, d))
    (hs : env.sample_and_populate_response (self.seed env event_id) d.action_ids d.action_pdf
      d.model_version response.clear = (sc, sampled))
    (h : self.choose_rank env (some event_id) context flags response = some o)
    (hcode : o.code = error_code.success) :
    reset_action_order env.std_sort env.set_chosen_action_id_check (sampled.set_event_id event_id)
      = some (error_code.success, o.response) := by
  unfold live_model_impl.choose_rank at h
  cases hc : check_null_or_empty (some event_id) context <;>
    simp only [hc, hd, hs, hmode] at h <;>
    try (cases h; simp at hcode)
  split at h
  · cases h; rename_i hne; exact absurd hcode hne
  · simp only [reduceCtorEq, if_false, ne_eq, not_true_eq_false, if_true] at h
    split at h
    · cases h; rename_i hne; exact absurd hcode hne
    · split at h
      · exact absurd h (by simp)
      · rename_i code reset hreset
        split at h
        · cases h; rename_i hne; exact absurd hcode hne
        · rename_i hsuccess
          have hcs : code = error_code.success := by simpa using hsuccess
          subst hcs
          cases h
          rw [check_watchdog_response]
          exact hreset

theorem request_multi_slot_decision_reset_success (env : Env) (self : live_model_impl)
    (event_id : Option String) (context_json : string_view) (flags : Nat)
    (resp : multi_slot_response) (baseline_actions : List Int) (impl : multi_slot_impl_outcome)
    (pcode : error_code) (populated : multi_slot_response) (o : outcome multi_slot_response)
    (hmode : self._learning_mode = learning_mode.APPRENTICE ∨
      self._learning_mode = learning_mode.LOGGINGONLY)
    (himpl : self.request_multi_slot_decision_impl env event_id context_json []
      { action_ids := [], action_pdfs := [], model_version := "" } = some impl)
    (hpop : env.populate_multi_slot_response impl.decision.action_ids impl.decision.action_pdfs
      (event_id.getD "") impl.decision.model_version impl.slot_ids resp.clear
      = (pcode, populated))
    (h : self.request_multi_slot_decision env event_id context_json flags resp baseline_actions
      = some o)
    (hcode : o.code = error_code.success) :
    reset_chosen_action_multi_slot populated baseline_actions
      = some (error_code.success, o.response) := by
  unfold live_model_impl.request_multi_slot_decision at h
  simp only [himpl, hpop] at h
  split at h
  · cases h; simp at hcode
  · split at h
    · cases h; rename_i hne; exact absurd hcode hne
    · split at h
      · cases h; rename_i hne; exact absurd hcode hne
      · split at h
        · cases h; rename_i hne; exact absurd hcode hne
        · split at h
          · exact absurd h (by simp)
          · rename_i code reset hreset
            split at h
            · cases h; rename_i hne; exact absurd hcode hne
            · rename_i hsuccess
              have hcs : code = error_code.success := by simpa using hsuccess
              subst hcs
              cases h
              rw [check_watchdog_response]
              exact hreset

/-- C7 (counterexample): in Apprentice mode a successful `choose_rank` call whose sampler ranks
action 1 before action 0 returns a response whose ranking and chosen action differ from the
sampler's, and a successful `request_multi_slot_decision` call with baseline `[0]`, whose
populated slot holds action 1 with probability bits 4, returns the slot with action 0 and
probability `1.f`. -/
theorem apprentice_caller_does_not_receive_sampled_response :
    ((sample_model learning_mode.APPRENTICE false).choose_rank sample_env (some "e")
        (string_view.of_string "ctx") 0 empty_ranking_response).map
      (fun o => (o.code,
        decide (o.response.ranking =
          (sample_env.sample_and_populate_response 1 [0, 1] [3, 4] "m"
            empty_ranking_response.clear).2.ranking),
        decide (o.response.chosen_action_id =
          (sample_env.sample_and_populate_response 1 [0, 1] [3, 4] "m"
            empty_ranking_response.clear).2.chosen_action_id)))
      = some (error_code.success, false, false) ∧
    (sample_env.populate_multi_slot_response [[1, 0]] [[4, 3]] "e" "m" ["slot_0"]
        empty_multi_slot_response.clear).2.slots = [⟨"slot_0", 1, 4⟩] ∧
    ((sample_model learning_mode.APPRENTICE false).request_multi_slot_decision sample_env
        (some "e") (string_view.of_string "ctx") 0 empty_multi_slot_response [0]).map
      (fun o => (o.code, o.response.slots))
      = some (error_code.success, [⟨"slot_0", 0, float.one⟩]) := by
  refine ⟨by decide, by decide, by decide⟩

/-- C7 (amended): in Apprentice mode the response returned to the caller is the reset one. For
every successful `choose_rank` call the returned response is `reset_action_order` of the sampled
response: the sampler's entries in ascending order of action id, the first of them chosen. For
every successful `request_multi_slot_decision` call whose baseline has an entry for every
populated slot, the returned response is the populated one with slot `i` holding the baseline
action `b[i]` and probability `1.f`. -/
theorem apprentice_caller_receives_reset_response (env : Env) (self : live_model_impl)
    (hmode : self._learning_mode = learning_mode.APPRENTICE) :
    (∀ (event_id : String) (context : string_view) (flags : Nat) (response : ranking_response)
        (pc sc : error_code) (d : rank_decision) (sampled : ranking_response)
        (o : outcome ranking_response),
      env.model_choose_rank event_id (self.seed env event_id) context.text = (pc, d) →
      env.sample_and_populate_response (self.seed env event_id) d.action_ids d.action_pdf
        d.model_version response.clear = (sc, sampled) →
      self.choose_rank env (some event_id) context flags response = some o →
      o.code = error_code.success →
      reset_action_order env.std_sort env.set_chosen_action_id_check (sampled.set_event_id event_id)
        = some (error_code.success, o.response) ∧
      o.response.ranking.Perm sampled.ranking ∧ ascending o.response.ranking ∧
      ∃ first rest, o.response.ranking = first :: rest ∧
        o.response.chosen_action_id = first.action_id) ∧
    (∀ (event_id : Option String) (context_json : string_view) (flags : Nat)
        (resp : multi_slot_response) (baseline_actions : List Int)
        (impl : multi_slot_impl_outcome) (pcode : error_code) (populated : multi_slot_response)
        (o : outcome multi_slot_response),
      self.request_multi_slot_decision_impl env event_id context_json []
        { action_ids := [], action_pdfs := [], model_version := "" } = some impl →
      env.populate_multi_slot_response impl.decision.action_ids impl.decision.action_pdfs
        (event_id.getD "") impl.decision.model_version impl.slot_ids resp.clear
        = (pcode, populated) →
      populated.slots.length ≤ baseline_actions.length →
      self.request_multi_slot_decision env event_id context_json flags resp baseline_actions
        = some o →
      o.code = error_code.success →
      o.response = { populated with
        slots := List.zipWith
          (fun slot b => (slot.set_action_id b).set_probability float.one)
          populated.slots baseline_actions }) := by
  constructor
  · intro event_id context flags response pc sc d sampled o hd hs h hcode
    have hreset := choose_rank_apprentice_success env self event_id context flags response pc sc
      d sampled o hmode hd hs h hcode
    obtain ⟨heq, first, rest, h1, h2, _, _⟩ := reset_action_order_success _ _ _ _ hreset
    have hrank : o.response.ranking = env.std_sort.sort sampled.ranking := by
      rw [heq]; rfl
    refine ⟨hreset, ?_, ?_, first, rest, h1, h2⟩
    · rw [hrank]; exact env.std_sort.perm _
    · rw [hrank]; exact std_sort_ascending _ _
  · intro event_id context_json flags resp baseline_actions impl pcode populated o himpl hpop _
      h hcode
    have hreset := request_multi_slot_decision_reset_success env self event_id context_json flags
      resp baseline_actions impl pcode populated o (Or.inl hmode) himpl hpop h hcode
    have hb : baseline_actions ≠ [] := by
      intro hnil
      unfold live_model_impl.request_multi_slot_decision at h
      simp [hmode, hnil] at h
      rw [← h] at hcode
      simp at hcode
    unfold reset_chosen_action_multi_slot at hreset
    split at hreset
    · exact absurd hreset (by simp)
    · rename_i slots hloop
      simp only [Option.some.injEq, Prod.mk.injEq, true_and] at hreset
      obtain ⟨hlen, hout⟩ := reset_chosen_action_multi_slot_loop_baseline baseline_actions hb
        populated.slots 0 slots (Nat.zero_le _) hloop
      rw [List.drop_zero] at hout
      rw [← hreset, hout]

theorem apprentice_caller_receives_reset_response_witness :
    reset_action_order sample_env.std_sort sample_env.set_chosen_action_id_check
        (ranking_response.set_event_id ⟨"", 1, "m", [⟨1, 4⟩, ⟨0, 3⟩]⟩ "e")
      = some (error_code.success, ⟨"e", 0, "m", [⟨0, 3⟩, ⟨1, 4⟩]⟩) ∧
    (⟨"e", "m", [⟨"slot_0", 0, float.one⟩]⟩ : multi_slot_response) =
      { event_id := "e", model_id := "m",
        slots := List.zipWith (fun slot b => (slot.set_action_id b).set_probability float.one)
          [(⟨"slot_0", 1, 4⟩ : slot_entry)] [0] } :=
  ⟨((apprentice_caller_receives_reset_response sample_env
      (sample_model learning_mode.APPRENTICE false) rfl).1 "e" (string_view.of_string "ctx") 0
      empty_ranking_response error_code.success error_code.success
      { action_ids := [0, 1], action_pdf := [3, 4], model_version := "m" }
      ⟨"", 1, "m", [⟨1, 4⟩, ⟨0, 3⟩]⟩
      { code := error_code.success, response := ⟨"e", 0, "m", [⟨0, 3⟩, ⟨1, 4⟩]⟩,
        self := sample_model learning_mode.APPRENTICE false,
        calls := [call.model_choose_rank "e" 1 "ctx",
          call.sample_and_populate_response 1 [0, 1] [3, 4] "m",
          call.interaction_logger_log "ctx" 0 ⟨"e", 1, "m", [⟨1, 4⟩, ⟨0, 3⟩]⟩
            learning_mode.APPRENTICE] }
      rfl rfl rfl rfl).1,
   (apprentice_caller_receives_reset_response sample_env
      (sample_model learning_mode.APPRENTICE false) rfl).2 (some "e")
      (string_view.of_string "ctx") 0 empty_multi_slot_response [0]
      { code := error_code.success, slot_ids := ["slot_0"],
        decision := { action_ids := [[1, 0]], action_pdfs := [[4, 3]], model_version := "m" },
        calls := [call.get_context_info "ctx", call.get_slot_ids "ctx" [(5, 1)],
          call.model_request_multi_slot_decision "e" ["slot_0"] "ctx"] }
      error_code.success ⟨"e", "m", [⟨"slot_0", 1, 4⟩]⟩
      { code := error_code.success, response := ⟨"e", "m", [⟨"slot_0", 0, float.one⟩]⟩,
        self := sample_model learning_mode.APPRENTICE false,
        calls := [call.get_context_info "ctx", call.get_slot_ids "ctx" [(5, 1)],
          call.model_request_multi_slot_decision "e" ["slot_0"] "ctx",
          call.populate_multi_slot_response [[1, 0]] [[4, 3]] "e" "m" ["slot_0"],
          call.interaction_logger_log_decision "e" "ctx" 0 [[1, 0]] [[4, 3]] "m" ["slot_0"] [0]
            learning_mode.APPRENTICE] }
      rfl rfl (by decide) rfl rfl⟩

/-! ### The watchdog -/

theorem check_watchdog_set {ρ : Type} (self : live_model_impl) (response : ρ)
    (calls : List call) (h : self._watchdog.unhandled_background_error = true) :
    self.check_watchdog response calls =
      { code := error_code.unhandled_background_error_occurred, response := response,
        self := { self with _watchdog := { unhandled_background_error := false } },
        calls := calls } := by
  unfold live_model_impl.check_watchdog watchdog.has_background_error_been_reported
  simp [h]

theorem check_watchdog_clear {ρ : Type} (self : live_model_impl) (response : ρ)
    (calls : List call) (h : self._watchdog.unhandled_background_error = false) :
    self.check_watchdog response calls =
      { code := error_code.success, response := response,
        self := { self with _watchdog := { unhandled_background_error := false } },
        calls := calls } := by
  unfold live_model_impl.check_watchdog watchdog.has_background_error_been_reported
  simp [h]

/-- With the background-error flag set, a `choose_rank` call whose argument check, sampler,
resets and interaction logger succeed returns `unhandled_background_error_occurred` and clears
the flag. -/
theorem choose_rank_reports_background_error (env : Env) (self : live_model_impl)
    (event_id : String) (context : string_view) (flags : Nat) (response : ranking_response)
    (pc : error_code) (d : rank_decision) (sampled : ranking_response)
    (hflag : self._watchdog.unhandled_background_error = true)
    (hargs : check_null_or_empty (some event_id) context = error_code.success)
    (hd : env.model_choose_rank event_id (self.seed env event_id) context.text = (pc, d))
    (hs : env.sample_and_populate_response (self.seed env event_id) d.action_ids d.action_pdf
      d.model_version response.clear = (error_code.success, sampled))
    (hreset : self._learning_mode ≠ learning_mode.ONLINE →
      ∃ r, reset_action_order env.std_sort env.set_chosen_action_id_check (sampled.set_event_id event_id)
        = some (error_code.success, r))
    (hlog : ∀ r, env.interaction_logger_log context.text flags r self._learning_mode
      = error_code.success) :
    ∃ o, self.choose_rank env (some event_id) context flags response = some o ∧
      o.code = error_code.unhandled_background_error_occurred ∧
      o.self._watchdog.unhandled_background_error = false := by
  obtain ⟨r, logged, h⟩ := choose_rank_reaches_watchdog env self event_id context flags response
    pc d sampled hargs hd hs hreset hlog
  rw [check_watchdog_set _ _ _ hflag] at h
  exact ⟨_, h, rfl, rfl⟩

/-- With the background-error flag set, a `request_continuous_action` call whose argument check,
policy, `populate_response` and interaction logger succeed returns
`unhandled_background_error_occurred` and clears the flag. -/
theorem request_continuous_action_reports_background_error (env : Env) (self : live_model_impl)
    (event_id : String) (context : string_view) (data : String) (flags : Nat)
    (response : continuous_action_response) (chosen : continuous_decision)
    (populated : continuous_action_response)
    (hflag : self._watchdog.unhandled_background_error = true)
    (hdata : context.data = some data)
    (hargs : check_null_or_empty (some event_id) { data := some data, size := data.length }
      = error_code.success)
    (hc : env.model_choose_continuous_action context.text = (error_code.success, chosen))
    (hp : env.populate_response chosen.action chosen.pdf_value event_id chosen.model_version
      response.clear = (error_code.success, populated))
    (hlog : env.interaction_logger_log_continuous_action data flags populated
      = error_code.success) :
    ∃ o, self.request_continuous_action env (some event_id) context flags response = some o ∧
      o.code = error_code.unhandled_background_error_occurred ∧
      o.self._watchdog.unhandled_background_error = false := by
  unfold live_model_impl.request_continuous_action
  simp only [hdata, string_view.of_c_str, hargs, hc, hp, hlog]
  simp only [ne_eq, not_true_eq_false, if_false]
  rw [check_watchdog_set _ _ _ hflag]
  exact ⟨_, rfl, rfl, rfl⟩

/-- With the background-error flag set, a `request_multi_slot_decision` call whose
`request_multi_slot_decision_impl`, `populate_multi_slot_response`, interaction logger and reset
succeed returns `unhandled_background_error_occurred` and clears the flag. -/
theorem request_multi_slot_decision_reports_background_error (env : Env)
    (self : live_model_impl) (event_id : Option String) (context_json : string_view)
    (flags : Nat) (resp : multi_slot_response) (baseline_actions : List Int)
    (impl : multi_slot_impl_outcome) (populated reset : multi_slot_response)
    (hflag : self._watchdog.unhandled_background_error = true)
    (hguard : ¬ (self._learning_mode = learning_mode.APPRENTICE ∧
      baseline_actions.isEmpty = true))
    (himpl : self.request_multi_slot_decision_impl env event_id context_json []
      { action_ids := [], action_pdfs := [], model_version := "" } = some impl)
    (hcode : impl.code = error_code.success)
    (hpop : env.populate_multi_slot_response impl.decision.action_ids impl.decision.action_pdfs
      (event_id.getD "") impl.decision.model_version impl.slot_ids resp.clear
      = (error_code.success, populated))
    (hlog : env.interaction_logger_log_decision (event_id.getD "") context_json.text flags
      impl.decision.action_ids impl.decision.action_pdfs impl.decision.model_version
      impl.slot_ids baseline_actions self._learning_mode = error_code.success)
    (hreset : (if self._learning_mode = learning_mode.APPRENTICE ∨
          self._learning_mode = learning_mode.LOGGINGONLY then
        reset_chosen_action_multi_slot populated baseline_actions
      else some (error_code.success, populated)) = some (error_code.success, reset)) :
    ∃ o, self.request_multi_slot_decision env event_id context_json flags resp baseline_actions
        = some o ∧
      o.code = error_code.unhandled_background_error_occurred ∧
      o.self._watchdog.unhandled_background_error = false := by
  unfold live_model_impl.request_multi_slot_decision
  simp only [hguard, if_false, himpl, hcode, hpop, hlog, hreset]
  simp only [ne_eq, not_true_eq_false, if_false]
  rw [check_watchdog_set _ _ _ hflag]
  exact ⟨_, rfl, rfl, rfl⟩

/-- The episodic decision never reads the watchdog: whatever it returns, the facade object, and
with it the background-error flag, is as before the call. -/
theorem request_episodic_decision_leaves_watchdog (env : Env) (self : live_model_impl)
    (event_id previous_id : Option String) (context_json : string_view) (flags : Nat)
    (resp : ranking_response) (episode : episode_state) (o : episodic_outcome)
    (h : self.request_episodic_decision env event_id previous_id context_json flags resp episode
      = some o) : o.self = self := by
  unfold live_model_impl.request_episodic_decision at h
  simp only at h
  split at h
  · split at h
    · cases h; rfl
    · split at h
      · cases h; rfl
      · split at h
        · cases h; rfl
        · split at h
          · exact absurd h (by simp)
          · split at h
            · cases h; rfl
            · split at h
              · cases h; rfl
              · cases h; rfl
  · cases h; rfl

/-- C9 (the code departs from the claim): with the background-error flag set and every step
succeeding, `request_episodic_decision` returns `success` and leaves the flag set, while
`choose_rank` on the same facade object returns `unhandled_background_error_occurred` and clears
the flag. -/
theorem request_episodic_decision_ignores_background_error :
    ((sample_model learning_mode.ONLINE true).request_episodic_decision sample_env (some "e")
        none (string_view.of_string "ctx") 0 empty_ranking_response
        { episode_id := "ep", events := [] }).map
      (fun o => (o.code, o.self._watchdog.unhandled_background_error,
        o.calls.map call.is_logger))
      = some (error_code.success, true, [false, false, false, true, true]) ∧
    ((sample_model learning_mode.ONLINE true).choose_rank sample_env (some "e")
        (string_view.of_string "ctx") 0 empty_ranking_response).map
      (fun o => (o.code, o.self._watchdog.unhandled_background_error))
      = some (error_code.unhandled_background_error_occurred, false) := by
  refine ⟨by decide, by decide⟩

/-- C10: with the watchdog read returning the previous value of the flag and clearing it, and the
flag set before the first of two `choose_rank` calls whose other steps (argument check, sampler,
resets, interaction logger) succeed, the first call hands its interaction event to the interaction
logger, as its last collaborator call, and returns `unhandled_background_error_occurred`; the
second call, made on the facade object the first one left, returns `success`. -/
theorem background_error_is_reported_once (env1 env2 : Env) (self : live_model_impl)
    (event_id1 event_id2 : String) (context1 context2 : string_view) (flags1 flags2 : Nat)
    (response1 response2 : ranking_response) (pc1 pc2 : error_code) (d1 d2 : rank_decision)
    (sampled1 sampled2 : ranking_response)
    (hflag : self._watchdog.unhandled_background_error = true)
    (hargs1 : check_null_or_empty (some event_id1) context1 = error_code.success)
    (hd1 : env1.model_choose_rank event_id1 (self.seed env1 event_id1) context1.text = (pc1, d1))
    (hs1 : env1.sample_and_populate_response (self.seed env1 event_id1) d1.action_ids
      d1.action_pdf d1.model_version response1.clear = (error_code.success, sampled1))
    (hreset1 : self._learning_mode ≠ learning_mode.ONLINE →
      ∃ r, reset_action_order env1.std_sort env1.set_chosen_action_id_check (sampled1.set_event_id event_id1)
        = some (error_code.success, r))
    (hlog1 : ∀ r, env1.interaction_logger_log context1.text flags1 r self._learning_mode
      = error_code.success)
    (hargs2 : check_null_or_empty (some event_id2) context2 = error_code.success)
    (hd2 : env2.model_choose_rank event_id2 (self.seed env2 event_id2) context2.text = (pc2, d2))
    (hs2 : env2.sample_and_populate_response (self.seed env2 event_id2) d2.action_ids
      d2.action_pdf d2.model_version response2.clear = (error_code.success, sampled2))
    (hreset2 : self._learning_mode ≠ learning_mode.ONLINE →
      ∃ r, reset_action_order env2.std_sort env2.set_chosen_action_id_check (sampled2.set_event_id event_id2)
        = some (error_code.success, r))
    (hlog2 : ∀ r, env2.interaction_logger_log context2.text flags2 r self._learning_mode
      = error_code.success) :
    ∃ o1 o2 logged,
      self.choose_rank env1 (some event_id1) context1 flags1 response1 = some o1 ∧
      o1.code = error_code.unhandled_background_error_occurred ∧
      o1.calls.getLast? =
        some (call.interaction_logger_log context1.text flags1 logged self._learning_mode) ∧
      o1.self.choose_rank env2 (some event_id2) context2 flags2 response2 = some o2 ∧
      o2.code = error_code.success := by
  obtain ⟨r1, logged1, h1⟩ := choose_rank_reaches_watchdog env1 self event_id1 context1 flags1
    response1 pc1 d1 sampled1 hargs1 hd1 hs1 hreset1 hlog1
  rw [check_watchdog_set _ _ _ hflag] at h1
  obtain ⟨r2, logged2, h2⟩ := choose_rank_reaches_watchdog env2
    { self with _watchdog := { unhandled_background_error := false } } event_id2 context2 flags2
    response2 pc2 d2 sampled2 hargs2 hd2 hs2 hreset2 hlog2
  rw [check_watchdog_clear _ _ _ rfl] at h2
  exact ⟨_, _, logged1, h1, rfl, rfl, h2, rfl⟩

theorem background_error_is_reported_once_witness :
    ∃ o1 o2 logged,
      (sample_model learning_mode.ONLINE true).choose_rank sample_env (some "e1")
        (string_view.of_string "ctx") 0 empty_ranking_response = some o1 ∧
      o1.code = error_code.unhandled_background_error_occurred ∧
      o1.calls.getLast? =
        some (call.interaction_logger_log (string_view.of_string "ctx").text 0 logged
          (sample_model learning_mode.ONLINE true)._learning_mode) ∧
      o1.self.choose_rank sample_env (some "e2") (string_view.of_string "ctx") 1
        empty_ranking_response = some o2 ∧
      o2.code = error_code.success :=
  background_error_is_reported_once sample_env sample_env (sample_model learning_mode.ONLINE true)
    "e1" "e2" (string_view.of_string "ctx") (string_view.of_string "ctx") 0 1
    empty_ranking_response empty_ranking_response error_code.success error_code.success
    { action_ids := [0, 1], action_pdf := [3, 4], model_version := "m" }
    { action_ids := [0, 1], action_pdf := [3, 4], model_version := "m" }
    ⟨"", 1, "m", [⟨1, 4⟩, ⟨0, 3⟩]⟩ ⟨"", 1, "m", [⟨1, 4⟩, ⟨0, 3⟩]⟩
    rfl rfl rfl rfl (fun h => absurd rfl h) (fun _ => rfl)
    rfl rfl rfl (fun h => absurd rfl h) (fun _ => rfl)

/-! ### `request_decision` and the learning mode -/

/-- C11: called while the learning mode is Apprentice or LoggingOnly, `request_decision` returns
`not_supported`, makes no collaborator call (so none to the context parser, the policy or the
interaction logger) and leaves the caller's response, the caller's status object and the facade
object exactly as they were. -/
theorem request_decision_not_supported (env : Env) (self : live_model_impl)
    (context_json : string_view) (flags : Nat) (resp : decision_response)
    (status : Option api_status)
    (hmode : self._learning_mode = learning_mode.APPRENTICE ∨
      self._learning_mode = learning_mode.LOGGINGONLY) :
    self.request_decision env context_json flags resp status =
      some { code := error_code.not_supported, response := resp, status := status,
             self := self, calls := [] } := by
  unfold live_model_impl.request_decision
  rw [if_pos hmode]

theorem request_decision_not_supported_witness :
    (sample_model learning_mode.APPRENTICE false).request_decision sample_env
        (string_view.of_string "ctx") 0 { model_id := "m", slots := [⟨"s", 1, 4⟩] }
        (some { code := error_code.invalid_argument, msg := "earlier" }) =
      some { code := error_code.not_supported,
             response := { model_id := "m", slots := [⟨"s", 1, 4⟩] },
             status := some { code := error_code.invalid_argument, msg := "earlier" },
             self := sample_model learning_mode.APPRENTICE false, calls := [] } :=
  request_decision_not_supported sample_env (sample_model learning_mode.APPRENTICE false)
    (string_view.of_string "ctx") 0 { model_id := "m", slots := [⟨"s", 1, 4⟩] }
    (some { code := error_code.invalid_argument, msg := "earlier" }) (Or.inl rfl)

/-! ### `_multi` before `_slots` -/

/-- The test both decision paths apply to the parsed context:
`slots.empty() || actions.empty() || slots[0].first < actions[0].first`. -/
theorem context_info_check_fails (info : ContextInfo)
    (hbad : info.slots = [] ∨ info.actions = [] ∨
      ∃ slot action, info.slots.head? = some slot ∧ info.actions.head? = some action ∧
        slot.1 < action.1)
    {α : Type} (pass : (Nat × Nat) → (Nat × Nat) → α) (fail : α) :
    (match info.slots, info.actions with
      | slot :: _, action :: _ => if slot.1 < action.1 then fail else pass slot action
      | _, _ => fail) = fail := by
  rcases hbad with h | h | ⟨slot, action, hs, ha, hlt⟩
  · rw [h]
  · rw [h]; cases info.slots <;> rfl
  · cases hslots : info.slots with
    | nil => rfl
    | cons s ss =>
      cases hactions : info.actions with
      | nil => rfl
      | cons a as =>
        rw [hslots] at hs
        rw [hactions] at ha
        simp only [List.head?_cons, Option.some.injEq] at hs ha
        subst hs; subst ha
        simp [hlt]

theorem request_multi_slot_decision_impl_json_parse_error (env : Env) (self : live_model_impl)
    (event_id : Option String) (context_json : string_view) (slot_ids : List String)
    (decision : multi_slot_decision) (info : ContextInfo)
    (hid : check_null_or_empty_c_str event_id = error_code.success)
    (hctx : context_json.empty = false)
    (hinfo : env.get_context_info context_json.text = (error_code.success, info))
    (hbad : info.slots = [] ∨ info.actions = [] ∨
      ∃ slot action, info.slots.head? = some slot ∧ info.actions.head? = some action ∧
        slot.1 < action.1) :
    self.request_multi_slot_decision_impl env event_id context_json slot_ids decision =
      some { code := error_code.json_parse_error, slot_ids := slot_ids, decision := decision,
             calls := [call.get_context_info context_json.text] } := by
  cases event_id with
  | none => simp [check_null_or_empty_c_str] at hid
  | some e =>
    unfold live_model_impl.request_multi_slot_decision_impl
    simp only [hid, check_null_or_empty_view, hctx, hinfo]
    simp only [Bool.false_eq_true, if_false, ne_eq, not_true_eq_false]
    exact context_info_check_fails info hbad _ _

theorem request_multi_slot_decision_impl_check_passes (env : Env) (self : live_model_impl)
    (event_id : Option String) (context_json : string_view) (slot_ids : List String)
    (decision : multi_slot_decision) (info : ContextInfo) (slot action : Nat × Nat)
    (slots actions : List (Nat × Nat)) (impl : multi_slot_impl_outcome)
    (hid : check_null_or_empty_c_str event_id = error_code.success)
    (hctx : context_json.empty = false)
    (hinfo : env.get_context_info context_json.text = (error_code.success, info))
    (hslots : info.slots = slot :: slots) (hactions : info.actions = action :: actions)
    (hle : action.1 ≤ slot.1)
    (h : self.request_multi_slot_decision_impl env event_id context_json slot_ids decision
      = some impl) :
    call.get_slot_ids context_json.text info.slots ∈ impl.calls := by
  cases event_id with
  | none => simp [check_null_or_empty_c_str] at hid
  | some e =>
    unfold live_model_impl.request_multi_slot_decision_impl at h
    simp only [hid, check_null_or_empty_view, hctx, hinfo] at h
    simp only [Bool.false_eq_true, if_false, ne_eq, not_true_eq_false, hslots, hactions,
      Nat.not_lt.mpr hle] at h
    split at h
    · cases h; simp [hslots]
    · split at h
      · exact absurd h (by simp)
      · split at h <;> (cases h; simp [hslots])

theorem request_multi_slot_decision_calls (env : Env) (self : live_model_impl)
    (event_id : Option String) (context_json : string_view) (flags : Nat)
    (resp : multi_slot_response) (baseline_actions : List Int)
    (o : outcome multi_slot_response)
    (hguard : ¬ (self._learning_mode = learning_mode.APPRENTICE ∧
      baseline_actions.isEmpty = true))
    (h : self.request_multi_slot_decision env event_id context_json flags resp baseline_actions
      = some o) :
    ∃ impl rest, self.request_multi_slot_decision_impl env event_id context_json []
        { action_ids := [], action_pdfs := [], model_version := "" } = some impl ∧
      o.calls = impl.calls ++ rest := by
  unfold live_model_impl.request_multi_slot_decision at h
  simp only [hguard, if_false] at h
  split at h
  · exact absurd h (by simp)
  · rename_i impl himpl
    refine ⟨impl, ?_⟩
    split at h
    · cases h; exact ⟨[], himpl, by simp⟩
    · split at h
      · cases h; exact ⟨_, himpl, rfl⟩
      · split at h
        · cases h; exact ⟨_, himpl, List.append_assoc _ _ _⟩
        · split at h
          · exact absurd h (by simp)
          · split at h
            · cases h; exact ⟨_, himpl, List.append_assoc _ _ _⟩
            · cases h
              rw [check_watchdog_calls]
              exact ⟨_, himpl, List.append_assoc _ _ _⟩

theorem request_multi_slot_decision_detailed_calls (env : Env) (self : live_model_impl)
    (event_id : Option String) (context_json : string_view) (flags : Nat)
    (resp : multi_slot_response_detailed) (baseline_actions : List Int)
    (o : outcome multi_slot_response_detailed)
    (hguard : ¬ (self._learning_mode = learning_mode.APPRENTICE ∧
      baseline_actions.isEmpty = true))
    (h : self.request_multi_slot_decision_detailed env event_id context_json flags resp
      baseline_actions = some o) :
    ∃ impl rest, self.request_multi_slot_decision_impl env event_id context_json []
        { action_ids := [], action_pdfs := [], model_version := "" } = some impl ∧
      o.calls = impl.calls ++ rest := by
  unfold live_model_impl.request_multi_slot_decision_detailed at h
  simp only [hguard, if_false] at h
  split at h
  · exact absurd h (by simp)
  · rename_i impl himpl
    refine ⟨impl, ?_⟩
    split at h
    · cases h; exact ⟨[], himpl, by simp⟩
    · split at h
      · cases h; exact ⟨_, himpl, rfl⟩
      · split at h
        · cases h; exact ⟨_, himpl, List.append_assoc _ _ _⟩
        · split at h
          · exact absurd h (by simp)
          · split at h
            · cases h; exact ⟨_, himpl, List.append_assoc _ _ _⟩
            · cases h
              rw [check_watchdog_calls]
              exact ⟨_, himpl, List.append_assoc _ _ _⟩

theorem request_decision_json_parse_error (env : Env) (self : live_model_impl)
    (context_json : string_view) (flags : Nat) (resp : decision_response)
    (status : Option api_status) (info : ContextInfo)
    (hmode : self._learning_mode = learning_mode.ONLINE)
    (hctx : context_json.empty = false)
    (hinfo : env.get_context_info context_json.text = (error_code.success, info))
    (hbad : info.slots = [] ∨ info.actions = [] ∨
      ∃ slot action, info.slots.head? = some slot ∧ info.actions.head? = some action ∧
        slot.1 < action.1) :
    ∃ st, self.request_decision env context_json flags resp status =
      some { code := error_code.json_parse_error, response := resp.clear, status := st,
             self := self, calls := [call.get_context_info context_json.text] } := by
  unfold live_model_impl.request_decision
  simp only [hmode, check_null_or_empty_view, hctx, hinfo]
  simp only [reduceCtorEq, or_self, Bool.false_eq_true, if_false, ne_eq, not_true_eq_false]
  exact ⟨_, context_info_check_fails info hbad _ _⟩

theorem request_decision_check_passes (env : Env) (self : live_model_impl)
    (context_json : string_view) (flags : Nat) (resp : decision_response)
    (status : Option api_status) (info : ContextInfo) (slot action : Nat × Nat)
    (slots actions : List (Nat × Nat)) (o : decision_outcome)
    (hmode : self._learning_mode = learning_mode.ONLINE)
    (hctx : context_json.empty = false)
    (hinfo : env.get_context_info context_json.text = (error_code.success, info))
    (hslots : info.slots = slot :: slots) (hactions : info.actions = action :: actions)
    (hle : action.1 ≤ slot.1)
    (h : self.request_decision env context_json flags resp status = some o) :
    call.get_event_ids context_json.text ∈ o.calls := by
  unfold live_model_impl.request_decision at h
  simp only [hmode, check_null_or_empty_view, hctx, hinfo] at h
  simp only [reduceCtorEq, or_self, Bool.false_eq_true, if_false, ne_eq, not_true_eq_false,
    hslots, hactions, Nat.not_lt.mpr hle] at h
  split at h
  · cases h; simp
  · split at h
    · exact absurd h (by simp)
    · split at h
      · cases h; simp
      · split at h
        · cases h; simp
        · split at h
          · cases h; simp
          · split at h <;> (cases h; simp)

/-- C12 (counterexample): with a non-empty context whose parsed structure has no `_slots`
entries, `request_multi_slot_decision` in Apprentice mode with an empty baseline returns
`baseline_actions_not_defined` (without parsing), and with a null event id it returns
`invalid_argument`; neither returns `json_parse_error`. -/
theorem request_multi_slot_decision_guards_precede_parsing :
    (string_view.of_string "ctx").empty = false ∧
    no_slots_env.get_context_info (string_view.of_string "ctx").text =
      (error_code.success, { actions := [(1, 1)], slots := [] }) ∧
    ((sample_model learning_mode.APPRENTICE false).request_multi_slot_decision no_slots_env
        (some "e") (string_view.of_string "ctx") 0 empty_multi_slot_response []).map
      (fun o => (o.code, o.calls)) = some (error_code.baseline_actions_not_defined, []) ∧
    ((sample_model learning_mode.ONLINE false).request_multi_slot_decision no_slots_env
        none (string_view.of_string "ctx") 0 empty_multi_slot_response []).map
      (fun o => (o.code, o.calls)) = some (error_code.invalid_argument, []) := by
  refine ⟨by decide, by decide, by decide, by decide⟩

/-- C12 (amended): for every non-empty context that the parser reads into a structure with no
`_slots` entries, or no `_multi` entries, or whose first slot starts at a smaller offset than its
first action, `request_decision` in Online mode, and both shapes of
`request_multi_slot_decision` called with a non-empty event id and not in Apprentice mode with an
empty baseline, return `json_parse_error` having called the context parser only (no policy, no
interaction logger); when both lists are non-empty and the first action does not start after the
first slot, the check passes and the next parser call (`get_event_ids`, `get_slot_ids`) is
made. -/
theorem json_parse_error_unless_multi_before_slots (env : Env) (self : live_model_impl)
    (event_id : Option String) (context_json : string_view) (flags : Nat) (info : ContextInfo)
    (hctx : context_json.empty = false)
    (hinfo : env.get_context_info context_json.text = (error_code.success, info)) :
    ((info.slots = [] ∨ info.actions = [] ∨
        ∃ slot action, info.slots.head? = some slot ∧ info.actions.head? = some action ∧
          slot.1 < action.1) →
      (self._learning_mode = learning_mode.ONLINE →
        ∀ resp status, ∃ st, self.request_decision env context_json flags resp status =
          some { code := error_code.json_parse_error, response := resp.clear, status := st,
                 self := self, calls := [call.get_context_info context_json.text] }) ∧
      (check_null_or_empty_c_str event_id = error_code.success →
        ∀ baseline_actions, ¬ (self._learning_mode = learning_mode.APPRENTICE ∧
            baseline_actions.isEmpty = true) →
          (∀ resp, self.request_multi_slot_decision env event_id context_json flags resp
              baseline_actions =
            some { code := error_code.json_parse_error, response := resp.clear, self := self,
                   calls := [call.get_context_info context_json.text] }) ∧
          (∀ resp, self.request_multi_slot_decision_detailed env event_id context_json flags
              resp baseline_actions =
            some { code := error_code.json_parse_error, response := resp.clear, self := self,
                   calls := [call.get_context_info context_json.text] }))) ∧
    (∀ slot action slots actions, info.slots = slot :: slots → info.actions = action :: actions →
      action.1 ≤ slot.1 →
      (self._learning_mode = learning_mode.ONLINE →
        ∀ resp status o, self.request_decision env context_json flags resp status = some o →
          call.get_event_ids context_json.text ∈ o.calls) ∧
      (check_null_or_empty_c_str event_id = error_code.success →
        ∀ baseline_actions, ¬ (self._learning_mode = learning_mode.APPRENTICE ∧
            baseline_actions.isEmpty = true) →
          (∀ resp o, self.request_multi_slot_decision env event_id context_json flags resp
              baseline_actions = some o →
            call.get_slot_ids context_json.text info.slots ∈ o.calls) ∧
          (∀ resp o, self.request_multi_slot_decision_detailed env event_id context_json flags
              resp baseline_actions = some o →
            call.get_slot_ids context_json.text info.slots ∈ o.calls))) := by
  constructor
  · intro hbad
    refine ⟨fun hmode resp status =>
      request_decision_json_parse_error env self context_json flags resp status info hmode hctx
        hinfo hbad, ?_⟩
    intro hid baseline_actions hguard
    have himpl := request_multi_slot_decision_impl_json_parse_error env self event_id
      context_json [] { action_ids := [], action_pdfs := [], model_version := "" } info hid hctx
      hinfo hbad
    constructor
    · intro resp
      unfold live_model_impl.request_multi_slot_decision
      simp only [if_neg hguard, himpl]
      simp
    · intro resp
      unfold live_model_impl.request_multi_slot_decision_detailed
      simp only [if_neg hguard, himpl]
      simp
  · intro slot action slots actions hslots hactions hle
    refine ⟨fun hmode resp status o h =>
      request_decision_check_passes env self context_json flags resp status info slot action
        slots actions o hmode hctx hinfo hslots hactions hle h, ?_⟩
    intro hid baseline_actions hguard
    constructor
    · intro resp o h
      obtain ⟨impl, rest, himpl, hcalls⟩ := request_multi_slot_decision_calls env self event_id
        context_json flags resp baseline_actions o hguard h
      rw [hcalls]
      exact List.mem_append_left _ (request_multi_slot_decision_impl_check_passes env self
        event_id context_json _ _ info slot action slots actions impl hid hctx hinfo hslots
        hactions hle himpl)
    · intro resp o h
      obtain ⟨impl, rest, himpl, hcalls⟩ := request_multi_slot_decision_detailed_calls env self
        event_id context_json flags resp baseline_actions o hguard h
      rw [hcalls]
      exact List.mem_append_left _ (request_multi_slot_decision_impl_check_passes env self
        event_id context_json _ _ info slot action slots actions impl hid hctx hinfo hslots
        hactions hle himpl)

theorem json_parse_error_unless_multi_before_slots_witness :
    (sample_model learning_mode.ONLINE false).request_multi_slot_decision no_slots_env
        (some "e") (string_view.of_string "ctx") 0 empty_multi_slot_response [] =
      some { code := error_code.json_parse_error, response := empty_multi_slot_response.clear,
             self := sample_model learning_mode.ONLINE false,
             calls := [call.get_context_info (string_view.of_string "ctx").text] } :=
  ((((json_parse_error_unless_multi_before_slots no_slots_env
    (sample_model learning_mode.ONLINE false) (some "e") (string_view.of_string "ctx") 0
    { actions := [(1, 1)], slots := [] } (by decide) (by decide)).1 (Or.inl rfl)).2
    (by decide)) [] (by decide)).1 empty_multi_slot_response

/-! ### The baseline guard -/

theorem request_multi_slot_decision_impl_code (env : Env) (self : live_model_impl)
    (event_id : Option String) (context_json : string_view) (slot_ids : List String)
    (decision : multi_slot_decision) (impl : multi_slot_impl_outcome)
    (havoid : env.multi_slot_collaborators_avoid error_code.baseline_actions_not_defined)
    (h : self.request_multi_slot_decision_impl env event_id context_json slot_ids decision
      = some impl) :
    impl.code ≠ error_code.baseline_actions_not_defined := by
  obtain ⟨h1, h2, h3, _⟩ := havoid
  unfold live_model_impl.request_multi_slot_decision_impl at h
  simp only at h
  split at h
  · split at h
    · cases h
      simp only [check_null_or_empty_view]
      split <;> simp
    · split at h
      · cases h; exact h1 _
      · split at h
        · split at h
          · cases h; simp
          · split at h
            · cases h; exact h2 _ _
            · split at h
              · exact absurd h (by simp)
              · split at h
                · cases h; exact h3 _ _ _
                · cases h; simp
        · cases h; simp
  · cases h
    rename_i eid _ _ _
    cases eid with
    | none => simp [check_null_or_empty_c_str]
    | some e =>
      simp only [check_null_or_empty_c_str]
      split <;> simp

theorem reset_chosen_action_multi_slot_detailed_loop_code
    (check : Int → List action_prob → error_code) (baseline_actions : List Int)
    (code : error_code) (hcheck : ∀ id ranking, check id ranking ≠ code)
    (hcode : code ≠ error_code.success) :
    ∀ (slots : List slot_ranking) (index : Nat) (c : error_code) (out : List slot_ranking),
      reset_chosen_action_multi_slot_detailed_loop check baseline_actions index slots
        = some (c, out) → c ≠ code := by
  intro slots
  induction slots with
  | nil =>
    intro index c out h
    simp only [reset_chosen_action_multi_slot_detailed_loop, Option.some.injEq,
      Prod.mk.injEq] at h
    rw [← h.1]
    exact fun e => hcode e.symm
  | cons slot rest ih =>
    intro index c out h
    simp only [reset_chosen_action_multi_slot_detailed_loop] at h
    split at h
    · exact absurd h (by simp)
    · split at h
      · simp only [Option.some.injEq, Prod.mk.injEq] at h
        rw [← h.1]
        unfold slot_ranking.set_chosen_action_id
        split
        · exact fun e => hcode e.symm
        · exact hcheck _ _
      · split at h
        · exact absurd h (by simp)
        · rename_i c' rest' hrest
          simp only [Option.some.injEq, Prod.mk.injEq] at h
          rw [← h.1]
          exact ih _ _ _ hrest

theorem check_watchdog_code {ρ : Type} (self : live_model_impl) (response : ρ)
    (calls : List call) :
    (self.check_watchdog response calls).code = error_code.success ∨
    (self.check_watchdog response calls).code = error_code.unhandled_background_error_occurred := by
  unfold live_model_impl.check_watchdog
  simp only
  split
  · exact Or.inr rfl
  · exact Or.inl rfl

theorem reset_chosen_action_multi_slot_code (response : multi_slot_response)
    (baseline_actions : List Int) (code : error_code) (out : multi_slot_response)
    (h : reset_chosen_action_multi_slot response baseline_actions = some (code, out)) :
    code = error_code.success := by
  unfold reset_chosen_action_multi_slot at h
  split at h
  · exact absurd h (by simp)
  · simp only [Option.some.injEq, Prod.mk.injEq] at h
    exact h.1.symm

theorem request_multi_slot_decision_code (env : Env) (self : live_model_impl)
    (event_id : Option String) (context_json : string_view) (flags : Nat)
    (resp : multi_slot_response) (baseline_actions : List Int)
    (o : outcome multi_slot_response)
    (hguard : ¬ (self._learning_mode = learning_mode.APPRENTICE ∧
      baseline_actions.isEmpty = true))
    (havoid : env.multi_slot_collaborators_avoid error_code.baseline_actions_not_defined)
    (h : self.request_multi_slot_decision env event_id context_json flags resp baseline_actions
      = some o) :
    o.code ≠ error_code.baseline_actions_not_defined := by
  have havoid' := havoid
  obtain ⟨_, _, _, h4, _, h6, _⟩ := havoid'
  unfold live_model_impl.request_multi_slot_decision at h
  simp only [hguard, if_false] at h
  split at h
  · exact absurd h (by simp)
  · rename_i impl himpl
    split at h
    · cases h
      exact request_multi_slot_decision_impl_code env self event_id context_json _ _ impl havoid
        himpl
    · split at h
      · cases h; exact h4 _ _ _ _ _ _
      · split at h
        · cases h; exact h6 _ _ _ _ _ _ _ _ _
        · split at h
          · exact absurd h (by simp)
          · rename_i code reset hreset
            split at h
            · cases h
              rename_i hne
              intro hc
              simp only at hc
              have hs : code = error_code.success := by
                split at hreset
                · exact reset_chosen_action_multi_slot_code _ _ _ _ hreset
                · simp only [Option.some.injEq, Prod.mk.injEq] at hreset
                  exact hreset.1.symm
              exact hne hs
            · cases h
              rcases check_watchdog_code self reset _ with hc | hc <;> rw [hc] <;> simp

theorem request_multi_slot_decision_detailed_code (env : Env) (self : live_model_impl)
    (event_id : Option String) (context_json : string_view) (flags : Nat)
    (resp : multi_slot_response_detailed) (baseline_actions : List Int)
    (o : outcome multi_slot_response_detailed)
    (hguard : ¬ (self._learning_mode = learning_mode.APPRENTICE ∧
      baseline_actions.isEmpty = true))
    (havoid : env.multi_slot_collaborators_avoid error_code.baseline_actions_not_defined)
    (h : self.request_multi_slot_decision_detailed env event_id context_json flags resp
      baseline_actions = some o) :
    o.code ≠ error_code.baseline_actions_not_defined := by
  have havoid' := havoid
  obtain ⟨_, _, _, _, h5, h6, h7⟩ := havoid'
  unfold live_model_impl.request_multi_slot_decision_detailed at h
  simp only [hguard, if_false] at h
  split at h
  · exact absurd h (by simp)
  · rename_i impl himpl
    split at h
    · cases h
      exact request_multi_slot_decision_impl_code env self event_id context_json _ _ impl havoid
        himpl
    · split at h
      · cases h; exact h5 _ _ _ _ _ _
      · split at h
        · cases h; exact h6 _ _ _ _ _ _ _ _ _
        · split at h
          · exact absurd h (by simp)
          · rename_i code reset hreset
            split at h
            · cases h
              simp only
              split at hreset
              · unfold reset_chosen_action_multi_slot_detailed at hreset
                split at hreset
                · exact absurd hreset (by simp)
                · rename_i c slots hloop
                  simp only [Option.some.injEq, Prod.mk.injEq] at hreset
                  rw [← hreset.1]
                  exact reset_chosen_action_multi_slot_detailed_loop_code _ _ _ h7 (by simp)
                    _ _ _ _ hloop
              · simp only [Option.some.injEq, Prod.mk.injEq] at hreset
                rw [← hreset.1]; simp
            · cases h
              rcases check_watchdog_code self reset _ with hc | hc <;> rw [hc] <;> simp

/-- C13: in Apprentice mode with an empty baseline, both shapes of
`request_multi_slot_decision` return `baseline_actions_not_defined` for every event id, context
and flags, having made no collaborator call (none to the context parser, the policy or the
interaction logger); in Online and LoggingOnly modes the guard does not fire: with an empty
baseline the call returns `baseline_actions_not_defined` only if a collaborator returned it. -/
theorem baseline_actions_not_defined_only_in_apprentice (env : Env) (self : live_model_impl)
    (event_id : Option String) (context_json : string_view) (flags : Nat) :
    (self._learning_mode = learning_mode.APPRENTICE →
      (∀ resp, self.request_multi_slot_decision env event_id context_json flags resp [] =
        some { code := error_code.baseline_actions_not_defined, response := resp.clear,
               self := self, calls := [] }) ∧
      (∀ resp, self.request_multi_slot_decision_detailed env event_id context_json flags resp [] =
        some { code := error_code.baseline_actions_not_defined, response := resp.clear,
               self := self, calls := [] })) ∧
    (self._learning_mode ≠ learning_mode.APPRENTICE →
      env.multi_slot_collaborators_avoid error_code.baseline_actions_not_defined →
      (∀ resp o, self.request_multi_slot_decision env event_id context_json flags resp [] = some o →
        o.code ≠ error_code.baseline_actions_not_defined) ∧
      (∀ resp o, self.request_multi_slot_decision_detailed env event_id context_json flags resp []
          = some o →
        o.code ≠ error_code.baseline_actions_not_defined)) := by
  constructor
  · intro hmode
    constructor
    · intro resp
      unfold live_model_impl.request_multi_slot_decision
      simp [hmode]
    · intro resp
      unfold live_model_impl.request_multi_slot_decision_detailed
      simp [hmode]
  · intro hmode havoid
    have hguard : ¬ (self._learning_mode = learning_mode.APPRENTICE ∧
        ([] : List Int).isEmpty = true) := fun hg => hmode hg.1
    exact ⟨fun resp o h => request_multi_slot_decision_code env self event_id context_json flags
        resp [] o hguard havoid h,
      fun resp o h => request_multi_slot_decision_detailed_code env self event_id context_json
        flags resp [] o hguard havoid h⟩

theorem sample_env_avoids_baseline_actions_not_defined :
    sample_env.multi_slot_collaborators_avoid error_code.baseline_actions_not_defined :=
  ⟨fun _ => by simp [sample_env], fun _ _ => by simp [sample_env],
    fun _ _ _ => by simp [sample_env], fun _ _ _ _ _ _ => by simp [sample_env],
    fun _ _ _ _ _ _ => by simp [sample_env], fun _ _ _ _ _ _ _ _ _ => by simp [sample_env],
    fun _ _ => by simp [sample_env]⟩

theorem baseline_actions_not_defined_only_in_apprentice_witness :
    (sample_model learning_mode.APPRENTICE false).request_multi_slot_decision sample_env
        (some "e") (string_view.of_string "ctx") 0 empty_multi_slot_response [] =
      some { code := error_code.baseline_actions_not_defined,
             response := empty_multi_slot_response.clear,
             self := sample_model learning_mode.APPRENTICE false, calls := [] } ∧
    ((sample_model learning_mode.LOGGINGONLY false).check_watchdog
        ({ event_id := "e", model_id := "m", slots := [⟨"slot_0", 0, float.one⟩] } :
          multi_slot_response)
        [call.get_context_info "ctx", call.get_slot_ids "ctx" [(5, 1)],
          call.model_request_multi_slot_decision "e" ["slot_0"] "ctx",
          call.populate_multi_slot_response [[1, 0]] [[4, 3]] "e" "m" ["slot_0"],
          call.interaction_logger_log_decision "e" "ctx" 0 [[1, 0]] [[4, 3]] "m" ["slot_0"] []
            learning_mode.LOGGINGONLY]).code ≠ error_code.baseline_actions_not_defined :=
  ⟨((baseline_actions_not_defined_only_in_apprentice sample_env
      (sample_model learning_mode.APPRENTICE false) (some "e") (string_view.of_string "ctx")
      0).1 rfl).1 empty_multi_slot_response,
    ((baseline_actions_not_defined_only_in_apprentice sample_env
      (sample_model learning_mode.LOGGINGONLY false) (some "e") (string_view.of_string "ctx")
      0).2 (by decide) sample_env_avoids_baseline_actions_not_defined).1
      empty_multi_slot_response _ rfl⟩

/-! ### The multi-slot reset, simple shape -/

theorem reset_chosen_action_multi_slot_loop_defined (baseline_actions : List Int) :
    ∀ (slots : List slot_entry) (index : Nat),
      (baseline_actions = [] ∨ index + slots.length ≤ baseline_actions.length) →
      ∃ out, reset_chosen_action_multi_slot_loop baseline_actions index slots = some out ∧
        out.length = slots.length ∧
        ∀ i slot, slots[i]? = some slot →
          ∃ a, baseline_action baseline_actions (index + i) = some a ∧
            out[i]? = some { id := slot.id, action_id := a, probability := float.one } := by
  intro slots
  induction slots with
  | nil =>
    intro index _
    exact ⟨[], rfl, rfl, by simp⟩
  | cons slot rest ih =>
    intro index hrange
    have hrest : baseline_actions = [] ∨ (index + 1) + rest.length ≤ baseline_actions.length := by
      rcases hrange with h | h
      · exact Or.inl h
      · right; simp only [List.length_cons] at h; omega
    obtain ⟨out, hout, hlen, hpoint⟩ := ih (index + 1) hrest
    have hchosen : ∃ a, baseline_action baseline_actions index = some a ∧
        (if !baseline_actions.isEmpty && decide (baseline_actions.length ≥ index) then
          baseline_actions[index]? else some (Int.ofNat index)) = some a := by
      rcases hrange with h | h
      · subst h
        exact ⟨Int.ofNat index, by simp [baseline_action], by simp⟩
      · simp only [List.length_cons] at h
        have hlt : index < baseline_actions.length := by omega
        have hne : baseline_actions.isEmpty = false := by
          cases baseline_actions with
          | nil => simp at hlt
          | cons _ _ => rfl
        refine ⟨baseline_actions[index], ?_, ?_⟩
        · simp [baseline_action, hne, List.getElem?_eq_getElem hlt]
        · simp [hne, Nat.le_of_lt hlt, List.getElem?_eq_getElem hlt]
    obtain ⟨a, ha, hif⟩ := hchosen
    refine ⟨(slot.set_action_id a).set_probability float.one :: out, ?_, ?_, ?_⟩
    · simp only [reset_chosen_action_multi_slot_loop, hif, hout]
    · simp [hlen]
    · intro i s hs
      cases i with
      | zero =>
        simp only [List.getElem?_cons_zero, Option.some.injEq] at hs
        subst hs
        exact ⟨a, by simpa using ha,
          by simp [slot_entry.set_action_id, slot_entry.set_probability]⟩
      | succ j =>
        simp only [List.getElem?_cons_succ] at hs
        obtain ⟨b, hb, hget⟩ := hpoint j s hs
        refine ⟨b, ?_, by simpa using hget⟩
        have : index + (j + 1) = index + 1 + j := by omega
        rw [this]; exact hb

theorem request_multi_slot_decision_after_logging (env : Env) (self : live_model_impl)
    (event_id : Option String) (context_json : string_view) (flags : Nat)
    (resp : multi_slot_response) (baseline_actions : List Int) (impl : multi_slot_impl_outcome)
    (populated : multi_slot_response) (o : outcome multi_slot_response)
    (hguard : ¬ (self._learning_mode = learning_mode.APPRENTICE ∧
      baseline_actions.isEmpty = true))
    (himpl : self.request_multi_slot_decision_impl env event_id context_json []
      { action_ids := [], action_pdfs := [], model_version := "" } = some impl)
    (hcode : impl.code = error_code.success)
    (hpop : env.populate_multi_slot_response impl.decision.action_ids impl.decision.action_pdfs
      (event_id.getD "") impl.decision.model_version impl.slot_ids resp.clear
      = (error_code.success, populated))
    (h : self.request_multi_slot_decision env event_id context_json flags resp baseline_actions
      = some o) :
    o.calls = impl.calls ++
      [call.populate_multi_slot_response impl.decision.action_ids impl.decision.action_pdfs
        (event_id.getD "") impl.decision.model_version impl.slot_ids,
       call.interaction_logger_log_decision (event_id.getD "") context_json.text flags
        impl.decision.action_ids impl.decision.action_pdfs impl.decision.model_version
        impl.slot_ids baseline_actions self._learning_mode] ∧
    (env.interaction_logger_log_decision (event_id.getD "") context_json.text flags
        impl.decision.action_ids impl.decision.action_pdfs impl.decision.model_version
        impl.slot_ids baseline_actions self._learning_mode ≠ error_code.success →
      o.response = populated) ∧
    (env.interaction_logger_log_decision (event_id.getD "") context_json.text flags
        impl.decision.action_ids impl.decision.action_pdfs impl.decision.model_version
        impl.slot_ids baseline_actions self._learning_mode = error_code.success →
      (self._learning_mode = learning_mode.APPRENTICE ∨
          self._learning_mode = learning_mode.LOGGINGONLY →
        reset_chosen_action_multi_slot populated baseline_actions
          = some (error_code.success, o.response)) ∧
      (self._learning_mode = learning_mode.ONLINE → o.response = populated)) := by
  unfold live_model_impl.request_multi_slot_decision at h
  simp only [if_neg hguard, himpl, hcode, hpop] at h
  · simp only [ne_eq, not_true_eq_false, if_false] at h
    split at h
    · rename_i hlog
      cases h
      exact ⟨by simp, fun _ => rfl, fun hs => absurd hs hlog⟩
    · rename_i hlog
      have hlog' := not_not.mp hlog
      split at h
      · exact absurd h (by simp)
      · rename_i code reset hreset
        have hcs : code = error_code.success := by
          split at hreset
          · exact reset_chosen_action_multi_slot_code _ _ _ _ hreset
          · simp only [Option.some.injEq, Prod.mk.injEq] at hreset
            exact hreset.1.symm
        subst hcs
        simp only [not_true_eq_false, if_false] at h
        cases h
        rw [check_watchdog_calls, check_watchdog_response]
        refine ⟨by simp, fun hne => absurd hlog' hne, fun _ => ⟨?_, ?_⟩⟩
        · intro hmode
          rw [if_pos hmode] at hreset
          exact hreset
        · intro hmode
          have hn : ¬ (self._learning_mode = learning_mode.APPRENTICE ∨
              self._learning_mode = learning_mode.LOGGINGONLY) := by
            rw [hmode]; simp
          rw [if_neg hn] at hreset
          simp only [Option.some.injEq, Prod.mk.injEq, true_and] at hreset
          exact hreset.symm

theorem reset_chosen_action_multi_slot_defined (response : multi_slot_response)
    (baseline_actions : List Int)
    (hrange : baseline_actions = [] ∨ response.slots.length ≤ baseline_actions.length) :
    ∃ out, reset_chosen_action_multi_slot response baseline_actions
        = some (error_code.success, out) ∧
      out.event_id = response.event_id ∧ out.model_id = response.model_id ∧
      out.slots.length = response.slots.length ∧
      ∀ i slot, response.slots[i]? = some slot →
        ∃ a, baseline_action baseline_actions i = some a ∧
          out.slots[i]? = some { id := slot.id, action_id := a, probability := float.one } := by
  obtain ⟨out, hout, hlen, hpoint⟩ := reset_chosen_action_multi_slot_loop_defined
    baseline_actions response.slots 0 (by simpa using hrange)
  refine ⟨{ response with slots := out }, ?_, rfl, rfl, hlen, ?_⟩
  · unfold reset_chosen_action_multi_slot
    rw [hout]
  · intro i slot hs
    obtain ⟨a, ha, hget⟩ := hpoint i slot hs
    exact ⟨a, by simpa using ha, hget⟩

/-- A call of `request_multi_slot_decision` that gets as far as the populated response returns
when the baseline is empty or has an entry for every populated slot. -/
theorem request_multi_slot_decision_defined (env : Env) (self : live_model_impl)
    (event_id : Option String) (context_json : string_view) (flags : Nat)
    (resp : multi_slot_response) (baseline_actions : List Int) (impl : multi_slot_impl_outcome)
    (populated : multi_slot_response)
    (himpl : self.request_multi_slot_decision_impl env event_id context_json []
      { action_ids := [], action_pdfs := [], model_version := "" } = some impl)
    (hpop : env.populate_multi_slot_response impl.decision.action_ids impl.decision.action_pdfs
      (event_id.getD "") impl.decision.model_version impl.slot_ids resp.clear
      = (error_code.success, populated))
    (hrange : baseline_actions = [] ∨ populated.slots.length ≤ baseline_actions.length) :
    ∃ o, self.request_multi_slot_decision env event_id context_json flags resp baseline_actions
      = some o := by
  obtain ⟨out, hout, _⟩ := reset_chosen_action_multi_slot_defined populated baseline_actions
    hrange
  apply Option.isSome_iff_exists.mp
  unfold live_model_impl.request_multi_slot_decision
  simp only [himpl, hpop, hout]
  repeat' split
  all_goals first | rfl | (rename_i heq; split at heq <;> cases heq)

/-- C14: for a response with `n` slots and a baseline that is empty or has at least `n` entries,
`reset_chosen_action_multi_slot` succeeds, gives slot `i` the chosen action `b[i]` (the slot
number `i` for an empty baseline) and the probability `1.f`, and keeps the number, order and ids
of the slots (and the event and model ids). A call of `request_multi_slot_decision` with such a
baseline that gets as far as the populated response returns, and it applies the reset exactly
when the mode is Apprentice or LoggingOnly and the interaction logger, its last collaborator
call, has succeeded: when the logger fails, or in Online mode, the response stays as
populated. -/
theorem reset_chosen_action_multi_slot_sets_baseline :
    (∀ (response : multi_slot_response) (baseline_actions : List Int),
      (baseline_actions = [] ∨ response.slots.length ≤ baseline_actions.length) →
      ∃ out, reset_chosen_action_multi_slot response baseline_actions
          = some (error_code.success, out) ∧
        out.event_id = response.event_id ∧ out.model_id = response.model_id ∧
        out.slots.length = response.slots.length ∧
        ∀ i slot, response.slots[i]? = some slot →
          ∃ a, baseline_action baseline_actions i = some a ∧
            out.slots[i]? = some { id := slot.id, action_id := a, probability := float.one }) ∧
    (∀ (env : Env) (self : live_model_impl) (event_id : Option String)
        (context_json : string_view) (flags : Nat) (resp : multi_slot_response)
        (baseline_actions : List Int) (impl : multi_slot_impl_outcome)
        (populated : multi_slot_response),
      ¬ (self._learning_mode = learning_mode.APPRENTICE ∧ baseline_actions.isEmpty = true) →
      self.request_multi_slot_decision_impl env event_id context_json []
        { action_ids := [], action_pdfs := [], model_version := "" } = some impl →
      impl.code = error_code.success →
      env.populate_multi_slot_response impl.decision.action_ids impl.decision.action_pdfs
        (event_id.getD "") impl.decision.model_version impl.slot_ids resp.clear
        = (error_code.success, populated) →
      (baseline_actions = [] ∨ populated.slots.length ≤ baseline_actions.length) →
      ∃ o, self.request_multi_slot_decision env event_id context_json flags resp
          baseline_actions = some o ∧
        o.calls.getLast? =
          some (call.interaction_logger_log_decision (event_id.getD "") context_json.text flags
            impl.decision.action_ids impl.decision.action_pdfs impl.decision.model_version
            impl.slot_ids baseline_actions self._learning_mode) ∧
        (env.interaction_logger_log_decision (event_id.getD "") context_json.text flags
            impl.decision.action_ids impl.decision.action_pdfs impl.decision.model_version
            impl.slot_ids baseline_actions self._learning_mode ≠ error_code.success →
          o.response = populated) ∧
        (env.interaction_logger_log_decision (event_id.getD "") context_json.text flags
            impl.decision.action_ids impl.decision.action_pdfs impl.decision.model_version
            impl.slot_ids baseline_actions self._learning_mode = error_code.success →
          (self._learning_mode = learning_mode.APPRENTICE ∨
              self._learning_mode = learning_mode.LOGGINGONLY →
            reset_chosen_action_multi_slot populated baseline_actions
              = some (error_code.success, o.response)) ∧
          (self._learning_mode = learning_mode.ONLINE → o.response = populated))) := by
  constructor
  · intro response baseline_actions hrange
    exact reset_chosen_action_multi_slot_defined response baseline_actions hrange
  · intro env self event_id context_json flags resp baseline_actions impl populated hguard
      himpl hcode hpop hrange
    obtain ⟨o, h⟩ := request_multi_slot_decision_defined env self event_id context_json flags
      resp baseline_actions impl populated himpl hpop hrange
    obtain ⟨hcalls, hfail, hok⟩ := request_multi_slot_decision_after_logging env self event_id
      context_json flags resp baseline_actions impl populated o hguard himpl hcode hpop h
    refine ⟨o, h, ?_, hfail, hok⟩
    rw [hcalls]
    simp [List.getLast?_append]

theorem reset_chosen_action_multi_slot_sets_baseline_witness :
    (∃ out, reset_chosen_action_multi_slot
        { event_id := "e", model_id := "m", slots := [⟨"s0", 5, 4⟩, ⟨"s1", 6, 3⟩] } [7, 8, 9]
        = some (error_code.success, out) ∧
      out.event_id = "e" ∧ out.model_id = "m" ∧
      out.slots.length = [(⟨"s0", 5, 4⟩ : slot_entry), ⟨"s1", 6, 3⟩].length ∧
      ∀ i slot, [(⟨"s0", 5, 4⟩ : slot_entry), ⟨"s1", 6, 3⟩][i]? = some slot →
        ∃ a, baseline_action [7, 8, 9] i = some a ∧
          out.slots[i]? = some { id := slot.id, action_id := a, probability := float.one }) ∧
    (∃ o, (sample_model learning_mode.LOGGINGONLY false).request_multi_slot_decision sample_env
        (some "e") (string_view.of_string "ctx") 0 empty_multi_slot_response [7, 8] = some o ∧
      o.calls.getLast? =
        some (call.interaction_logger_log_decision "e" "ctx" 0 [[1, 0]] [[4, 3]] "m"
          ["slot_0"] [7, 8] learning_mode.LOGGINGONLY) ∧
      reset_chosen_action_multi_slot ⟨"e", "m", [⟨"slot_0", 1, 4⟩]⟩ [7, 8] =
        some (error_code.success, o.response)) :=
  ⟨reset_chosen_action_multi_slot_sets_baseline.1
      { event_id := "e", model_id := "m", slots := [⟨"s0", 5, 4⟩, ⟨"s1", 6, 3⟩] } [7, 8, 9]
      (Or.inr (by decide)),
   Exists.imp (fun _ h => ⟨h.1, h.2.1, (h.2.2.2 rfl).1 (Or.inr rfl)⟩)
    (reset_chosen_action_multi_slot_sets_baseline.2 sample_env
      (sample_model learning_mode.LOGGINGONLY false) (some "e") (string_view.of_string "ctx") 0
      empty_multi_slot_response [7, 8]
      { code := error_code.success, slot_ids := ["slot_0"],
        decision := { action_ids := [[1, 0]], action_pdfs := [[4, 3]], model_version := "m" },
        calls := [call.get_context_info "ctx", call.get_slot_ids "ctx" [(5, 1)],
          call.model_request_multi_slot_decision "e" ["slot_0"] "ctx"] }
      ⟨"e", "m", [⟨"slot_0", 1, 4⟩]⟩ (by decide) rfl rfl rfl (Or.inr (by decide)))⟩

/-! ### The multi-slot reset with a short baseline -/

/-- With a non-empty baseline shorter than the response, the loop of the simple reset reads the
baseline past its end: the test is `baseline_actions.size() >= index`, which holds at
`index == baseline_actions.size()`. -/
theorem reset_chosen_action_multi_slot_short_baseline (response : multi_slot_response)
    (baseline_actions : List Int) (hb : baseline_actions ≠ [])
    (hshort : baseline_actions.length < response.slots.length) :
    reset_chosen_action_multi_slot response baseline_actions = none := by
  unfold reset_chosen_action_multi_slot
  cases hloop : reset_chosen_action_multi_slot_loop baseline_actions 0 response.slots with
  | none => rfl
  | some out =>
    obtain ⟨hlen, _⟩ := reset_chosen_action_multi_slot_loop_baseline baseline_actions hb
      response.slots 0 out (Nat.zero_le _) hloop
    omega

/-- C15 (the code departs from the claim): with two slots and the one-entry baseline `[7]`, both
overloads of `reset_chosen_action_multi_slot` reach slot 1 with the test
`baseline_actions.size() >= index` true (`1 >= 1`) and read `baseline_actions[1]`, past the end
of the baseline, which is undefined; slot 1 does not get its slot index. -/
theorem reset_chosen_action_multi_slot_reads_past_baseline :
    reset_chosen_action_multi_slot
      { event_id := "e", model_id := "m", slots := [⟨"s0", 5, 4⟩, ⟨"s1", 6, 3⟩] } [7] = none ∧
    reset_chosen_action_multi_slot_detailed (fun _ _ => error_code.success)
      { event_id := "e", model_id := "m",
        slots := [⟨"s0", 1, [⟨1, 4⟩, ⟨0, 3⟩]⟩, ⟨"s1", 1, [⟨1, 4⟩, ⟨0, 3⟩]⟩] } [7] = none ∧
    reset_chosen_action_multi_slot_loop [7] 1 [⟨"s1", 6, 3⟩] = none ∧
    baseline_action [7] 1 = none := by
  refine ⟨by decide, by decide, by decide, by decide⟩

/-! ### The multi-slot reset, detailed shape -/

/-- The detailed reset writes chosen action ids only: whatever it returns, every slot keeps its
id and its ranking, probabilities included. -/
theorem reset_chosen_action_multi_slot_detailed_loop_keeps_rankings
    (check : Int → List action_prob → error_code) (baseline_actions : List Int) :
    ∀ (slots : List slot_ranking) (index : Nat) (code : error_code) (out : List slot_ranking),
      reset_chosen_action_multi_slot_detailed_loop check baseline_actions index slots
        = some (code, out) →
      out.map (fun s => (s.id, s.ranking)) = slots.map (fun s => (s.id, s.ranking)) := by
  intro slots
  induction slots with
  | nil =>
    intro index code out h
    simp only [reset_chosen_action_multi_slot_detailed_loop, Option.some.injEq,
      Prod.mk.injEq] at h
    rw [← h.2]
  | cons slot rest ih =>
    intro index code out h
    have hset : ∀ a, ((slot.set_chosen_action_id check a).2.id,
        (slot.set_chosen_action_id check a).2.ranking) = (slot.id, slot.ranking) := by
      intro a
      unfold slot_ranking.set_chosen_action_id
      split <;> rfl
    simp only [reset_chosen_action_multi_slot_detailed_loop] at h
    split at h
    · exact absurd h (by simp)
    · split at h
      · simp only [Option.some.injEq, Prod.mk.injEq] at h
        rw [← h.2]
        simp only [List.map_cons, hset]
      · split at h
        · exact absurd h (by simp)
        · rename_i c rest' hrest
          simp only [Option.some.injEq, Prod.mk.injEq] at h
          rw [← h.2]
          simp only [List.map_cons, hset, ih _ _ _ hrest]

/-- C16 (the code departs from the claim): for a detailed response whose slot ranks action 1
(probability bits 4) before action 0 (probability bits 3) and the in-range baseline `[0]`, the
detailed reset succeeds and makes action 0 the chosen action, but the probability reported for it
is still the populated one (bits 3), not `1.f`; the simple shape's reset of a slot with the same
baseline does set the probability to `1.f`. -/
theorem reset_chosen_action_multi_slot_detailed_keeps_probability :
    (reset_chosen_action_multi_slot_detailed (fun _ _ => error_code.success)
        { event_id := "e", model_id := "m", slots := [⟨"s0", 1, [⟨1, 4⟩, ⟨0, 3⟩]⟩] } [0]).map
      (fun r => (r.1, r.2.slots.map
        (fun s => (s.chosen_action_id, s.chosen_probability,
          decide (s.chosen_probability = some float.one)))))
      = some (error_code.success, [(0, some 3, false)]) ∧
    (reset_chosen_action_multi_slot
        { event_id := "e", model_id := "m", slots := [⟨"s0", 1, 4⟩] } [0]).map
      (fun r => (r.1, r.2.slots.map (fun s => (s.action_id, s.probability))))
      = some (error_code.success, [(0, float.one)]) := by
  refine ⟨by decide, by decide⟩

/-! ### Manual refresh -/

theorem construct_bg_model_proc (env : Env) (config : configuration) (error_cb : error_callback) :
    (live_model_impl.construct env config error_cb)._bg_model_proc =
      config.get_bool env.parse_bool name.MODEL_BACKGROUND_REFRESH
        value.DEFAULT_MODEL_BACKGROUND_REFRESH := rfl

theorem constructed_bg_model_proc (env : Env) (config : configuration) (fn : Option Nat)
    (self : live_model_impl)
    (hself : self = live_model_impl.live_model_impl_error_fn env config fn ∨
      self = live_model_impl.live_model_impl_function env config fn) :
    self._bg_model_proc =
      config.get_bool env.parse_bool name.MODEL_BACKGROUND_REFRESH
        value.DEFAULT_MODEL_BACKGROUND_REFRESH := by
  rcases hself with h | h <;> subst h <;> cases fn <;> rfl

/-- C17: a live model built by either constructor from a configuration with background refresh
enabled (in particular one in which `model.backgroundrefresh` is absent, the default being
`true`) answers `refresh_model` with `model_update_error`, calling neither the transport's
`get_data` nor the policy's `update` and leaving the object, `_model_ready` included, unchanged;
with background refresh disabled the guard does not fire and `refresh_model` goes on to call
`get_data`. -/
theorem refresh_model_rejected_with_background_refresh (env : Env) (config : configuration)
    (fn : Option Nat) (self : live_model_impl)
    (hself : self = live_model_impl.live_model_impl_error_fn env config fn ∨
      self = live_model_impl.live_model_impl_function env config fn) :
    (config.entries.lookup name.MODEL_BACKGROUND_REFRESH = none →
      config.get_bool env.parse_bool name.MODEL_BACKGROUND_REFRESH
        value.DEFAULT_MODEL_BACKGROUND_REFRESH = true) ∧
    (config.get_bool env.parse_bool name.MODEL_BACKGROUND_REFRESH
        value.DEFAULT_MODEL_BACKGROUND_REFRESH = true →
      self.refresh_model env =
        { code := error_code.model_update_error, self := self, calls := [] }) ∧
    (config.get_bool env.parse_bool name.MODEL_BACKGROUND_REFRESH
        value.DEFAULT_MODEL_BACKGROUND_REFRESH = false →
      (self.refresh_model env).calls.head? = some call.transport_get_data) := by
  have hbg := constructed_bg_model_proc env config fn self hself
  refine ⟨?_, ?_, ?_⟩
  · intro habsent
    simp [configuration.get_bool, habsent, value.DEFAULT_MODEL_BACKGROUND_REFRESH]
  · intro henabled
    rw [henabled] at hbg
    unfold live_model_impl.refresh_model
    simp [hbg]
  · intro hdisabled
    rw [hdisabled] at hbg
    unfold live_model_impl.refresh_model
    simp only [hbg, Bool.false_eq_true, if_false]
    split
    · rfl
    · split <;> rfl

theorem refresh_model_rejected_with_background_refresh_witness :
    (live_model_impl.live_model_impl_error_fn sample_env { entries := [] } none).refresh_model
        sample_env =
      { code := error_code.model_update_error,
        self := live_model_impl.live_model_impl_error_fn sample_env { entries := [] } none,
        calls := [] } :=
  (refresh_model_rejected_with_background_refresh sample_env { entries := [] } none
    (live_model_impl.live_model_impl_error_fn sample_env { entries := [] } none)
    (Or.inl rfl)).2.1 (by decide)

/-! ### Protocol version 1 -/

theorem refresh_model_protocol_version (env : Env) (self : live_model_impl) :
    (self.refresh_model env).self._protocol_version = self._protocol_version := by
  unfold live_model_impl.refresh_model
  simp only
  split
  · rfl
  · split
    · rfl
    · split <;> rfl

theorem init_model_mgmt_protocol_version (env : Env) (self : live_model_impl) :
    (self.init_model_mgmt env).self._protocol_version = self._protocol_version := by
  unfold live_model_impl.init_model_mgmt
  simp only
  split
  · rfl
  · split
    · rfl
    · exact refresh_model_protocol_version env self

theorem init_loggers_protocol_version (env : Env) (self : live_model_impl) :
    (self.init_loggers env).self._protocol_version = self._protocol_version := by
  unfold live_model_impl.init_loggers
  simp only
  split
  · rfl
  · split
    · rfl
    · split
      · split <;> rfl
      · rfl

/-- C18 (counterexample): with protocol version 1, every initialisation step succeeding and only
the observation channel's dedup setting enabled, `init` returns `success`. -/
theorem init_accepts_observation_dedup_under_protocol_v1 :
    observation_dedup_env.config_get_bool
      (({ sample_model learning_mode.ONLINE false with _protocol_version := 1 }).init
        observation_dedup_env).self._configuration "observation" name.USE_DEDUP false = true ∧
    ({ sample_model learning_mode.ONLINE false with _protocol_version := 1 }
      : live_model_impl)._protocol_version = 1 ∧
    (({ sample_model learning_mode.ONLINE false with _protocol_version := 1 }).init
      observation_dedup_env).code = error_code.success := by
  refine ⟨by decide, by decide, by decide⟩

/-- C18 (amended): with protocol version 1 and the earlier initialisation steps succeeding,
`init` returns `content_encoding_error` whenever compression or dedup is enabled on the
interaction channel or compression is enabled on the observation channel (the three settings
`init` examines). -/
theorem init_rejects_encodings_under_protocol_v1 (env : Env) (self : live_model_impl)
    (m1 m2 m3 m4 : init_outcome)
    (e1 : self.init_trace env = m1) (h1 : m1.code = error_code.success)
    (e2 : m1.self.init_model env = m2) (h2 : m2.code = error_code.success)
    (e3 : m2.self.init_model_mgmt env = m3) (h3 : m3.code = error_code.success)
    (e4 : m3.self.init_loggers env = m4) (h4 : m4.code = error_code.success)
    (hversion : self._protocol_version = 1)
    (henabled :
      env.config_get_bool m4.self._configuration "interaction" name.USE_COMPRESSION false = true ∨
      env.config_get_bool m4.self._configuration "interaction" name.USE_DEDUP false = true ∨
      env.config_get_bool m4.self._configuration "observation" name.USE_COMPRESSION false = true) :
    (self.init env).code = error_code.content_encoding_error := by
  have hv : m4.self._protocol_version = 1 := by
    rw [← e4, init_loggers_protocol_version, ← e3, init_model_mgmt_protocol_version, ← e2, ← e1]
    exact hversion
  have hor : (env.config_get_bool m4.self._configuration "interaction" name.USE_COMPRESSION false ||
      env.config_get_bool m4.self._configuration "interaction" name.USE_DEDUP false ||
      env.config_get_bool m4.self._configuration "observation" name.USE_COMPRESSION false)
      = true := by
    rcases henabled with h | h | h <;> simp [h]
  unfold live_model_impl.init
  simp only [e1, h1, e2, h2, e3, h3, e4, h4, hv, hor]
  simp

theorem init_rejects_encodings_under_protocol_v1_witness :
    (({ sample_model learning_mode.ONLINE false with _protocol_version := 1 }).init
      { sample_env with config_get_bool := fun _ sect n _ =>
          sect == "interaction" && n == name.USE_DEDUP }).code
      = error_code.content_encoding_error :=
  init_rejects_encodings_under_protocol_v1
    { sample_env with config_get_bool := fun _ sect n _ =>
        sect == "interaction" && n == name.USE_DEDUP }
    { sample_model learning_mode.ONLINE false with _protocol_version := 1 }
    _ _ _ _ rfl (by decide) rfl (by decide) rfl (by decide) rfl (by decide) (by decide)
    (Or.inr (Or.inl (by decide)))

/-! ### Generated ids -/

theorem toDigitsCore_ne_nil (b : Nat) : ∀ (fuel n : Nat) (ds : List Char), ds ≠ [] →
    Nat.toDigitsCore b fuel n ds ≠ [] := by
  intro fuel
  induction fuel with
  | zero => intro n ds h; simpa [Nat.toDigitsCore] using h
  | succ f ih =>
    intro n ds _
    simp only [Nat.toDigitsCore]
    split
    · simp
    · exact ih _ _ (by simp)

/-- The decimal rendering `std::to_string(n)` has at least one digit. -/
theorem to_string_ne_empty (n : Nat) : toString n ≠ "" := by
  have h : Nat.toDigits 10 n ≠ [] := by
    unfold Nat.toDigits
    simp only [Nat.toDigitsCore]
    split
    · simp
    · exact toDigitsCore_ne_nil _ _ _ _ (by simp)
  intro he
  apply h
  have : (toString n).data = [] := by rw [he]
  simpa [toString, Nat.repr, List.asString] using this

theorem append_ne_empty (a b : String) (h : b ≠ "") : a ++ b ≠ "" := by
  intro he
  apply h
  have hl : (a ++ b).data = [] := by rw [he]
  rw [String.data_append] at hl
  exact String.ext (List.append_eq_nil.mp hl).2

theorem assign_found_ids_spec :
    ∀ (found_ids : List (Nat × String)) (complete_ids : List String),
      (found_ids.map Prod.fst).Nodup →
      (∀ p ∈ found_ids, p.1 < complete_ids.length) →
      ∃ assigned, assign_found_ids found_ids complete_ids = some assigned ∧
        assigned.length = complete_ids.length ∧
        (∀ p ∈ found_ids, assigned[p.1]? = some p.2) ∧
        (∀ i, (∀ v, (i, v) ∉ found_ids) → assigned[i]? = complete_ids[i]?) := by
  intro found_ids
  induction found_ids with
  | nil =>
    intro complete_ids _ _
    exact ⟨complete_ids, rfl, rfl, by simp, fun _ _ => rfl⟩
  | cons head rest ih =>
    intro complete_ids hnodup hrange
    obtain ⟨k, v⟩ := head
    simp only [List.map_cons, List.nodup_cons] at hnodup
    have hk : k < complete_ids.length := hrange (k, v) (List.mem_cons_self _ _)
    have hrange' : ∀ p ∈ rest, p.1 < (complete_ids.set k v).length := by
      intro p hp
      rw [List.length_set]
      exact hrange p (List.mem_cons_of_mem _ hp)
    obtain ⟨assigned, hassign, hlen, hfound, hother⟩ := ih (complete_ids.set k v) hnodup.2 hrange'
    have hknot : ∀ w, (k, w) ∉ rest := by
      intro w hw
      exact hnodup.1 (List.mem_map.mpr ⟨(k, w), hw, rfl⟩)
    refine ⟨assigned, ?_, ?_, ?_, ?_⟩
    · simp only [assign_found_ids, hk, if_true, hassign]
    · rw [hlen, List.length_set]
    · intro p hp
      rcases List.mem_cons.mp hp with hhead | htail
      · subst hhead
        rw [hother k hknot]
        simp [List.getElem?_set, hk]
      · exact hfound p htail
    · intro i hi
      have hirest : ∀ w, (i, w) ∉ rest := fun w hw => hi w (List.mem_cons_of_mem _ hw)
      have hik : k ≠ i := by
        intro e
        exact hi v (by rw [← e]; exact List.mem_cons_self _ _)
      rw [hother i hirest]
      simp [List.getElem?_set, hik]

theorem fill_missing_uuids_spec (env : Env) (seed_shift : Nat) :
    ∀ (complete_ids : List String) (index : Nat),
      (fill_missing_uuids env seed_shift index complete_ids).length = complete_ids.length ∧
      ∀ i s, complete_ids[i]? = some s →
        (fill_missing_uuids env seed_shift index complete_ids)[i]? =
          some (if s = "" then env.random_uuid (index + i) ++ toString seed_shift else s) := by
  intro complete_ids
  induction complete_ids with
  | nil => intro index; exact ⟨rfl, by simp⟩
  | cons head rest ih =>
    intro index
    obtain ⟨hlen, hpoint⟩ := ih (index + 1)
    refine ⟨by simp [fill_missing_uuids, hlen], ?_⟩
    intro i s hs
    cases i with
    | zero =>
      simp only [List.getElem?_cons_zero, Option.some.injEq] at hs
      subst hs
      simp [fill_missing_uuids]
    | succ j =>
      simp only [List.getElem?_cons_succ] at hs
      have := hpoint j s hs
      simp only [fill_missing_uuids, List.getElem?_cons_succ, this]
      have hidx : index + 1 + j = index + (j + 1) := by omega
      rw [hidx]

/-- C19: for a map `found_ids` (one value per key) whose keys are all smaller than the length of
`complete_ids` and whose values are non-empty, and every `seed_shift`,
`autogenerate_missing_uuids` is defined, leaves the length of `complete_ids` unchanged, sets
`complete_ids[k]` to `found_ids[k]` for every key `k`, replaces every remaining empty entry by a
generated uuid followed by the decimal rendering of `seed_shift`, keeps the entries that were
non-empty and have no key, and leaves no entry empty. -/
theorem autogenerate_missing_uuids_completes_ids (env : Env) (found_ids : List (Nat × String))
    (complete_ids : List String) (seed_shift : Nat)
    (hmap : (found_ids.map Prod.fst).Nodup)
    (hrange : ∀ p ∈ found_ids, p.1 < complete_ids.length)
    (hvalues : ∀ p ∈ found_ids, p.2 ≠ "") :
    ∃ out, autogenerate_missing_uuids env found_ids complete_ids seed_shift = some out ∧
      out.length = complete_ids.length ∧
      (∀ p ∈ found_ids, out[p.1]? = some p.2) ∧
      (∀ i s, complete_ids[i]? = some s → (∀ v, (i, v) ∉ found_ids) →
        (s = "" → out[i]? = some (env.random_uuid i ++ toString seed_shift)) ∧
        (s ≠ "" → out[i]? = some s)) ∧
      (∀ s ∈ out, s ≠ "") := by
  obtain ⟨assigned, hassign, hlen, hfound, hother⟩ :=
    assign_found_ids_spec found_ids complete_ids hmap hrange
  obtain ⟨hfill_len, hfill⟩ := fill_missing_uuids_spec env seed_shift assigned 0
  refine ⟨fill_missing_uuids env seed_shift 0 assigned, ?_, ?_, ?_, ?_, ?_⟩
  · unfold autogenerate_missing_uuids
    rw [hassign]
  · rw [hfill_len, hlen]
  · intro p hp
    rw [hfill p.1 p.2 (hfound p hp)]
    simp [hvalues p hp]
  · intro i s hs hnokey
    have hassigned : assigned[i]? = some s := by rw [hother i hnokey]; exact hs
    have hout := hfill i s hassigned
    constructor
    · intro hempty
      rw [hout]
      simp [hempty]
    · intro hne
      rw [hout]
      simp [hne]
  · intro s hs
    obtain ⟨i, hi⟩ := List.getElem?_of_mem hs
    have hlt : i < assigned.length := by
      have := (List.getElem?_eq_some_iff.mp hi).1
      omega
    have hout := hfill i assigned[i] (List.getElem?_eq_getElem hlt)
    rw [hi] at hout
    simp only [Nat.zero_add, Option.some.injEq] at hout
    rw [hout]
    split
    · exact append_ne_empty _ _ (to_string_ne_empty seed_shift)
    · assumption

theorem autogenerate_missing_uuids_completes_ids_witness :
    ∃ out, autogenerate_missing_uuids sample_env [(1, "slot_1")] ["", "", "kept"] 42
        = some out ∧
      out.length = ["", "", "kept"].length ∧
      (∀ p ∈ [(1, "slot_1")], out[p.1]? = some p.2) ∧
      (∀ i s, ["", "", "kept"][i]? = some s → (∀ v, (i, v) ∉ [(1, "slot_1")]) →
        (s = "" → out[i]? = some (sample_env.random_uuid i ++ toString 42)) ∧
        (s ≠ "" → out[i]? = some s)) ∧
      (∀ s ∈ out, s ≠ "") :=
  autogenerate_missing_uuids_completes_ids sample_env [(1, "slot_1")] ["", "", "kept"] 42
    (by decide) (by decide) (by decide)

theorem reset_action_order_event_id (sort : std_sort action_prob action_id_less)
    (check : Nat → List action_prob → error_code)
    (r r' : ranking_response) (code : error_code)
    (h : reset_action_order sort check r = some (code, r')) : r'.event_id = r.event_id := by
  unfold reset_action_order at h
  simp only at h
  split at h
  · exact absurd h (by simp)
  · simp only [Option.some.injEq] at h
    unfold ranking_response.set_chosen_action_id at h
    split at h
    · simp only [Prod.mk.injEq] at h
      rw [← h.2]
    · simp only [Prod.mk.injEq] at h
      rw [← h.2]

theorem choose_rank_success_event_id (env : Env) (self : live_model_impl) (event_id : String)
    (context : string_view) (flags : Nat) (response : ranking_response)
    (o : outcome ranking_response)
    (h : self.choose_rank env (some event_id) context flags response = some o)
    (hcode : o.code = error_code.success) :
    o.response.event_id = event_id ∧
    ∃ rest, o.calls =
      call.model_choose_rank event_id (self.seed env event_id) context.text :: rest := by
  have hargs : check_null_or_empty (some event_id) context = error_code.success := by
    cases hc : check_null_or_empty (some event_id) context <;>
      first
      | rfl
      | (unfold live_model_impl.choose_rank at h
         simp only [hc] at h
         cases h
         simp at hcode)
  obtain ⟨rest, hcalls, _⟩ := choose_rank_calls env self event_id context flags response o hargs h
  refine ⟨?_, _, hcalls⟩
  unfold live_model_impl.choose_rank at h
  simp only [hargs] at h
  split at h
  · cases h; rename_i hne; exact absurd hcode hne
  · split at h
    · exact absurd h (by simp)
    · rename_i code r hbefore
      have hr : r.event_id = event_id := by
        split at hbefore
        · exact reset_action_order_event_id _ _ _ _ _ hbefore
        · simp only [Option.some.injEq, Prod.mk.injEq] at hbefore
          rw [← hbefore.2]; rfl
      split at h
      · cases h; rename_i hne; exact absurd hcode hne
      · split at h
        · cases h; rename_i hne; exact absurd hcode hne
        · split at h
          · exact absurd h (by simp)
          · rename_i code2 r2 hafter
            have hr2 : r2.event_id = event_id := by
              split at hafter
              · rw [reset_action_order_event_id _ _ _ _ _ hafter]; exact hr
              · simp only [Option.some.injEq, Prod.mk.injEq] at hafter
                rw [← hafter.2]; exact hr
            split at h
            · cases h; rename_i hne; exact absurd hcode hne
            · cases h
              rw [check_watchdog_response]
              exact hr2

theorem request_continuous_action_success_event_id (env : Env) (self : live_model_impl)
    (event_id : String) (context : string_view) (flags : Nat)
    (response : continuous_action_response) (o : outcome continuous_action_response)
    (h : self.request_continuous_action env (some event_id) context flags response = some o)
    (hcode : o.code = error_code.success) :
    ∃ action pdf_value version,
      call.populate_response action pdf_value event_id version ∈ o.calls := by
  unfold live_model_impl.request_continuous_action at h
  simp only at h
  split at h
  · split at h
    · rename_i e _ heq _
      split at h
      · cases h; rename_i hne; exact absurd hcode hne
      · split at h
        · cases h; rename_i hne; exact absurd hcode hne
        · split at h
          · cases h; rename_i hne; exact absurd hcode hne
          · cases h
            rw [check_watchdog_calls]
            simp only [Option.some.injEq] at heq
            subst heq
            exact ⟨_, _, _, List.mem_append_left _ (List.mem_append_right _
              (List.mem_singleton.mpr rfl))⟩
    · cases h
      rename_i hfall
      simp only at hcode
      exact absurd hcode (hfall event_id rfl)
  · exact absurd h (by simp)

theorem request_multi_slot_decision_success_event_id (env : Env) (self : live_model_impl)
    (event_id : String) (context_json : string_view) (flags : Nat)
    (resp : multi_slot_response) (baseline_actions : List Int)
    (o : outcome multi_slot_response)
    (h : self.request_multi_slot_decision env (some event_id) context_json flags resp
      baseline_actions = some o)
    (hcode : o.code = error_code.success) :
    ∃ ids pdfs version slot_ids,
      call.populate_multi_slot_response ids pdfs event_id version slot_ids ∈ o.calls := by
  unfold live_model_impl.request_multi_slot_decision at h
  simp only at h
  split at h
  · cases h; simp at hcode
  · split at h
    · exact absurd h (by simp)
    · split at h
      · cases h; rename_i hne; exact absurd hcode hne
      · split at h
        · cases h; rename_i hne; exact absurd hcode hne
        · split at h
          · cases h; rename_i hne; exact absurd hcode hne
          · split at h
            · exact absurd h (by simp)
            · split at h
              · cases h; rename_i hne; exact absurd hcode hne
              · cases h
                rw [check_watchdog_calls]
                exact ⟨_, _, _, _, List.mem_append_left _ (List.mem_append_right _
                  (List.mem_singleton.mpr rfl))⟩

theorem request_multi_slot_decision_detailed_success_event_id (env : Env)
    (self : live_model_impl) (event_id : String) (context_json : string_view) (flags : Nat)
    (resp : multi_slot_response_detailed) (baseline_actions : List Int)
    (o : outcome multi_slot_response_detailed)
    (h : self.request_multi_slot_decision_detailed env (some event_id) context_json flags resp
      baseline_actions = some o)
    (hcode : o.code = error_code.success) :
    ∃ ids pdfs version slot_ids,
      call.populate_multi_slot_response_detailed ids pdfs event_id version slot_ids
        ∈ o.calls := by
  unfold live_model_impl.request_multi_slot_decision_detailed at h
  simp only at h
  split at h
  · cases h; simp at hcode
  · split at h
    · exact absurd h (by simp)
    · split at h
      · cases h; rename_i hne; exact absurd hcode hne
      · split at h
        · cases h; rename_i hne; exact absurd hcode hne
        · split at h
          · cases h; rename_i hne; exact absurd hcode hne
          · split at h
            · exact absurd h (by simp)
            · split at h
              · cases h; rename_i hne; exact absurd hcode hne
              · cases h
                rw [check_watchdog_calls]
                exact ⟨_, _, _, _, List.mem_append_left _ (List.mem_append_right _
                  (List.mem_singleton.mpr rfl))⟩

/-- C20 (counterexample): on a facade with seed shift 42 and a generator that draws the uuid
`"uuid"`, the event-id-less `choose_rank`, `request_continuous_action` and
`request_multi_slot_decision` succeed with the event id `"uuid"` in the response, which is not
the uuid followed by the decimal rendering of the seed shift (`"uuid42"`). -/
theorem generated_event_id_has_no_seed_shift :
    sample_env.random_uuid 0 ++ toString
      ({ sample_model learning_mode.ONLINE false with _seed_shift := 42 }
        : live_model_impl)._seed_shift = "uuid42" ∧
    (({ sample_model learning_mode.ONLINE false with _seed_shift := 42 }
        : live_model_impl).choose_rank_generated_id sample_env (string_view.of_string "ctx") 0
        empty_ranking_response).map (fun o => (o.code, o.response.event_id))
      = some (error_code.success, "uuid") ∧
    (({ sample_model learning_mode.ONLINE false with _seed_shift := 42 }
        : live_model_impl).request_continuous_action_generated_id sample_env
        (string_view.of_string "ctx") 0
        { event_id := "", chosen_action := 0, chosen_action_pdf_value := 0, model_id := "" }).map
      (fun o => (o.code, o.response.event_id))
      = some (error_code.success, "uuid") ∧
    (({ sample_model learning_mode.ONLINE false with _seed_shift := 42 }
        : live_model_impl).request_multi_slot_decision_generated_id sample_env
        (string_view.of_string "ctx") 0 empty_multi_slot_response []).map
      (fun o => (o.code, o.response.event_id))
      = some (error_code.success, "uuid") := by
  refine ⟨by decide, by decide, by decide, by decide⟩

/-- C20 (amended): whenever the caller supplies no event id (the event-id-less overloads of
`choose_rank`, `request_continuous_action` and both shapes of `request_multi_slot_decision`),
the event id used for the decision is the random uuid string as generated, with nothing appended:
a successful `choose_rank` passes it to the policy and returns it in the response, and the other
overloads, when they succeed, have passed it to the function that populates the response. -/
theorem generated_event_id_is_the_uuid (env : Env) (self : live_model_impl)
    (context : string_view) (flags : Nat) :
    (∀ response o, self.choose_rank_generated_id env context flags response = some o →
      o.code = error_code.success →
      o.response.event_id = env.random_uuid 0 ∧
      ∃ rest, o.calls = call.model_choose_rank (env.random_uuid 0)
        (self.seed env (env.random_uuid 0)) context.text :: rest) ∧
    (∀ response o, self.request_continuous_action_generated_id env context flags response
        = some o →
      o.code = error_code.success →
      ∃ action pdf_value version,
        call.populate_response action pdf_value (env.random_uuid 0) version ∈ o.calls) ∧
    (∀ resp baseline_actions o,
      self.request_multi_slot_decision_generated_id env context flags resp baseline_actions
        = some o →
      o.code = error_code.success →
      ∃ ids pdfs version slot_ids,
        call.populate_multi_slot_response ids pdfs (env.random_uuid 0) version slot_ids
          ∈ o.calls) ∧
    (∀ resp baseline_actions o,
      self.request_multi_slot_decision_detailed_generated_id env context flags resp
        baseline_actions = some o →
      o.code = error_code.success →
      ∃ ids pdfs version slot_ids,
        call.populate_multi_slot_response_detailed ids pdfs (env.random_uuid 0) version slot_ids
          ∈ o.calls) :=
  ⟨fun response o h hcode =>
      choose_rank_success_event_id env self _ context flags response o h hcode,
    fun response o h hcode =>
      request_continuous_action_success_event_id env self _ context flags response o h hcode,
    fun resp baseline_actions o h hcode =>
      request_multi_slot_decision_success_event_id env self _ context flags resp
        baseline_actions o h hcode,
    fun resp baseline_actions o h hcode =>
      request_multi_slot_decision_detailed_success_event_id env self _ context flags resp
        baseline_actions o h hcode⟩

theorem generated_event_id_is_the_uuid_witness :
    (⟨"uuid", 1, "m", [⟨1, 4⟩, ⟨0, 3⟩]⟩ : ranking_response).event_id
      = sample_env.random_uuid 0 :=
  ((generated_event_id_is_the_uuid sample_env (sample_model learning_mode.ONLINE false)
    (string_view.of_string "ctx") 0).1 empty_ranking_response
    { code := error_code.success, response := ⟨"uuid", 1, "m", [⟨1, 4⟩, ⟨0, 3⟩]⟩,
      self := sample_model learning_mode.ONLINE false,
      calls := [call.model_choose_rank "uuid" 4 "ctx",
        call.sample_and_populate_response 4 [0, 1] [3, 4] "m",
        call.interaction_logger_log "ctx" 0 ⟨"uuid", 1, "m", [⟨1, 4⟩, ⟨0, 3⟩]⟩
          learning_mode.ONLINE] }
    rfl rfl).1

/-! ### Outcomes -/

theorem check_null_or_empty_c_str_invalid (arg1 : Option String) :
    check_null_or_empty_c_str arg1 = error_code.success ∨
    check_null_or_empty_c_str arg1 = error_code.invalid_argument := by
  unfold check_null_or_empty_c_str
  cases arg1 with
  | none => exact Or.inr rfl
  | some s => simp only; split <;> simp

/-- The overloads of `report_outcome` that take a number: a null or empty id is answered with
`invalid_argument` and no call; every other input with the observation logger's status and the one
call made to it. -/
theorem report_outcome_float_dispatches (env : Env) (self : live_model_impl)
    (event_id : Option String) (outcome : float) :
    ∃ r, self.report_outcome_float env event_id outcome = some r ∧
      ((event_id = none ∨ event_id = some "") →
        r.code = error_code.invalid_argument ∧ r.calls = []) ∧
      (∀ id, event_id = some id → id ≠ "" →
        r.code = env.outcome_logger_log id secondary_id.absent (outcome_value.number outcome) ∧
        r.calls = [call.outcome_logger_log id secondary_id.absent (outcome_value.number outcome)]) := by
  cases event_id with
  | none =>
    exact ⟨self.rejected error_code.invalid_argument, rfl, fun _ => ⟨rfl, rfl⟩,
      fun id h => by cases h⟩
  | some id =>
    by_cases hid : id = ""
    · subst hid
      exact ⟨self.rejected error_code.invalid_argument, rfl, fun _ => ⟨rfl, rfl⟩,
        fun id h hne => by cases h; exact absurd rfl hne⟩
    · have hlen : id.length ≠ 0 := by
        intro h
        exact hid (String.ext (List.length_eq_zero.mp h))
      refine ⟨self.report_outcome_internal env id secondary_id.absent
        (outcome_value.number outcome), ?_, ?_, ?_⟩
      · simp [live_model_impl.report_outcome_float, check_null_or_empty_c_str, hlen]
      · rintro (h | h)
        · cases h
        · cases h; exact absurd rfl hid
      · intro id2 h _
        cases h
        exact ⟨rfl, rfl⟩

/-- The overload of `report_outcome` that takes a text outcome, on pointers that are not null:
an empty id or an empty outcome is answered with `invalid_argument` and no call; every other
input with the observation logger's status and the one call made to it. -/
theorem report_outcome_c_str_dispatches (env : Env) (self : live_model_impl)
    (event_id : Option String) (outcome : String) :
    ∃ r, self.report_outcome_c_str env event_id (some outcome) = some r ∧
      ((event_id = none ∨ event_id = some "" ∨ outcome = "") →
        r.code = error_code.invalid_argument ∧ r.calls = []) ∧
      (∀ id, event_id = some id → id ≠ "" → outcome ≠ "" →
        r.code = env.outcome_logger_log id secondary_id.absent (outcome_value.text outcome) ∧
        r.calls = [call.outcome_logger_log id secondary_id.absent (outcome_value.text outcome)]) := by
  have hlen : ∀ s : String, s.length = 0 ↔ s = "" := fun s =>
    ⟨fun h => String.ext (List.length_eq_zero.mp h), fun h => by subst h; rfl⟩
  cases event_id with
  | none =>
    exact ⟨self.rejected error_code.invalid_argument, rfl, fun _ => ⟨rfl, rfl⟩,
      fun id h => by cases h⟩
  | some id =>
    by_cases hbad : id = "" ∨ outcome = ""
    · refine ⟨self.rejected error_code.invalid_argument, ?_, fun _ => ⟨rfl, rfl⟩, ?_⟩
      · have : (id.length == 0 || (outcome.length == 0)) = true := by
          rcases hbad with h | h <;> simp [(hlen _).mpr h]
        simp [live_model_impl.report_outcome_c_str, string_view.of_c_str, check_null_or_empty,
          string_view.empty, this]
      · intro id2 h hne hne2
        cases h
        rcases hbad with h | h
        · exact absurd h hne
        · exact absurd h hne2
    · have hid : id.length ≠ 0 := fun h => hbad (Or.inl ((hlen _).mp h))
      have hout : outcome.length ≠ 0 := fun h => hbad (Or.inr ((hlen _).mp h))
      refine ⟨self.report_outcome_internal env id secondary_id.absent
        (outcome_value.text outcome), ?_, ?_, ?_⟩
      · simp [live_model_impl.report_outcome_c_str, string_view.of_c_str, check_null_or_empty,
          string_view.empty, hid, hout]
      · rintro (h | h | h)
        · cases h
        · cases h; exact absurd rfl (fun h => hbad (Or.inl h))
        · exact absurd h (fun h => hbad (Or.inr h))
      · intro id2 h _ _
        cases h
        exact ⟨rfl, rfl⟩

theorem check_null_or_empty_cases (arg1 : Option String) (arg2 : string_view) :
    check_null_or_empty arg1 arg2 = error_code.invalid_argument ∨
    ∃ id, arg1 = some id ∧ check_null_or_empty arg1 arg2 = error_code.success := by
  unfold check_null_or_empty
  cases arg1 with
  | none => exact Or.inl rfl
  | some s =>
    simp only
    split
    · exact Or.inl rfl
    · exact Or.inr ⟨s, rfl, rfl⟩

theorem check_null_or_empty_c_str_cases (arg1 : Option String) :
    check_null_or_empty_c_str arg1 = error_code.invalid_argument ∨
    ∃ id, arg1 = some id ∧ check_null_or_empty_c_str arg1 = error_code.success := by
  unfold check_null_or_empty_c_str
  cases arg1 with
  | none => exact Or.inl rfl
  | some s =>
    simp only
    split
    · exact Or.inl rfl
    · exact Or.inr ⟨s, rfl, rfl⟩

/-- Each of the six overloads of `report_outcome`, where it returns, has either rejected its
arguments with `invalid_argument` before any call, or made one call, to the observation logger,
and returned its status; the policy and the sampler are not called. -/
theorem report_outcome_dispatches (env : Env) (self : live_model_impl) :
    (∀ event_id outcome r, self.report_outcome_c_str env event_id outcome = some r →
      r.dispatched env) ∧
    (∀ event_id outcome r, self.report_outcome_float env event_id outcome = some r →
      r.dispatched env) ∧
    (∀ primary_id secondary outcome r,
      self.report_outcome_int_c_str env primary_id secondary outcome = some r →
      r.dispatched env) ∧
    (∀ primary_id secondary outcome r,
      self.report_outcome_int_float env primary_id secondary outcome = some r →
      r.dispatched env) ∧
    (∀ primary_id secondary outcome r,
      self.report_outcome_c_str_c_str env primary_id secondary outcome = some r →
      r.dispatched env) ∧
    (∀ primary_id secondary outcome r,
      self.report_outcome_c_str_float env primary_id secondary outcome = some r →
      r.dispatched env) := by
  have hview : ∀ (a : Option String) (v : string_view) (r : report_result),
      (∀ id, a = some id → check_null_or_empty a v = error_code.success → False) →
      r = self.rejected (check_null_or_empty a v) → r.dispatched env := by
    intro a v r hno hr
    rcases check_null_or_empty_cases a v with h | ⟨id, ha, hs⟩
    · subst hr
      rw [h]
      exact Or.inl ⟨rfl, rfl⟩
    · exact (hno id ha hs).elim
  have hstr : ∀ (a : Option String) (r : report_result),
      (∀ id, a = some id → check_null_or_empty_c_str a = error_code.success → False) →
      r = self.rejected (check_null_or_empty_c_str a) → r.dispatched env := by
    intro a r hno hr
    rcases check_null_or_empty_c_str_cases a with h | ⟨id, ha, hs⟩
    · subst hr
      rw [h]
      exact Or.inl ⟨rfl, rfl⟩
    · exact (hno id ha hs).elim
  refine ⟨?_, ?_, ?_, ?_, ?_, ?_⟩
  · intro event_id outcome r h
    unfold live_model_impl.report_outcome_c_str at h
    split at h
    · split at h
      · cases h; exact Or.inr ⟨_, _, _, rfl, rfl⟩
      · rename_i hno
        simp only [Option.some.injEq] at h
        exact hview _ _ _ hno h.symm
    · exact absurd h (by simp)
  · intro event_id outcome r h
    unfold live_model_impl.report_outcome_float at h
    split at h
    · cases h; exact Or.inr ⟨_, _, _, rfl, rfl⟩
    · rename_i hno
      simp only [Option.some.injEq] at h
      exact hstr _ _ hno h.symm
  · intro primary_id secondary outcome r h
    unfold live_model_impl.report_outcome_int_c_str at h
    split at h
    · split at h
      · cases h; exact Or.inr ⟨_, _, _, rfl, rfl⟩
      · rename_i hno
        simp only [Option.some.injEq] at h
        exact hview _ _ _ hno h.symm
    · exact absurd h (by simp)
  · intro primary_id secondary outcome r h
    unfold live_model_impl.report_outcome_int_float at h
    split at h
    · cases h; exact Or.inr ⟨_, _, _, rfl, rfl⟩
    · rename_i hno
      simp only [Option.some.injEq] at h
      exact hstr _ _ hno h.symm
  · intro primary_id secondary outcome r h
    unfold live_model_impl.report_outcome_c_str_c_str at h
    split at h
    · split at h
      · split at h
        · cases h; exact Or.inr ⟨_, _, _, rfl, rfl⟩
        · rename_i hno
          simp only [Option.some.injEq] at h
          exact hstr _ _ hno h.symm
      · rename_i hno
        simp only [Option.some.injEq] at h
        exact hview _ _ _ hno h.symm
    · exact absurd h (by simp)
  · intro primary_id secondary outcome r h
    unfold live_model_impl.report_outcome_c_str_float at h
    split at h
    · split at h
      · cases h; exact Or.inr ⟨_, _, _, rfl, rfl⟩
      · rename_i hno
        simp only [Option.some.injEq] at h
        exact hstr _ _ hno h.symm
    · rename_i hno
      simp only [Option.some.injEq] at h
      exact hstr _ _ hno h.symm

/-- C21 (defect of the code): the three overloads of `report_outcome` that take the outcome as a
`const char*` hand it to `check_null_or_empty` as a `string_view`, which is built from the pointer
before the check runs; for a null outcome the behaviour is undefined where the claim has
`invalid_argument`. The ids, which the check takes as `const char*`, are tested for null. -/
theorem report_outcome_null_outcome_is_unchecked :
    (sample_model learning_mode.ONLINE false).report_outcome_c_str sample_env
      (some "event_1") none = none ∧
    (sample_model learning_mode.ONLINE false).report_outcome_int_c_str sample_env
      (some "event_1") 0 none = none ∧
    (sample_model learning_mode.ONLINE false).report_outcome_c_str_c_str sample_env
      (some "event_1") (some "slot_0") none = none ∧
    (sample_model learning_mode.ONLINE false).report_outcome_c_str sample_env
      none (some "1.5") =
      some { code := error_code.invalid_argument,
             self := sample_model learning_mode.ONLINE false, calls := [] } ∧
    (sample_model learning_mode.ONLINE false).report_outcome_c_str sample_env
      (some "event_1") (some "") =
      some { code := error_code.invalid_argument,
             self := sample_model learning_mode.ONLINE false, calls := [] } := by
  refine ⟨rfl, rfl, rfl, ?_, ?_⟩ <;> decide

/-! ### Action-taken events -/

/-- C22 (defect of the code): `report_action_taken` has no argument check; an empty or null
event id (and, in the two-id overload, an empty or null secondary id) is handed to the
observation logger like any other, one action-taken event is emitted and the logger's status is
returned, where the claim has `invalid_argument` and no event. -/
theorem report_action_taken_has_no_argument_check :
    (sample_model learning_mode.ONLINE false).report_action_taken sample_env (some "") =
      { code := error_code.success, self := sample_model learning_mode.ONLINE false,
        calls := [call.outcome_logger_report_action_taken (some "")] } ∧
    (sample_model learning_mode.ONLINE false).report_action_taken sample_env none =
      { code := error_code.success, self := sample_model learning_mode.ONLINE false,
        calls := [call.outcome_logger_report_action_taken none] } ∧
    (sample_model learning_mode.ONLINE false).report_action_taken_secondary sample_env
        (some "event_1") (some "") =
      { code := error_code.success, self := sample_model learning_mode.ONLINE false,
        calls := [call.outcome_logger_report_action_taken_secondary (some "event_1") (some "")] } ∧
    (∀ (env : Env) (self : live_model_impl) (event_id : Option String),
      (self.report_action_taken env event_id).code =
        env.outcome_logger_report_action_taken event_id ∧
      ((self.report_action_taken env event_id).calls.filter call.is_action_taken).length = 1) := by
  refine ⟨by decide, by decide, by decide, ?_⟩
  intro env self event_id
  exact ⟨rfl, rfl⟩

/-! ### Model updates from the background -/

theorem report_error_model_ready (self : live_model_impl) (status : api_status) :
    (self.report_error status)._model_ready = self._model_ready := by
  unfold live_model_impl.report_error
  split <;> rfl

theorem report_error_error_cb (self : live_model_impl) (status : api_status) :
    (self.report_error status)._error_cb = self._error_cb := by
  unfold live_model_impl.report_error
  split <;> rfl

/-- C25: for a `model_data` whose refresh count is 0, `handle_model_update` makes no call, so
neither the policy's `update` nor the error callback is called, and it leaves the facade object,
`_model_ready` included, as it was. -/
theorem handle_model_update_skips_unchanged_model (env : Env) (self : live_model_impl)
    (data : model_data) (h : data.refresh_count = 0) :
    (self.handle_model_update env data).calls = [] ∧
    (self.handle_model_update env data).self = self ∧
    (self.handle_model_update env data).self._model_ready = self._model_ready := by
  unfold live_model_impl.handle_model_update
  simp [h]

theorem handle_model_update_skips_unchanged_model_witness :
    ((sample_model learning_mode.ONLINE false).handle_model_update failing_update_env
        { data := [1, 2], refresh_count := 0 }).calls = [] ∧
    ((sample_model learning_mode.ONLINE false).handle_model_update failing_update_env
        { data := [1, 2], refresh_count := 0 }).self = sample_model learning_mode.ONLINE false ∧
    ((sample_model learning_mode.ONLINE false).handle_model_update failing_update_env
        { data := [1, 2], refresh_count := 0 }).self._model_ready =
      (sample_model learning_mode.ONLINE false)._model_ready :=
  handle_model_update_skips_unchanged_model failing_update_env
    (sample_model learning_mode.ONLINE false) { data := [1, 2], refresh_count := 0 } (by decide)

/-- C26: for a `model_data` whose refresh count is not 0, `handle_model_update` calls the policy's
`update` once, as its first call. When `update` fails, the status it left is passed to
`_error_cb.report_error` once, nothing else is called and `_model_ready` keeps its value; when
`update` succeeds, the error callback is not called and `_model_ready` becomes the readiness the
policy wrote. -/
theorem handle_model_update_applies_changed_model (env : Env) (self : live_model_impl)
    (data : model_data) (h : data.refresh_count ≠ 0) :
    ((self.handle_model_update env data).calls.filter
      (fun c => decide (c = call.model_update data))).length = 1 ∧
    ((env.model_update data).1 ≠ error_code.success →
      (self.handle_model_update env data).calls =
        [call.model_update data, call.error_cb_report_error (model_update_status env data)] ∧
      (self.handle_model_update env data).self = self.report_error (model_update_status env data) ∧
      (self.handle_model_update env data).self._model_ready = self._model_ready) ∧
    ((env.model_update data).1 = error_code.success →
      (self.handle_model_update env data).calls = [call.model_update data] ∧
      (self.handle_model_update env data).self =
        { self with _model_ready := (env.model_update data).2 } ∧
      (self.handle_model_update env data).self._model_ready = (env.model_update data).2) := by
  unfold live_model_impl.handle_model_update model_update_status
  simp only [h, if_false]
  by_cases hu : (env.model_update data).1 = error_code.success
  · simp [hu]
  · simp [hu, report_error_model_ready]

theorem handle_model_update_applies_changed_model_witness :
    ((sample_model learning_mode.ONLINE false).handle_model_update failing_update_env
        { data := [1, 2], refresh_count := 3 }).calls =
      [call.model_update { data := [1, 2], refresh_count := 3 },
       call.error_cb_report_error
         { code := error_code.model_update_error, msg := "model rejected" }] ∧
    ((sample_model learning_mode.ONLINE false).handle_model_update sample_env
        { data := [1, 2], refresh_count := 3 }).self._model_ready = true :=
  ⟨((handle_model_update_applies_changed_model failing_update_env
      (sample_model learning_mode.ONLINE false) { data := [1, 2], refresh_count := 3 }
      (by decide)).2.1 (by decide)).1,
   ((handle_model_update_applies_changed_model sample_env
      (sample_model learning_mode.ONLINE false) { data := [1, 2], refresh_count := 3 }
      (by decide)).2.2 (by decide)).2.2⟩

/-! ### The default error callback -/

/-- The constructor that takes an `error_fn` installs the default callback for a null function:
a background error reported through `_error_cb` then sets the flag of the facade's watchdog. A
function of the user is kept by both constructors. -/
theorem error_fn_constructor_installs_default_callback (env : Env) (config : configuration)
    (status : api_status) (fn : Nat) :
    (live_model_impl.live_model_impl_error_fn env config none)._error_cb =
      error_callback.default_error_callback ∧
    ((live_model_impl.live_model_impl_error_fn env config none).report_error
      status)._watchdog.unhandled_background_error = true ∧
    (live_model_impl.live_model_impl_error_fn env config (some fn))._error_cb =
      error_callback.user fn ∧
    (live_model_impl.live_model_impl_function env config (some fn))._error_cb =
      error_callback.user fn :=
  ⟨rfl, rfl, rfl, rfl⟩

/-- C27 (defect of the code): the constructor that takes a `std::function` installs nothing when
the function is empty; `_error_cb` then holds no callback, and a background error reported through
it leaves the flag of the watchdog clear. The constructor that takes an `error_fn` installs
`default_error_callback` in that case. -/
theorem function_constructor_installs_no_default_callback (env : Env) (config : configuration)
    (status : api_status) :
    (live_model_impl.live_model_impl_function env config none)._error_cb = error_callback.empty ∧
    (live_model_impl.live_model_impl_function env config none)._error_cb ≠
      error_callback.default_error_callback ∧
    ((live_model_impl.live_model_impl_function env config none).report_error
      status)._watchdog.unhandled_background_error = false ∧
    ((live_model_impl.live_model_impl_error_fn env config none).report_error
      status)._watchdog.unhandled_background_error = true := by
  refine ⟨rfl, ?_, rfl, rfl⟩
  intro h
  cases h

/-! ### `http_uri_not_provided` -/

theorem create_apim_http_api_sender_code (env : Env) (cfg : configuration) (api_host : String)
    (tasks_limit : Int) (max_http_retries : Int) :
    (create_apim_http_api_sender env cfg api_host tasks_limit max_http_retries).code =
      env.create_http_client api_host cfg ∧
    (create_apim_http_api_sender env cfg api_host tasks_limit max_http_retries).calls =
      [call.create_http_client api_host cfg] := by
  unfold create_apim_http_api_sender
  by_cases h : env.create_http_client api_host cfg = error_code.success <;> simp [h]

theorem configuration_get_absent (c : configuration) (n : name) (defval : String)
    (h : c.get n none = none) : (c.get n (some defval)).getD "" = defval := by
  unfold configuration.get at h ⊢
  cases hl : c.entries.lookup n with
  | none => simp
  | some v => simp [hl] at h

/-- The four sender factories, whatever the configuration: the one call they make creates the
HTTP client, and their status is the status of that call. -/
theorem register_azure_factories_code (sender : azure_sender) (env : Env)
    (cfg : configuration) :
    ∃ url, (register_azure_factories sender env cfg).calls = [call.create_http_client url cfg] ∧
      (register_azure_factories sender env cfg).code = env.create_http_client url cfg := by
  cases sender
  · refine ⟨build_eh_url ((cfg.get name.OBSERVATION_EH_HOST (some "localhost:8080")).getD "")
      ((cfg.get name.OBSERVATION_EH_NAME (some "observation")).getD ""), ?_, ?_⟩ <;>
    · simp only [register_azure_factories, observation_sender_create]
      split <;> simp_all
  · refine ⟨build_eh_url ((cfg.get name.INTERACTION_EH_HOST (some "localhost:8080")).getD "")
      ((cfg.get name.INTERACTION_EH_NAME (some "interaction")).getD ""), ?_, ?_⟩ <;>
    · simp only [register_azure_factories, interaction_sender_create]
      split <;> simp_all
  · exact ⟨_, (create_apim_http_api_sender_code env cfg _ _ _).2,
      (create_apim_http_api_sender_code env cfg _ _ _).1⟩
  · exact ⟨_, (create_apim_http_api_sender_code env cfg _ _ _).2,
      (create_apim_http_api_sender_code env cfg _ _ _).1⟩

/-- C28, as stated, fails: for a configuration without a model blob URI the model data-transport
factory `restapi_data_transport_create` returns `http_uri_not_provided`. -/
theorem restapi_data_transport_create_returns_http_uri_not_provided :
    (restapi_data_transport_create sample_env { entries := [] }).code =
      error_code.http_uri_not_provided := by
  decide

/-- C28, amended: `http_uri_not_provided` is produced by the model data-transport factory and not
by the sender factories. `restapi_data_transport_create` returns it, creating no HTTP client and
no transport, when the configuration has no model blob URI, and otherwise returns the status of
the client creation for that URI. Each of the four sender factories registered by
`register_azure_factories`, given a configuration without its host, creates its HTTP client for the
default host `localhost:8080` and returns the status of that creation, so it returns
`http_uri_not_provided` only if the client creation does. -/
theorem http_uri_not_provided_comes_from_model_transport (env : Env) (config : configuration) :
    (config.get name.MODEL_BLOB_URI none = none →
      restapi_data_transport_create env config =
        { code := error_code.http_uri_not_provided, retval := none, calls := [] }) ∧
    (∀ uri, config.get name.MODEL_BLOB_URI none = some uri →
      (restapi_data_transport_create env config).code = env.create_http_client uri config ∧
      (restapi_data_transport_create env config).calls = [call.create_http_client uri config]) ∧
    (∀ sender : azure_sender, config.get sender.host none = none →
      ∃ url, (url = "localhost:8080" ∨ ∃ eh_name, url = build_eh_url "localhost:8080" eh_name) ∧
        (register_azure_factories sender env config).calls =
          [call.create_http_client url config] ∧
        (register_azure_factories sender env config).code = env.create_http_client url config ∧
        (env.create_http_client url config ≠ error_code.http_uri_not_provided →
          (register_azure_factories sender env config).code ≠
            error_code.http_uri_not_provided)) := by
  refine ⟨?_, ?_, ?_⟩
  · intro h
    unfold restapi_data_transport_create
    simp [h]
  · intro uri h
    unfold restapi_data_transport_create
    simp only [h]
    by_cases hc : env.create_http_client uri config = error_code.success <;> simp [hc]
  · intro sender h
    cases sender
    · have hhost := configuration_get_absent config name.OBSERVATION_EH_HOST "localhost:8080" h
      refine ⟨build_eh_url "localhost:8080"
        ((config.get name.OBSERVATION_EH_NAME (some "observation")).getD ""),
        Or.inr ⟨_, rfl⟩, ?_⟩
      simp only [register_azure_factories, observation_sender_create, hhost]
      split <;> simp_all
    · have hhost := configuration_get_absent config name.INTERACTION_EH_HOST "localhost:8080" h
      refine ⟨build_eh_url "localhost:8080"
        ((config.get name.INTERACTION_EH_NAME (some "interaction")).getD ""),
        Or.inr ⟨_, rfl⟩, ?_⟩
      simp only [register_azure_factories, interaction_sender_create, hhost]
      split <;> simp_all
    · have hhost :=
        configuration_get_absent config name.OBSERVATION_HTTP_API_HOST "localhost:8080" h
      refine ⟨"localhost:8080", Or.inl rfl, ?_⟩
      simp only [register_azure_factories, observation_api_sender_create, hhost]
      have hc := create_apim_http_api_sender_code env config "localhost:8080"
        (env.config_get_int config name.OBSERVATION_APIM_TASKS_LIMIT 16)
        (env.config_get_int config name.OBSERVATION_APIM_MAX_HTTP_RETRIES 4)
      refine ⟨hc.2, hc.1, ?_⟩
      rw [hc.1]
      exact id
    · have hhost :=
        configuration_get_absent config name.INTERACTION_HTTP_API_HOST "localhost:8080" h
      refine ⟨"localhost:8080", Or.inl rfl, ?_⟩
      simp only [register_azure_factories, interaction_api_sender_create, hhost]
      have hc := create_apim_http_api_sender_code env config "localhost:8080"
        (env.config_get_int config name.INTERACTION_APIM_TASKS_LIMIT 16)
        (env.config_get_int config name.INTERACTION_APIM_MAX_HTTP_RETRIES 4)
      refine ⟨hc.2, hc.1, ?_⟩
      rw [hc.1]
      exact id

theorem http_uri_not_provided_comes_from_model_transport_witness :
    restapi_data_transport_create sample_env { entries := [] } =
      { code := error_code.http_uri_not_provided, retval := none, calls := [] } ∧
    (restapi_data_transport_create sample_env
      { entries := [(name.MODEL_BLOB_URI, "https://models/current")] }).code =
      error_code.success :=
  ⟨(http_uri_not_provided_comes_from_model_transport sample_env { entries := [] }).1
      (by decide),
   ((http_uri_not_provided_comes_from_model_transport sample_env
      { entries := [(name.MODEL_BLOB_URI, "https://models/current")] }).2.1
      "https://models/current" (by decide)).1⟩

/-! ### A failing policy -/

/-- The status the policy's `choose_rank` returns is not looked at: with a policy that returns
`code` and writes the same output arguments, `choose_rank` of the facade does the same. -/
theorem choose_rank_discards_policy_status (env : Env) (self : live_model_impl)
    (event_id : Option String) (context : string_view) (flags : Nat)
    (response : ranking_response) (code : error_code) :
    self.choose_rank
        { env with model_choose_rank := fun id seed ctx => (code, (env.model_choose_rank id seed ctx).2) }
        event_id context flags response =
      self.choose_rank env event_id context flags response := rfl

/-- C30 (defect of the code): `choose_rank` does not test the status returned by the policy's
`choose_rank`, which the other decision operations do with `RETURN_IF_FAIL`. With a policy that
fails after writing its output arguments and a sampler and logger that succeed, the facade hands
the interaction event to the interaction logger and returns `success`. -/
theorem choose_rank_ignores_policy_failure :
    (failing_policy_env.model_choose_rank "e" 1 "ctx").1 = error_code.other 3 ∧
    ((sample_model learning_mode.ONLINE false).choose_rank failing_policy_env (some "e")
        (string_view.of_string "ctx") 0 empty_ranking_response).map
      (fun o => (o.code, o.calls)) =
      some (error_code.success,
        [call.model_choose_rank "e" 1 "ctx",
         call.sample_and_populate_response 1 [0, 1] [3, 4] "m",
         call.interaction_logger_log "ctx" 0 ⟨"e", 1, "m", [⟨1, 4⟩, ⟨0, 3⟩]⟩
           learning_mode.ONLINE]) := by
  refine ⟨by decide, by decide⟩

/-! ### The response after a failure -/

theorem reset_action_order_frame (sort : std_sort action_prob action_id_less)
    (check : Nat → List action_prob → error_code)
    (r r' : ranking_response) (code : error_code)
    (h : reset_action_order sort check r = some (code, r')) :
    r'.event_id = r.event_id ∧ r'.model_id = r.model_id ∧ r'.ranking.Perm r.ranking := by
  unfold reset_action_order at h
  simp only at h
  split at h
  · exact absurd h (by simp)
  · rename_i first rest hsorted
    simp only [Option.some.injEq] at h
    have hperm : (first :: rest).Perm r.ranking := by
      rw [← hsorted]
      exact sort.perm _
    unfold ranking_response.set_chosen_action_id at h
    split at h
    · simp only [Prod.mk.injEq] at h
      rw [← h.2]
      exact ⟨rfl, rfl, by simpa [hsorted] using hperm⟩
    · simp only [Prod.mk.injEq] at h
      rw [← h.2]
      exact ⟨rfl, rfl, by simpa [hsorted] using hperm⟩

/-- After a successful sampling, whatever `choose_rank` returns, the caller holds the populated
response: the event id, the model id and the ranking of the sampler, reordered at most. -/
theorem choose_rank_keeps_populated_response (env : Env) (self : live_model_impl)
    (event_id : String) (context : string_view) (flags : Nat) (response : ranking_response)
    (pc : error_code) (d : rank_decision) (sampled : ranking_response)
    (o : outcome ranking_response)
    (hargs : check_null_or_empty (some event_id) context = error_code.success)
    (hd : env.model_choose_rank event_id (self.seed env event_id) context.text = (pc, d))
    (hs : env.sample_and_populate_response (self.seed env event_id) d.action_ids d.action_pdf
      d.model_version response.clear = (error_code.success, sampled))
    (h : self.choose_rank env (some event_id) context flags response = some o) :
    o.response.event_id = event_id ∧ o.response.model_id = sampled.model_id ∧
    o.response.ranking.Perm sampled.ranking := by
  unfold live_model_impl.choose_rank at h
  simp only [hargs, hd, hs] at h
  simp only [ne_eq, not_true_eq_false, if_false] at h
  split at h
  · exact absurd h (by simp)
  · rename_i code r hbefore
    have hr : r.event_id = event_id ∧ r.model_id = sampled.model_id ∧
        r.ranking.Perm sampled.ranking := by
      split at hbefore
      · exact reset_action_order_frame _ _ _ _ _ hbefore
      · simp only [Option.some.injEq, Prod.mk.injEq] at hbefore
        rw [← hbefore.2]
        exact ⟨rfl, rfl, List.Perm.refl _⟩
    split at h
    · cases h; exact hr
    · split at h
      · cases h; exact hr
      · split at h
        · exact absurd h (by simp)
        · rename_i code2 r2 hafter
          have hr2 : r2.event_id = event_id ∧ r2.model_id = sampled.model_id ∧
              r2.ranking.Perm sampled.ranking := by
            split at hafter
            · obtain ⟨h1, h2, h3⟩ := reset_action_order_frame _ _ _ _ _ hafter
              exact ⟨h1.trans hr.1, h2.trans hr.2.1, h3.trans hr.2.2⟩
            · simp only [Option.some.injEq, Prod.mk.injEq] at hafter
              rw [← hafter.2]; exact hr
          split at h
          · cases h; exact hr2
          · cases h
            rw [check_watchdog_response]
            exact hr2


theorem choose_rank_sampler_failure (env : Env) (self : live_model_impl)
    (event_id : String) (context : string_view) (flags : Nat) (response : ranking_response)
    (pc : error_code) (d : rank_decision) (code : error_code) (sampled : ranking_response)
    (hargs : check_null_or_empty (some event_id) context = error_code.success)
    (hd : env.model_choose_rank event_id (self.seed env event_id) context.text = (pc, d))
    (hs : env.sample_and_populate_response (self.seed env event_id) d.action_ids d.action_pdf
      d.model_version response.clear = (code, sampled))
    (hcode : code ≠ error_code.success) :
    self.choose_rank env (some event_id) context flags response =
      some { code := code, response := sampled, self := self,
             calls := [call.model_choose_rank event_id (self.seed env event_id) context.text,
               call.sample_and_populate_response (self.seed env event_id) d.action_ids
                 d.action_pdf d.model_version] } := by
  unfold live_model_impl.choose_rank
  simp [hargs, hd, hs, hcode]

/-- C23, as stated, fails: with an interaction logger that rejects the event, and likewise with
a background error waiting in the watchdog, `choose_rank` returns a status other than `success`
and the caller holds the sampled ranking, not an empty response. -/
theorem choose_rank_leaves_response_populated_on_failure :
    ((sample_model learning_mode.ONLINE false).choose_rank failing_logger_env (some "e")
        (string_view.of_string "ctx") 0 empty_ranking_response).map
      (fun o => (o.code, o.response)) =
      some (error_code.other 7, ⟨"e", 1, "m", [⟨1, 4⟩, ⟨0, 3⟩]⟩) ∧
    ((sample_model learning_mode.ONLINE true).choose_rank sample_env (some "e")
        (string_view.of_string "ctx") 0 empty_ranking_response).map
      (fun o => (o.code, o.response)) =
      some (error_code.unhandled_background_error_occurred,
        ⟨"e", 1, "m", [⟨1, 4⟩, ⟨0, 3⟩]⟩) := by
  refine ⟨by decide, by decide⟩

/-- C23, amended: the caller's response is empty on return when `choose_rank` fails its argument
check: it is cleared on entry and nothing is called. It is not cleared again. When the sampler
fails, the caller holds the response as the sampler left it. When the sampler succeeded, whatever
status `choose_rank` returns (a logger failure, a reset failure and an unhandled background error
included), the caller holds the populated response: the event id, the model id and the ranking of
the sampler, in the order `reset_action_order` gave it where the mode applied it. -/
theorem choose_rank_response_is_cleared_on_entry_only (env : Env) (self : live_model_impl)
    (event_id : Option String) (context : string_view) (flags : Nat)
    (response : ranking_response) :
    ((event_id = none ∨ event_id = some "" ∨ context.empty = true) →
      self.choose_rank env event_id context flags response =
        some { code := error_code.invalid_argument, response := empty_ranking_response,
               self := self, calls := [] }) ∧
    (∀ id, event_id = some id → check_null_or_empty event_id context = error_code.success →
      (env.sample_and_populate_response (self.seed env id)
        (env.model_choose_rank id (self.seed env id) context.text).2.action_ids
        (env.model_choose_rank id (self.seed env id) context.text).2.action_pdf
        (env.model_choose_rank id (self.seed env id) context.text).2.model_version
        response.clear).1 ≠ error_code.success →
      ∃ o, self.choose_rank env event_id context flags response = some o ∧
        o.code ≠ error_code.success ∧
        o.response = (env.sample_and_populate_response (self.seed env id)
          (env.model_choose_rank id (self.seed env id) context.text).2.action_ids
          (env.model_choose_rank id (self.seed env id) context.text).2.action_pdf
          (env.model_choose_rank id (self.seed env id) context.text).2.model_version
          response.clear).2) ∧
    (∀ id o, event_id = some id → check_null_or_empty event_id context = error_code.success →
      (env.sample_and_populate_response (self.seed env id)
        (env.model_choose_rank id (self.seed env id) context.text).2.action_ids
        (env.model_choose_rank id (self.seed env id) context.text).2.action_pdf
        (env.model_choose_rank id (self.seed env id) context.text).2.model_version
        response.clear).1 = error_code.success →
      self.choose_rank env event_id context flags response = some o →
      o.response.event_id = id ∧
      o.response.model_id = (env.sample_and_populate_response (self.seed env id)
        (env.model_choose_rank id (self.seed env id) context.text).2.action_ids
        (env.model_choose_rank id (self.seed env id) context.text).2.action_pdf
        (env.model_choose_rank id (self.seed env id) context.text).2.model_version
        response.clear).2.model_id ∧
      o.response.ranking.Perm (env.sample_and_populate_response (self.seed env id)
        (env.model_choose_rank id (self.seed env id) context.text).2.action_ids
        (env.model_choose_rank id (self.seed env id) context.text).2.action_pdf
        (env.model_choose_rank id (self.seed env id) context.text).2.model_version
        response.clear).2.ranking) := by
  refine ⟨?_, ?_, ?_⟩
  · intro h
    exact choose_rank_invalid_argument env self event_id context flags response h
  · intro id hid hargs hfail
    subst hid
    exact ⟨_, choose_rank_sampler_failure env self id context flags response _ _ _ _ hargs
      rfl rfl hfail, hfail, rfl⟩
  · intro id o hid hargs hok h
    subst hid
    exact choose_rank_keeps_populated_response env self id context flags response _ _ _ o hargs
      rfl (Prod.ext hok rfl) h

theorem choose_rank_response_is_cleared_on_entry_only_witness :
    (sample_model learning_mode.ONLINE false).choose_rank failing_logger_env (some "")
        (string_view.of_string "ctx") 0 ⟨"old", 1, "m", [⟨1, 4⟩]⟩ =
      some { code := error_code.invalid_argument, response := empty_ranking_response,
             self := sample_model learning_mode.ONLINE false, calls := [] } ∧
    (⟨"e", 1, "m", [⟨1, 4⟩, ⟨0, 3⟩]⟩ : ranking_response).event_id = "e" ∧
    (⟨"e", 1, "m", [⟨1, 4⟩, ⟨0, 3⟩]⟩ : ranking_response).model_id = "m" ∧
    (⟨"e", 1, "m", [⟨1, 4⟩, ⟨0, 3⟩]⟩ : ranking_response).ranking.Perm [⟨1, 4⟩, ⟨0, 3⟩] :=
  ⟨(choose_rank_response_is_cleared_on_entry_only failing_logger_env
      (sample_model learning_mode.ONLINE false) (some "") (string_view.of_string "ctx") 0
      ⟨"old", 1, "m", [⟨1, 4⟩]⟩).1 (Or.inr (Or.inl rfl)),
   (choose_rank_response_is_cleared_on_entry_only failing_logger_env
      (sample_model learning_mode.ONLINE false) (some "e") (string_view.of_string "ctx") 0
      empty_ranking_response).2.2 "e"
      { code := error_code.other 7, response := ⟨"e", 1, "m", [⟨1, 4⟩, ⟨0, 3⟩]⟩,
        self := sample_model learning_mode.ONLINE false,
        calls := [call.model_choose_rank "e" 1 "ctx",
          call.sample_and_populate_response 1 [0, 1] [3, 4] "m",
          call.interaction_logger_log "ctx" 0 ⟨"e", 1, "m", [⟨1, 4⟩, ⟨0, 3⟩]⟩
            learning_mode.ONLINE] }
      rfl (by decide) (by decide) rfl⟩

/-! ### The order of initialisation -/

theorem refresh_model_seed_shift (env : Env) (self : live_model_impl) :
    (self.refresh_model env).self._seed_shift = self._seed_shift := by
  unfold live_model_impl.refresh_model
  simp only
  split
  · rfl
  · split
    · rfl
    · split <;> rfl

theorem init_model_mgmt_seed_shift (env : Env) (self : live_model_impl) :
    (self.init_model_mgmt env).self._seed_shift = self._seed_shift := by
  unfold live_model_impl.init_model_mgmt
  simp only
  split
  · rfl
  · split
    · rfl
    · exact refresh_model_seed_shift env self

theorem init_loggers_seed_shift (env : Env) (self : live_model_impl) :
    (self.init_loggers env).self._seed_shift = self._seed_shift := by
  unfold live_model_impl.init_loggers
  simp only
  split
  · rfl
  · split
    · rfl
    · split
      · split <;> rfl
      · rfl

theorem init_model_mgmt_first_call (env : Env) (self : live_model_impl) :
    (self.init_model_mgmt env).calls.head? =
      some (call.data_transport_factory_create self._configuration) := by
  unfold live_model_impl.init_model_mgmt
  simp only
  split
  · rfl
  · split <;> rfl

theorem run_checked_first_call (env_code : call → error_code) (c : call) (rest : List call) :
    (run_checked env_code (c :: rest)).2.head? = some c := by
  unfold run_checked
  split <;> rfl

theorem init_loggers_first_call (env : Env) (self : live_model_impl) :
    (self.init_loggers env).calls.head? =
      some (call.sender_factory_create channel.INTERACTION
        (self._configuration.set name.CONFIG_SECTION channel.INTERACTION.value)) := by
  have hfirst := run_checked_first_call env.init_code
    (call.sender_factory_create channel.INTERACTION
      (self._configuration.set name.CONFIG_SECTION channel.INTERACTION.value))
    [call.sender_init channel.INTERACTION
      (self._configuration.set name.CONFIG_SECTION channel.INTERACTION.value),
     call.message_sender_init channel.INTERACTION,
     call.time_provider_factory_create time_provider_use.logger_extensions
      (self._configuration.set name.CONFIG_SECTION channel.INTERACTION.value),
     call.time_provider_factory_create (time_provider_use.for_channel channel.INTERACTION)
      (self._configuration.set name.CONFIG_SECTION channel.INTERACTION.value),
     call.logger_init channel.INTERACTION]
  have hhead : ∀ (l m : List call) (c : call), l.head? = some c → (l ++ m).head? = some c := by
    intro l m c h
    cases l with
    | nil => simp at h
    | cons x xs => simpa using h
  unfold live_model_impl.init_loggers
  simp only [interaction_logger_steps]
  split
  · exact hfirst
  · split
    · exact hhead _ _ _ hfirst
    · split
      · split
        · exact hhead _ _ _ (hhead _ _ _ hfirst)
        · exact hhead _ _ _ (hhead _ _ _ (hhead _ _ _ hfirst))
      · exact hhead _ _ _ hfirst


/-- C29: `init` runs `init_trace`, `init_model`, `init_model_mgmt`, `init_loggers` and the
protocol check in that order, each step on the object the step before left. The status of the
first step that does not succeed is the status of `init`, and the calls made are those of the
steps up to and including it, so no later step runs. `_seed_shift` keeps its value unless every
step and the protocol check succeeded, in which case it is the hash of the application id. -/
theorem init_is_fail_fast_and_ordered (env : Env) (self : live_model_impl)
    (trace model mgmt loggers : init_outcome)
    (htrace : trace = self.init_trace env)
    (hmodel : model = trace.self.init_model env)
    (hmgmt : mgmt = model.self.init_model_mgmt env)
    (hloggers : loggers = mgmt.self.init_loggers env) :
    (trace.calls = [call.trace_factory_create self._configuration] ∧
      model.calls = [call.model_factory_create self._configuration] ∧
      mgmt.calls.head? = some (call.data_transport_factory_create self._configuration) ∧
      loggers.calls.head? = some (call.sender_factory_create channel.INTERACTION
        (mgmt.self._configuration.set name.CONFIG_SECTION channel.INTERACTION.value))) ∧
    (trace.code ≠ error_code.success →
      (self.init env).code = trace.code ∧ (self.init env).calls = trace.calls ∧
      (self.init env).self._seed_shift = self._seed_shift) ∧
    (trace.code = error_code.success → model.code ≠ error_code.success →
      (self.init env).code = model.code ∧
      (self.init env).calls = trace.calls ++ model.calls ∧
      (self.init env).self._seed_shift = self._seed_shift) ∧
    (trace.code = error_code.success → model.code = error_code.success →
      mgmt.code ≠ error_code.success →
      (self.init env).code = mgmt.code ∧
      (self.init env).calls = trace.calls ++ model.calls ++ mgmt.calls ∧
      (self.init env).self._seed_shift = self._seed_shift) ∧
    (trace.code = error_code.success → model.code = error_code.success →
      mgmt.code = error_code.success → loggers.code ≠ error_code.success →
      (self.init env).code = loggers.code ∧
      (self.init env).calls = trace.calls ++ model.calls ++ mgmt.calls ++ loggers.calls ∧
      (self.init env).self._seed_shift = self._seed_shift) ∧
    (trace.code = error_code.success → model.code = error_code.success →
      mgmt.code = error_code.success → loggers.code = error_code.success →
      (loggers.self._protocol_version = 1 ∧
        (env.config_get_bool loggers.self._configuration "interaction" name.USE_COMPRESSION false ||
         env.config_get_bool loggers.self._configuration "interaction" name.USE_DEDUP false ||
         env.config_get_bool loggers.self._configuration "observation" name.USE_COMPRESSION false)
        = true) →
      (self.init env).code = error_code.content_encoding_error ∧
      (self.init env).calls = trace.calls ++ model.calls ++ mgmt.calls ++ loggers.calls ∧
      (self.init env).self._seed_shift = self._seed_shift) ∧
    (trace.code = error_code.success → model.code = error_code.success →
      mgmt.code = error_code.success → loggers.code = error_code.success →
      ¬ (loggers.self._protocol_version = 1 ∧
        (env.config_get_bool loggers.self._configuration "interaction" name.USE_COMPRESSION false ||
         env.config_get_bool loggers.self._configuration "interaction" name.USE_DEDUP false ||
         env.config_get_bool loggers.self._configuration "observation" name.USE_COMPRESSION false)
        = true) →
      (self.init env).code = error_code.success ∧
      (self.init env).calls = trace.calls ++ model.calls ++ mgmt.calls ++ loggers.calls ∧
      (self.init env).self._seed_shift =
        env.uniform_hash ((self._configuration.get name.APP_ID (some "")).getD "") 0 % 2 ^ 64) := by
  subst htrace hmodel hmgmt hloggers
  have hseed : ((((self.init_trace env).self.init_model env).self.init_model_mgmt env).self.init_loggers
      env).self._seed_shift = self._seed_shift := by
    rw [init_loggers_seed_shift, init_model_mgmt_seed_shift]; rfl
  refine ⟨⟨rfl, rfl, ?_, ?_⟩, ?_, ?_, ?_, ?_, ?_, ?_⟩
  · exact init_model_mgmt_first_call env _
  · exact init_loggers_first_call env _
  · intro h1
    unfold live_model_impl.init
    simp only [h1, ne_eq, not_false_eq_true, if_true]
    exact ⟨trivial, trivial, rfl⟩
  · intro h1 h2
    unfold live_model_impl.init
    simp only [h1, h2, ne_eq, not_true_eq_false, not_false_eq_true, if_true, if_false]
    exact ⟨trivial, trivial, rfl⟩
  · intro h1 h2 h3
    unfold live_model_impl.init
    simp only [h1, h2, h3, ne_eq, not_true_eq_false, not_false_eq_true, if_true, if_false]
    exact ⟨trivial, trivial, init_model_mgmt_seed_shift env _⟩
  · intro h1 h2 h3 h4
    unfold live_model_impl.init
    simp only [h1, h2, h3, h4, ne_eq, not_true_eq_false, not_false_eq_true, if_true, if_false]
    exact ⟨trivial, trivial, hseed⟩
  · intro h1 h2 h3 h4 h5
    unfold live_model_impl.init
    simp only [h1, h2, h3, h4, ne_eq, not_true_eq_false, not_false_eq_true, if_true, if_false]
    rw [if_pos h5]
    exact ⟨rfl, rfl, hseed⟩
  · intro h1 h2 h3 h4 h5
    have hcode : (self.init env).code = error_code.success := by
      unfold live_model_impl.init
      simp only [h1, h2, h3, h4, ne_eq, not_true_eq_false, not_false_eq_true, if_true, if_false]
      rw [if_neg h5]
    refine ⟨hcode, ?_, init_seed_shift env self hcode⟩
    unfold live_model_impl.init
    simp only [h1, h2, h3, h4, ne_eq, not_true_eq_false, not_false_eq_true, if_true, if_false]
    rw [if_neg h5]


theorem init_is_fail_fast_and_ordered_witness :
    (((sample_model learning_mode.ONLINE false).init failing_model_factory_env).code =
        error_code.other 5 ∧
      ((sample_model learning_mode.ONLINE false).init failing_model_factory_env).calls =
        [call.trace_factory_create { entries := [(name.APP_ID, "app")] }] ++
        [call.model_factory_create { entries := [(name.APP_ID, "app")] }] ∧
      ((sample_model learning_mode.ONLINE false).init failing_model_factory_env).self._seed_shift
        = 0) ∧
    ((sample_model learning_mode.ONLINE false).init sample_env).self._seed_shift = 3 :=
  ⟨(init_is_fail_fast_and_ordered failing_model_factory_env
      (sample_model learning_mode.ONLINE false) _ _ _ _ rfl rfl rfl rfl).2.2.1
      (by decide) (by decide),
   ((init_is_fail_fast_and_ordered sample_env
      (sample_model learning_mode.ONLINE false) _ _ _ _ rfl rfl rfl rfl).2.2.2.2.2.2
      (by decide) (by decide) (by decide) (by decide) (by decide)).2.2⟩

/-! ### The episode record -/

/-- On a facade that holds an episode logger: in a call of `request_episodic_decision` with the
argument check, the policy, the sampler and `episode.update` succeeding, the call returns and
the episode record is handed to the episode logger exactly when the episode holds one event after
the update. The record is then the call that follows `episode.update`, the interaction logger is
called after it (and not at all when the episode logger fails), and no other episode record is
handed over. For a later event of the episode (the episode held an event already and the update
added one) no episode record is handed over. -/
theorem request_episodic_decision_logs_episode_once (env : Env) (self : live_model_impl)
    (event_id : String) (previous_id : Option String) (context_json : string_view)
    (flags : Nat) (resp : ranking_response) (episode : episode_state)
    (d : rank_decision) (sampled : ranking_response) (updated : episode_state)
    (hargs : check_null_or_empty (some event_id) context_json = error_code.success)
    (hd : env.model_choose_rank_multistep event_id (self.seed env event_id)
      (env.history_get_context episode.events previous_id context_json.text) episode.events =
      (error_code.success, d))
    (hs : env.sample_and_populate_response (self.seed env event_id) d.action_ids d.action_pdf
      d.model_version resp.clear = (error_code.success, sampled))
    (hu : env.episode_update episode event_id previous_id context_json.text
      (sampled.set_event_id event_id) = (error_code.success, updated))
    (hlogger : self._episode_logger = true) :
    ∃ o, self.request_episodic_decision env (some event_id) previous_id context_json flags resp
        episode = some o ∧
      o.episode = updated ∧
      (updated.size = 1 →
        env.episode_logger_log updated.get_episode_id ≠ error_code.success →
        o.code = env.episode_logger_log updated.get_episode_id ∧
        o.calls =
          [call.model_choose_rank_multistep event_id (self.seed env event_id)
             (env.history_get_context episode.events previous_id context_json.text)
             episode.events,
           call.sample_and_populate_response (self.seed env event_id) d.action_ids d.action_pdf
             d.model_version,
           call.episode_update event_id previous_id context_json.text
             (sampled.set_event_id event_id),
           call.episode_logger_log updated.get_episode_id]) ∧
      (updated.size = 1 →
        env.episode_logger_log updated.get_episode_id = error_code.success →
        o.calls =
          [call.model_choose_rank_multistep event_id (self.seed env event_id)
             (env.history_get_context episode.events previous_id context_json.text)
             episode.events,
           call.sample_and_populate_response (self.seed env event_id) d.action_ids d.action_pdf
             d.model_version,
           call.episode_update event_id previous_id context_json.text
             (sampled.set_event_id event_id),
           call.episode_logger_log updated.get_episode_id,
           call.interaction_logger_log_multistep updated.get_episode_id previous_id
             (env.history_get_context episode.events previous_id context_json.text) flags
             (sampled.set_event_id event_id)]) ∧
      (updated.size ≠ 1 →
        o.calls =
          [call.model_choose_rank_multistep event_id (self.seed env event_id)
             (env.history_get_context episode.events previous_id context_json.text)
             episode.events,
           call.sample_and_populate_response (self.seed env event_id) d.action_ids d.action_pdf
             d.model_version,
           call.episode_update event_id previous_id context_json.text
             (sampled.set_event_id event_id),
           call.interaction_logger_log_multistep updated.get_episode_id previous_id
             (env.history_get_context episode.events previous_id context_json.text) flags
             (sampled.set_event_id event_id)]) ∧
      ((∃ id, call.episode_logger_log id ∈ o.calls) ↔ updated.size = 1) ∧
      (0 < episode.size → updated.size = episode.size + 1 →
        ∀ id, call.episode_logger_log id ∉ o.calls) := by
  by_cases hsize : updated.size = 1
  · by_cases hlog : env.episode_logger_log updated.get_episode_id = error_code.success
    · have hval : ∃ code, self.request_episodic_decision env (some event_id) previous_id
          context_json flags resp episode =
          some { code := code, response := sampled.set_event_id event_id, episode := updated,
                 self := self,
                 calls :=
                  [call.model_choose_rank_multistep event_id (self.seed env event_id)
                     (env.history_get_context episode.events previous_id context_json.text)
                     episode.events,
                   call.sample_and_populate_response (self.seed env event_id) d.action_ids
                     d.action_pdf d.model_version,
                   call.episode_update event_id previous_id context_json.text
                     (sampled.set_event_id event_id),
                   call.episode_logger_log updated.get_episode_id,
                   call.interaction_logger_log_multistep updated.get_episode_id previous_id
                     (env.history_get_context episode.events previous_id context_json.text) flags
                     (sampled.set_event_id event_id)] } := by
        unfold live_model_impl.request_episodic_decision
        simp only [hargs, hd, hs, hu, hlogger, hsize, hlog, ne_eq, not_true_eq_false, if_false,
          if_true]
        split
        · exact ⟨_, rfl⟩
        · exact ⟨_, rfl⟩
      obtain ⟨code, hval⟩ := hval
      refine ⟨_, hval, rfl, ?_, ?_, ?_, ?_, ?_⟩
      · intro _ h
        exact absurd hlog h
      · intro _ _
        rfl
      · intro h
        exact absurd hsize h
      · exact ⟨fun _ => hsize, fun _ => ⟨updated.get_episode_id, by simp⟩⟩
      · intro h1 h2
        omega
    · have hval : self.request_episodic_decision env (some event_id) previous_id
          context_json flags resp episode =
          some { code := env.episode_logger_log updated.get_episode_id,
                 response := sampled.set_event_id event_id, episode := updated,
                 self := self,
                 calls :=
                  [call.model_choose_rank_multistep event_id (self.seed env event_id)
                     (env.history_get_context episode.events previous_id context_json.text)
                     episode.events,
                   call.sample_and_populate_response (self.seed env event_id) d.action_ids
                     d.action_pdf d.model_version,
                   call.episode_update event_id previous_id context_json.text
                     (sampled.set_event_id event_id),
                   call.episode_logger_log updated.get_episode_id] } := by
        unfold live_model_impl.request_episodic_decision
        simp [hargs, hd, hs, hu, hlogger, hsize, hlog]
      refine ⟨_, hval, rfl, ?_, ?_, ?_, ?_, ?_⟩
      · intro _ _
        exact ⟨rfl, rfl⟩
      · intro _ h
        exact absurd h hlog
      · intro h
        exact absurd hsize h
      · exact ⟨fun _ => hsize, fun _ => ⟨updated.get_episode_id, by simp⟩⟩
      · intro h1 h2
        omega
  · have hval : ∃ code, self.request_episodic_decision env (some event_id) previous_id
        context_json flags resp episode =
        some { code := code, response := sampled.set_event_id event_id, episode := updated,
               self := self,
               calls :=
                [call.model_choose_rank_multistep event_id (self.seed env event_id)
                   (env.history_get_context episode.events previous_id context_json.text)
                   episode.events,
                 call.sample_and_populate_response (self.seed env event_id) d.action_ids
                   d.action_pdf d.model_version,
                 call.episode_update event_id previous_id context_json.text
                   (sampled.set_event_id event_id),
                 call.interaction_logger_log_multistep updated.get_episode_id previous_id
                   (env.history_get_context episode.events previous_id context_json.text) flags
                   (sampled.set_event_id event_id)] } := by
      unfold live_model_impl.request_episodic_decision
      simp only [hargs, hd, hs, hu, hsize, ne_eq, not_true_eq_false, if_false]
      split
      · exact ⟨_, rfl⟩
      · exact ⟨_, rfl⟩
    obtain ⟨code, hval⟩ := hval
    refine ⟨_, hval, rfl, ?_, ?_, ?_, ?_, ?_⟩
    · intro h
      exact absurd h hsize
    · intro h
      exact absurd h hsize
    · intro _
      rfl
    · refine ⟨?_, fun h => absurd h hsize⟩
      rintro ⟨id, h⟩
      simp at h
    · intro _ _ id h
      simp at h


theorem request_episodic_decision_logs_episode_once_sample :
    ∃ o, (episodic_model.init sample_env).self.request_episodic_decision sample_env
        (some "e") none (string_view.of_string "ctx") 0 empty_ranking_response
        { episode_id := "ep", events := [] } = some o ∧
      o.calls =
        [call.model_choose_rank_multistep "e" 4 "ctx" [],
         call.sample_and_populate_response 4 [0, 1] [3, 4] "m",
         call.episode_update "e" none "ctx" ⟨"e", 1, "m", [⟨1, 4⟩, ⟨0, 3⟩]⟩,
         call.episode_logger_log "ep",
         call.interaction_logger_log_multistep "ep" none "ctx" 0
           ⟨"e", 1, "m", [⟨1, 4⟩, ⟨0, 3⟩]⟩] :=
  Exists.imp (fun _ h => ⟨h.1, h.2.2.2.1 (by decide) (by decide)⟩)
    (request_episodic_decision_logs_episode_once sample_env
      (episodic_model.init sample_env).self "e" none (string_view.of_string "ctx") 0
      empty_ranking_response { episode_id := "ep", events := [] }
      { action_ids := [0, 1], action_pdf := [3, 4], model_version := "m" }
      ⟨"", 1, "m", [⟨1, 4⟩, ⟨0, 3⟩]⟩
      { episode_id := "ep",
        events := [⟨"e", none, "ctx", ⟨"e", 1, "m", [⟨1, 4⟩, ⟨0, 3⟩]⟩⟩] }
      rfl rfl rfl rfl (by decide))

/-- C24 (defect of the code): `init_loggers` creates the episode logger only when the
configuration names an episode sender (`episode.eh.host`, `episode.file.name` or
`episode.http.api.host`), and `request_episodic_decision` calls `_episode_logger->log` for the
first event of an episode without testing the pointer. On a facade built and initialised from a
configuration with none of these names, `init` succeeds and holds no episode logger, and the
first decision of an episode dereferences the null pointer: behaviour is undefined and no episode
record is handed over, where the claim has the record handed to the episode logger. A later
event of the episode (the episode holds two events after the update) is logged. -/
theorem request_episodic_decision_without_episode_logger :
    ((live_model_impl.live_model_impl_error_fn sample_env
        { entries := [(name.APP_ID, "app")] } none).init sample_env).code =
      error_code.success ∧
    ((live_model_impl.live_model_impl_error_fn sample_env
        { entries := [(name.APP_ID, "app")] } none).init sample_env).self._episode_logger =
      false ∧
    (((live_model_impl.live_model_impl_error_fn sample_env
        { entries := [(name.APP_ID, "app")] } none).init sample_env).self.request_episodic_decision
      sample_env (some "e") none (string_view.of_string "ctx") 0 empty_ranking_response
      { episode_id := "ep", events := [] }).isNone = true ∧
    ((((live_model_impl.live_model_impl_error_fn sample_env
        { entries := [(name.APP_ID, "app")] } none).init sample_env).self.request_episodic_decision
      sample_env (some "e2") (some "e") (string_view.of_string "ctx") 0 empty_ranking_response
      { episode_id := "ep",
        events := [⟨"e", none, "ctx", ⟨"e", 1, "m", [⟨1, 4⟩, ⟨0, 3⟩]⟩⟩] }).map
      (fun o => (o.code, o.calls.map call.is_logger))) =
      some (error_code.success, [false, false, false, true]) := by
  refine ⟨by decide, by decide, by decide, by decide⟩

end reinforcement_learning
